import Mathlib

/-!
# Review Gate V2 (Cursor extension): trigger protocol, arbitration, replies, voice capture

A shallow embedding of `cursor-extension/extension.js`.

* JavaScript values are `Option JVal` (`none` is `undefined`).
* Library functions of the platform that the extension calls are either
  modelled from their public definition (MD5, RFC 1321; UTF-8) or taken from a
  `Host` record (Unicode case mapping, temp directory, clock).
* Functions that touch the file system are written as `Prog` trees: every
  `fs.*Sync` call and every editor API call is one node, so that the same
  definition can be run sequentially (`Prog.run`) or interleaved with other
  window processes, one call at a time (`Sys.act`).
* Callbacks (timers, the message handler of the panel, the `exit` listener of
  the recording process) are functions of the window state at the time they
  run; what a callback captured when it was created is kept with the panel,
  the timer or the listener.
* Calls of `console.log` are left out.
-/

namespace ReviewGate

/-! ## Platform -/

/-- What the extension takes from Node and the operating system. -/
structure Host where
  /-- The library function `String.prototype.toLowerCase`. -/
  toLowerCase : String → String
  /-- The library function `String.prototype.toUpperCase`. -/
  toUpperCase : String → String
  /-- Whether `process.platform === 'win32'`. -/
  win32 : Bool
  /-- The value of `os.tmpdir()`. -/
  tmpdir : String
  /-- The value of `new Date().toISOString()`. -/
  nowIso : String

/-- ASCII case mapping, exact for strings of ASCII characters. -/
def asciiLower (s : String) : String := String.mk (s.toList.map Char.toLower)

/-- ASCII case mapping, exact for strings of ASCII characters. -/
def asciiUpper (s : String) : String := String.mk (s.toList.map Char.toUpper)

/-- A POSIX host whose temp directory is `/tmp`. -/
def posixHost : Host :=
  { toLowerCase := asciiLower, toUpperCase := asciiUpper, win32 := false,
    tmpdir := "/tmp", nowIso := "2025-01-01T00:00:00.000Z" }

/-- A Windows host. -/
def windowsHost : Host :=
  { toLowerCase := asciiLower, toUpperCase := asciiUpper, win32 := true,
    tmpdir := "C:\\Temp", nowIso := "2025-01-01T00:00:00.000Z" }

/-- The library function `path.join(dir, file)` for a plain file name. -/
def pathJoin (h : Host) (dir file : String) : String :=
  dir ++ (if h.win32 then "\\" else "/") ++ file

/-- Source: `getTempPath(filename)`. -/
def getTempPath (h : Host) (filename : String) : String :=
  if h.win32 then pathJoin h h.tmpdir filename else pathJoin h "/tmp" filename

/-! ## MD5 (RFC 1321), for `crypto.createHash('md5')` -/

def md5K : List Nat :=
  [0xd76aa478, 0xe8c7b756, 0x242070db, 0xc1bdceee, 0xf57c0faf, 0x4787c62a, 0xa8304613, 0xfd469501,
   0x698098d8, 0x8b44f7af, 0xffff5bb1, 0x895cd7be, 0x6b901122, 0xfd987193, 0xa679438e, 0x49b40821,
   0xf61e2562, 0xc040b340, 0x265e5a51, 0xe9b6c7aa, 0xd62f105d, 0x02441453, 0xd8a1e681, 0xe7d3fbc8,
   0x21e1cde6, 0xc33707d6, 0xf4d50d87, 0x455a14ed, 0xa9e3e905, 0xfcefa3f8, 0x676f02d9, 0x8d2a4c8a,
   0xfffa3942, 0x8771f681, 0x6d9d6122, 0xfde5380c, 0xa4beea44, 0x4bdecfa9, 0xf6bb4b60, 0xbebfbc70,
   0x289b7ec6, 0xeaa127fa, 0xd4ef3085, 0x04881d05, 0xd9d4d039, 0xe6db99e5, 0x1fa27cf8, 0xc4ac5665,
   0xf4292244, 0x432aff97, 0xab9423a7, 0xfc93a039, 0x655b59c3, 0x8f0ccc92, 0xffeff47d, 0x85845dd1,
   0x6fa87e4f, 0xfe2ce6e0, 0xa3014314, 0x4e0811a1, 0xf7537e82, 0xbd3af235, 0x2ad7d2bb, 0xeb86d391]

def md5S : List Nat :=
  [7, 12, 17, 22, 7, 12, 17, 22, 7, 12, 17, 22, 7, 12, 17, 22,
   5, 9, 14, 20, 5, 9, 14, 20, 5, 9, 14, 20, 5, 9, 14, 20,
   4, 11, 16, 23, 4, 11, 16, 23, 4, 11, 16, 23, 4, 11, 16, 23,
   6, 10, 15, 21, 6, 10, 15, 21, 6, 10, 15, 21, 6, 10, 15, 21]

/-- Truncation to a 32-bit word. -/
def w32 (n : Nat) : Nat := n % 4294967296

def rotl32 (x c : Nat) : Nat :=
  w32 (x <<< c) ||| (x >>> (32 - c))

def not32 (x : Nat) : Nat := x ^^^ 4294967295

/-- UTF-8 encoding of one code point, as byte values. -/
def utf8Bytes (c : Char) : List Nat :=
  let n := c.toNat
  if n < 128 then [n]
  else if n < 2048 then [192 + n / 64, 128 + n % 64]
  else if n < 65536 then [224 + n / 4096, 128 + (n / 64) % 64, 128 + n % 64]
  else [240 + n / 262144, 128 + (n / 4096) % 64, 128 + (n / 64) % 64, 128 + n % 64]

/-- The `k` low bytes of `n`, least significant first. -/
def leBytes : Nat → Nat → List Nat
  | 0, _ => []
  | k + 1, n => (n % 256) :: leBytes k (n / 256)

def md5Pad (msg : List Nat) : List Nat :=
  let l := msg.length
  let z := (119 - l % 64) % 64
  msg ++ 128 :: (List.replicate z 0 ++ leBytes 8 (8 * l))

def leWord (bs : List Nat) : Nat :=
  bs.foldr (fun b acc => b + 256 * acc) 0

def chunkWords : Nat → List Nat → List Nat
  | 0, _ => []
  | k + 1, bs => leWord (bs.take 4) :: chunkWords k (bs.drop 4)

structure Md5State where
  a : Nat
  b : Nat
  c : Nat
  d : Nat

def md5Round (m : List Nat) (st : Md5State) (i : Nat) : Md5State :=
  let f :=
    if i < 16 then (st.b &&& st.c) ||| (not32 st.b &&& st.d)
    else if i < 32 then (st.d &&& st.b) ||| (not32 st.d &&& st.c)
    else if i < 48 then st.b ^^^ st.c ^^^ st.d
    else st.c ^^^ (st.b ||| not32 st.d)
  let g :=
    if i < 16 then i
    else if i < 32 then (5 * i + 1) % 16
    else if i < 48 then (3 * i + 5) % 16
    else (7 * i) % 16
  let x := w32 (f + st.a + md5K.getD i 0 + m.getD g 0)
  ⟨st.d, w32 (st.b + rotl32 x (md5S.getD i 0)), st.b, st.c⟩

def md5Chunk (st : Md5State) (chunk : List Nat) : Md5State :=
  let m := chunkWords 16 chunk
  let r := (List.range 64).foldl (md5Round m) st
  ⟨w32 (st.a + r.a), w32 (st.b + r.b), w32 (st.c + r.c), w32 (st.d + r.d)⟩

def md5Chunks : Nat → Md5State → List Nat → Md5State
  | 0, st, _ => st
  | k + 1, st, bs => md5Chunks k (md5Chunk st (bs.take 64)) (bs.drop 64)

def hexDigit (n : Nat) : Char :=
  "0123456789abcdef".toList.getD n '0'

def hexByte (b : Nat) : List Char := [hexDigit (b / 16), hexDigit (b % 16)]

/-- The call chain `crypto.createHash('md5').update(s).digest('hex')`. -/
def md5Hex (s : String) : String :=
  let bytes := md5Pad (s.toList.flatMap utf8Bytes)
  let st := md5Chunks (bytes.length / 64) ⟨0x67452301, 0xefcdab89, 0x98badcfe, 0x10325476⟩ bytes
  String.mk ((leBytes 4 st.a ++ leBytes 4 st.b ++ leBytes 4 st.c ++ leBytes 4 st.d).flatMap hexByte)

/-! ## Workspace identity -/

/-- The expression `s.replace(/\\/g, '/')`: every backslash becomes a slash. -/
def replaceBackslashes (s : String) : String :=
  String.mk (s.toList.map fun c => if c = '\\' then '/' else c)

/-- The expression `p.replace(/\\/g, '/').toLowerCase()` used for hashing and
for comparing workspace paths. -/
def normalizePath (h : Host) (p : String) : String :=
  h.toLowerCase (replaceBackslashes p)

/-- The expression `s.substring(0, n)`. -/
def substring0 (s : String) (n : Nat) : String := String.mk (s.toList.take n)

/-- Source: `calculateWorkspaceHash(wsPath)`; `none` is `null`. -/
def calculateWorkspaceHash (h : Host) (wsPath : Option String) : Option String :=
  match wsPath with
  | none => none
  | some p =>
    if p = "" then none
    else some (substring0 (md5Hex (normalizePath h p)) 8)

/-! ## JavaScript values -/

/-- A JSON value (numbers are integers). An array also carries the named
properties that were set on it after parsing (arrays are objects in
JavaScript). -/
inductive JVal where
  | null
  | bool (b : Bool)
  | num (n : Int)
  | str (s : String)
  | arr (items : List JVal) (props : List (String × JVal))
  | obj (fields : List (String × JVal))

/-- A JavaScript value: `none` is `undefined`. -/
abbrev JsValue := Option JVal

/-- What a JavaScript exception carries, as far as the extension looks at it. -/
inductive JsError where
  | typeError
  | syntaxError
  | fsError (code : String)
  deriving DecidableEq, Repr

mutual
/-- String conversion of a value, as in a template literal. -/
def JVal.render : JVal → String
  | .null => "null"
  | .bool b => if b then "true" else "false"
  | .num n => toString n
  | .str s => s
  | .arr items _ => JVal.joinItems items
  | .obj _ => "[object Object]"
termination_by structural v => v
/-- The items of an array joined by commas (`null` items give the empty string). -/
def JVal.joinItems : List JVal → String
  | [] => ""
  | x :: rest =>
    (match x with
      | .null => ""
      | v => JVal.render v) ++ (if rest.isEmpty then "" else "," ++ JVal.joinItems rest)
termination_by structural l => l
end

/-- String conversion of a possibly undefined value. -/
def renderJs : JsValue → String
  | none => "undefined"
  | some v => v.render

/-- JavaScript truthiness. -/
def truthy : JsValue → Bool
  | none => false
  | some .null => false
  | some (.bool b) => b
  | some (.num n) => n != 0
  | some (.str s) => s != ""
  | some (.arr _ _) => true
  | some (.obj _) => true

/-- The expression `a || b`. -/
def jsOr (a b : JsValue) : JsValue := if truthy a then a else b

/-- The expression `a || b` where `b` is never undefined. -/
def jsOrD (a : JsValue) (b : JVal) : JVal :=
  match a with
  | some v => if truthy (some v) then v else b
  | none => b

/-- The test `v === s` for a string `s`. -/
def isStr (v : JsValue) (s : String) : Bool :=
  match v with
  | some (.str t) => t == s
  | _ => false

/-- The value stored under key `k` in a property list. -/
def lookupKey (k : String) : List (String × JVal) → JsValue
  | [] => none
  | kv :: rest => if kv.1 = k then some kv.2 else lookupKey k rest

/-- The condition `v && v !== s` of lines 317 and 321: the field is present with
a truthy value that is not the string `s`. -/
def declaresOther (v : JsValue) (s : String) : Bool := truthy v && !isStr v s

/-- The property `v.k` of a value that is neither `null` nor `undefined`. -/
def JVal.getProp (v : JVal) (k : String) : JsValue :=
  match v with
  | .obj fields => lookupKey k fields
  | .arr _ props => lookupKey k props
  | _ => none

/-- The expression `v?.k`. -/
def optMember (v : JsValue) (k : String) : JsValue :=
  match v with
  | none => none
  | some .null => none
  | some o => o.getProp k

/-- Assignment to a key of a property list: an existing key keeps its place. -/
def setField (fields : List (String × JVal)) (k : String) (v : JVal) : List (String × JVal) :=
  if (lookupKey k fields).isSome then
    fields.map (fun kv => if kv.1 = k then (k, v) else kv)
  else fields ++ [(k, v)]

/-- The assignment `o.k = v` on a value that is neither `null` nor `undefined`.
On a primitive the assignment has no effect (the module is not in strict mode). -/
def JVal.setProp (o : JVal) (k : String) (v : JVal) : JVal :=
  match o with
  | .obj fields => .obj (setField fields k v)
  | .arr items props => .arr items (setField props k v)
  | other => other

/-- Keys `i, i+1, ...` for the items of an array or the characters of a string. -/
def indexFrom : Nat → List JVal → List (String × JVal)
  | _, [] => []
  | i, x :: rest => (toString i, x) :: indexFrom (i + 1) rest

/-- The own enumerable properties copied by the spread `{ ...v }`. -/
def spreadFields : JsValue → List (String × JVal)
  | some (.obj fields) => fields
  | some (.arr items props) => indexFrom 0 items ++ props
  | some (.str s) => indexFrom 0 (s.toList.map fun c => JVal.str (String.mk [c]))
  | _ => []

/-- An object literal as written to a file by `JSON.stringify`: properties
whose value is `undefined` are left out. -/
def mkObj (fields : List (String × JsValue)) : JVal :=
  .obj (fields.filterMap fun kv => kv.2.map fun v => (kv.1, v))

/-- A `string | null` global as a value. -/
def ofOptString : Option String → JVal
  | none => .null
  | some s => .str s

/-- The expression `s.replace('_', ' ')`: only the first underscore is replaced. -/
def replaceFirstUnderscore : List Char → List Char
  | [] => []
  | c :: rest => if c = '_' then ' ' :: rest else c :: replaceFirstUnderscore rest

/-- The expression `s.charAt(0).toUpperCase() + s.slice(1)`. -/
def capitalize (h : Host) (s : String) : String :=
  match s.toList with
  | [] => ""
  | c :: rest => h.toUpperCase (String.mk [c]) ++ String.mk rest

/-! ## File system -/

/-- The text of a file: JSON text (kept as the value it parses to), text that
`JSON.parse` rejects, or the bytes of a `Buffer`. -/
inductive Content where
  | json (v : JVal)
  | text (raw : String)
  | binary (bytes : List Nat)

/-- The call `JSON.parse(data)`. -/
def Content.parse : Content → Except JsError JVal
  | .json v => .ok v
  | _ => .error .syntaxError

/-- The kinds of file-system call for which a failure can be injected. -/
inductive FsOp where
  | read
  | write
  | unlink
  | append
  | stat
  deriving DecidableEq, Repr

/-- What `fs.statSync` reports. -/
structure Stats where
  mtimeMs : Int
  size : Nat
  deriving DecidableEq, Repr

/-- The shared temp directory. `fault op p = some code` makes `op` on `p` fail
with that error code (permissions, a full disk, a competing process). -/
structure FS where
  files : String → Option Content
  fault : FsOp → String → Option String
  stats : String → Stats

def FS.existsSync (fs : FS) (p : String) : Bool := (fs.files p).isSome

def FS.readFileSync (fs : FS) (p : String) : Except JsError Content :=
  match fs.fault .read p with
  | some code => .error (.fsError code)
  | none =>
    match fs.files p with
    | none => .error (.fsError "ENOENT")
    | some c => .ok c

/-- The file map after `p` received content `c`. -/
def FS.put (fs : FS) (p : String) (c : Content) : FS :=
  { fs with files := fun q => if q = p then some c else fs.files q }

/-- The file map after `p` was removed. -/
def FS.remove (fs : FS) (p : String) : FS :=
  { fs with files := fun q => if q = p then none else fs.files q }

/-- The call `fs.writeFileSync(p, c)`, with flag `wx` when `excl`: the result
and the file system afterwards. -/
def FS.writeFileSync (fs : FS) (p : String) (c : Content) (excl : Bool) :
    Except JsError Unit × FS :=
  match fs.fault .write p with
  | some code => (.error (.fsError code), fs)
  | none =>
    if excl && fs.existsSync p then (.error (.fsError "EEXIST"), fs)
    else (.ok (), fs.put p c)

def FS.unlinkSync (fs : FS) (p : String) : Except JsError Unit × FS :=
  match fs.fault .unlink p with
  | some code => (.error (.fsError code), fs)
  | none =>
    if fs.existsSync p then (.ok (), fs.remove p)
    else (.error (.fsError "ENOENT"), fs)

/-- The call `fs.appendFileSync(p, s)`. The text of a JSON file is not kept, so
appending to one leaves only the appended text. -/
def FS.appendFileSync (fs : FS) (p : String) (s : String) : Except JsError Unit × FS :=
  match fs.fault .append p with
  | some code => (.error (.fsError code), fs)
  | none =>
    match fs.files p with
    | some (.text raw) => (.ok (), fs.put p (.text (raw ++ s)))
    | _ => (.ok (), fs.put p (.text s))

def FS.statSync (fs : FS) (p : String) : Except JsError Stats :=
  match fs.fault .stat p with
  | some code => .error (.fsError code)
  | none => if fs.existsSync p then .ok (fs.stats p) else .error (.fsError "ENOENT")

/-! ## Panel, window state and programs -/

/-- The options object passed to `openReviewGatePopup`; `none` and `false`
are the properties the caller left out. -/
structure PopupOptions where
  message : JsValue := none
  title : JsValue := none
  autoFocus : Bool := false
  toolData : JsValue := none
  mcpIntegration : Bool := false
  triggerId : JsValue := none
  specialHandling : JsValue := none

/-- A message posted to the panel's webview. -/
inductive WebviewMessage where
  | updateMcpStatus (active : Bool)
  | addMessage (text : JVal) (toolData : JVal) (mcpIntegration : Bool) (triggerId : JVal)
      (specialHandling : JsValue)
  | focus
  /-- The message `{ command: 'addMessage', text, type: 'system' }`, with
  `plain: true` when `plain`. -/
  | systemMessage (text : String) (plain : Bool)
  | speechTranscribed (transcription : String) (error : Option String)
  /-- The message `{ command: 'speechTranscribed', transcription }` whose
  transcription is the value read from the speech response file. -/
  | speechResult (transcription : JVal)
  | recordingStarted (audioFile : String)

/-- The webview panel held in the global `chatPanel`, with the values its
message handler captured when the panel was created. -/
structure Panel where
  title : String
  htmlTitle : String
  htmlMcpIntegration : Bool
  message : JVal
  toolData : JVal
  mcpIntegration : Bool
  triggerId : JVal
  specialHandling : JVal

/-- A callback passed to `setTimeout`. -/
inductive TimerAction where
  | checkTriggerFileWithLock (filePath : String) (triggerData : JVal) (triggerId : JsValue)
      (lockFilePath : String) (triggerWorkspaceHash : JVal)
  | unlinkLock (lockFilePath : String)
  | postMessage (msg : WebviewMessage)
  /-- The 500 ms callback of `handleReviewMessage`: it posts `msg` and sets the
  1000 ms timer `statusInactive`. -/
  | confirmReply (msg : WebviewMessage)
  /-- The 1000 ms callback of `handleReviewMessage`. -/
  | statusInactive
  /-- The 1000 ms callback set by the `exit` listener of `stopNodeRecording`. -/
  | checkAudioFile (audioFile : String) (triggerId : JsValue)
  /-- The 3000 ms callback of `stopNodeRecording`. -/
  | forceKill

/-- The `exit` listener that a call of `stopNodeRecording` put on the recording
process, with the two values it captured. -/
structure ExitListener where
  audioFile : String
  triggerId : JsValue

/-- The recording process held in the global `currentRecording` (`pid` is
undefined when the process could not be spawned). -/
structure Recording where
  pid : Option Nat
  audioFile : String
  triggerId : JsValue
  exitListeners : List ExitListener

/-- A running transcription poll of `handleSpeechToText` (an interval of
500 ms) with the variables of its closure. -/
structure SpeechPoll where
  triggerId : JsValue
  triggerFile : String
  waitTime : Nat

/-- The module-level variables of one extension instance (one editor window),
the focus state of its window and its pending timers (delay in ms, callback). -/
structure Window where
  workspacePath : Option String
  workspaceHash : Option String
  focused : Bool
  chatPanel : Option Panel
  currentTriggerData : JsValue
  currentMcpIntegration : Bool
  mcpStatus : Bool
  timers : List (Nat × TimerAction)
  currentRecording : Option Recording
  speechPolls : List SpeechPoll

/-- The call `setTimeout(callback, ms)`. -/
def Window.setTimeout (w : Window) (ms : Nat) (a : TimerAction) : Window :=
  { w with timers := w.timers ++ [(ms, a)] }

/-- A call of the editor API. -/
inductive HostCall where
  | createWebviewPanel (title : String)
  | setHtml (title : String) (mcpIntegration : Bool)
  | reveal
  | setTitle (title : String)
  | postMessage (msg : WebviewMessage)
  | showInformationMessage (text : String)
  /-- The call `outputChannel.appendLine(text)`. -/
  | appendLine (text : String)
  | showErrorMessage (text : String)
  /-- The call `currentRecording.kill(signal)`. -/
  | kill (pid : Option Nat) (signal : String)
  /-- The call `spawn(command, args)`. -/
  | spawn (command : String) (args : List String)

/-- A function body as the tree of its file-system and editor calls. `done s`
returns with module state `s`; `fail e s` leaves by throwing `e`. -/
inductive Prog (σ : Type) where
  | done (s : σ)
  | fail (e : JsError) (s : σ)
  | existsSync (p : String) (k : Bool → Prog σ)
  | readFileSync (p : String) (k : Except JsError Content → Prog σ)
  | writeFileSync (p : String) (c : Content) (excl : Bool) (k : Except JsError Unit → Prog σ)
  | unlinkSync (p : String) (k : Except JsError Unit → Prog σ)
  | appendFileSync (p : String) (text : String) (k : Except JsError Unit → Prog σ)
  | statSync (p : String) (k : Except JsError Stats → Prog σ)
  | host (c : HostCall) (k : Prog σ)

/-- Sequencing: `f` runs after `p` returned normally. -/
def Prog.bind {σ : Type} : Prog σ → (σ → Prog σ) → Prog σ
  | .done s, f => f s
  | .fail e s, _ => .fail e s
  | .existsSync p k, f => .existsSync p fun b => (k b).bind f
  | .readFileSync p k, f => .readFileSync p fun r => (k r).bind f
  | .writeFileSync p c x k, f => .writeFileSync p c x fun r => (k r).bind f
  | .unlinkSync p k, f => .unlinkSync p fun r => (k r).bind f
  | .appendFileSync p t k, f => .appendFileSync p t fun r => (k r).bind f
  | .statSync p k, f => .statSync p fun r => (k r).bind f
  | .host c k, f => .host c (k.bind f)

/-- The statement `try { p } catch (e) { handler }`. -/
def Prog.tryCatch {σ : Type} : Prog σ → (JsError → σ → Prog σ) → Prog σ
  | .done s, _ => .done s
  | .fail e s, f => f e s
  | .existsSync p k, f => .existsSync p fun b => (k b).tryCatch f
  | .readFileSync p k, f => .readFileSync p fun r => (k r).tryCatch f
  | .writeFileSync p c x k, f => .writeFileSync p c x fun r => (k r).tryCatch f
  | .unlinkSync p k, f => .unlinkSync p fun r => (k r).tryCatch f
  | .appendFileSync p t k, f => .appendFileSync p t fun r => (k r).tryCatch f
  | .statSync p k, f => .statSync p fun r => (k r).tryCatch f
  | .host c k, f => .host c (k.tryCatch f)

/-- One executed call with its result. -/
inductive TraceItem where
  | existsSync (p : String) (r : Bool)
  | readFileSync (p : String) (r : Except JsError Content)
  | writeFileSync (p : String) (c : Content) (excl : Bool) (r : Except JsError Unit)
  | unlinkSync (p : String) (r : Except JsError Unit)
  | appendFileSync (p : String) (text : String) (r : Except JsError Unit)
  | statSync (p : String) (r : Except JsError Stats)
  | host (c : HostCall)

/-- The result of running a function body to its end. -/
structure Run (σ : Type) where
  state : σ
  /-- The exception that left the function, if any. -/
  error : Option JsError
  fs : FS
  /-- The calls made, in order. -/
  trace : List TraceItem

/-- Runs a function body with no other process touching the file system. -/
def Prog.run {σ : Type} : Prog σ → FS → Run σ
  | .done s, fs => ⟨s, none, fs, []⟩
  | .fail e s, fs => ⟨s, some e, fs, []⟩
  | .existsSync p k, fs =>
    let b := fs.existsSync p
    let r := (k b).run fs
    { r with trace := .existsSync p b :: r.trace }
  | .readFileSync p k, fs =>
    let x := fs.readFileSync p
    let r := (k x).run fs
    { r with trace := .readFileSync p x :: r.trace }
  | .writeFileSync p c excl k, fs =>
    let x := fs.writeFileSync p c excl
    let r := (k x.1).run x.2
    { r with trace := .writeFileSync p c excl x.1 :: r.trace }
  | .unlinkSync p k, fs =>
    let x := fs.unlinkSync p
    let r := (k x.1).run x.2
    { r with trace := .unlinkSync p x.1 :: r.trace }
  | .appendFileSync p t k, fs =>
    let x := fs.appendFileSync p t
    let r := (k x.1).run x.2
    { r with trace := .appendFileSync p t x.1 :: r.trace }
  | .statSync p k, fs =>
    let x := fs.statSync p
    let r := (k x).run fs
    { r with trace := .statSync p x :: r.trace }
  | .host c k, fs =>
    let r := k.run fs
    { r with trace := .host c :: r.trace }

/-! ## The extension's functions -/

/-- Lines 559-566 of `sendExtensionAcknowledgement`: the acknowledgement. -/
def ackData (h : Host) (triggerId toolType : JsValue) : JVal :=
  mkObj
    [("acknowledged", some (.bool true)), ("timestamp", some (.str h.nowIso)),
     ("trigger_id", triggerId), ("tool_type", toolType),
     ("extension", some (.str "review-gate-v2")), ("popup_activated", some (.bool true))]

/-- Lines 552-553 of `handleReviewGateToolCall`: the notification text. -/
def triggeredNotification (h : Host) (tool : String) : String :=
  let toolDisplayName := h.toUpperCase (String.mk (replaceFirstUnderscore tool.toList))
  "Cursor Agent 触发了 \"" ++ toolDisplayName ++ "\" - Review Gate 弹窗已打开，等待您的输入！"

/-- Source: `sendExtensionAcknowledgement(triggerId, toolType)`. A failed write
is caught and logged. -/
def sendExtensionAcknowledgement (h : Host) (triggerId toolType : JsValue) (w : Window) :
    Prog Window :=
  let ackFile := getTempPath h ("review_gate_ack_" ++ renderJs triggerId ++ ".json")
  .writeFileSync ackFile (.json (ackData h triggerId toolType)) false fun _ => .done w

/-- Source: `openReviewGatePopup(context, options)`. -/
def openReviewGatePopup (opts : PopupOptions) (w : Window) : Prog Window :=
  let message := opts.message.getD
    (.str "Welcome to Review Gate V2! Please provide your review or feedback.")
  let title := opts.title.getD (.str "Review Gate")
  let toolData := opts.toolData.getD .null
  let triggerId := opts.triggerId.getD .null
  let specialHandling := opts.specialHandling.getD .null
  let w1 := { w with currentMcpIntegration := opts.mcpIntegration }
  let spread : JVal := .obj (setField (spreadFields (some toolData)) "trigger_id" triggerId)
  let w2 := if truthy (some triggerId) then { w1 with currentTriggerData := some spread } else w1
  match w.chatPanel with
  | some panel =>
    let w3 := { w2 with chatPanel := some { panel with title := "Review Gate" } }
    let w4 :=
      if opts.mcpIntegration then w3.setTimeout 100 (.postMessage (.updateMcpStatus true))
      else w3
    let w5 :=
      if truthy (some message) && opts.mcpIntegration then
        w4.setTimeout 150
          (.postMessage (.addMessage message toolData opts.mcpIntegration triggerId none))
      else w4
    let w6 := if opts.autoFocus then w5.setTimeout 200 (.postMessage .focus) else w5
    .host .reveal (.host (.setTitle "Review Gate") (.done w6))
  | none =>
    let panel : Panel :=
      { title := title.render, htmlTitle := title.render,
        htmlMcpIntegration := opts.mcpIntegration, message := message, toolData := toolData,
        mcpIntegration := opts.mcpIntegration, triggerId := triggerId,
        specialHandling := specialHandling }
    let w3 := { w2 with chatPanel := some panel }
    let w4 := if opts.autoFocus then w3.setTimeout 200 (.postMessage .focus) else w3
    .host (.createWebviewPanel title.render)
      (.host (.setHtml title.render opts.mcpIntegration) (.done w4))

/-- The `switch (toolData.tool)` of `handleReviewGateToolCall`: the popup
options of each tool. A `mode` that is not a string has no `charAt`. -/
def popupOptionsFor (h : Host) (toolData : JVal) : Except JsError PopupOptions :=
  let get := toolData.getProp
  let tool := get "tool"
  if isStr tool "review_gate" then
    match jsOrD (get "mode") (.str "chat") with
    | .str mode =>
      let modeTitle :=
        if truthy (get "unified_tool") then "Review Gate V2 ゲート - Unified (" ++ mode ++ ")"
        else "Review Gate V2 - " ++ capitalize h mode ++ " Mode"
      .ok { message := jsOr (get "message") (some (.str "Please provide your input:")),
            title := jsOr (get "title") (some (.str modeTitle)),
            autoFocus := true, toolData := some toolData, mcpIntegration := true,
            specialHandling := some (.str ("unified_" ++ mode)) }
    | _ => .error .typeError
  else if isStr tool "review_gate_chat" then
    .ok { message := jsOr (get "message") (some (.str "Please provide your review or feedback:")),
          title := jsOr (get "title") (some (.str "Review Gate V2 - ゲート")),
          autoFocus := true, toolData := some toolData, mcpIntegration := true }
  else if isStr tool "quick_review" then
    .ok { message := jsOr (get "prompt") (some (.str "Quick feedback needed:")),
          title := jsOr (get "title") (some (.str "Review Gate V2 ゲート - Quick Review")),
          autoFocus := true, toolData := some toolData, mcpIntegration := true,
          specialHandling := some (.str "quick_review") }
  else if isStr tool "ingest_text" then
    .ok { message := some (.str
            ("Cursor Agent received text input and needs your feedback:\n\n**Text Content:** "
              ++ renderJs (get "text_content") ++ "\n**Source:** " ++ renderJs (get "source")
              ++ "\n**Context:** " ++ renderJs (jsOr (get "context") (some (.str "None")))
              ++ "\n**Processing Mode:** " ++ renderJs (get "processing_mode")
              ++ "\n\nPlease review and provide your feedback:")),
          title := jsOr (get "title") (some (.str "Review Gate V2 ゲート - Text Input")),
          autoFocus := true, toolData := some toolData, mcpIntegration := true }
  else if isStr tool "shutdown_mcp" then
    .ok { message := some (.str
            ("Cursor Agent is requesting to shutdown the MCP server:\n\n**Reason:** "
              ++ renderJs (get "reason")
              ++ "\n**Immediate:** " ++ (if truthy (get "immediate") then "Yes" else "No")
              ++ "\n**Cleanup:** " ++ (if truthy (get "cleanup") then "Yes" else "No")
              ++ "\n\nType 'CONFIRM' to proceed with shutdown, or provide alternative instructions:")),
          title := jsOr (get "title")
            (some (.str "Review Gate V2 ゲート - Shutdown Confirmation")),
          autoFocus := true, toolData := some toolData, mcpIntegration := true,
          specialHandling := some (.str "shutdown_mcp") }
  else if isStr tool "file_review" then
    .ok { message := jsOr (get "instruction")
            (some (.str "Cursor Agent needs you to select files:")),
          title := jsOr (get "title") (some (.str "Review Gate V2 ゲート - File Review")),
          autoFocus := true, toolData := some toolData, mcpIntegration := true }
  else
    .ok { message := jsOr (get "message") (jsOr (get "prompt") (jsOr (get "instruction")
            (some (.str "Cursor Agent needs your input. Please provide your response:")))),
          title := jsOr (get "title") (some (.str "Review Gate V2 ゲート - General Input")),
          autoFocus := true, toolData := some toolData, mcpIntegration := true }

/-- Source: `handleReviewGateToolCall(context, toolData)`. -/
def handleReviewGateToolCall (h : Host) (toolData : JsValue) (w : Window) : Prog Window :=
  match toolData with
  | none => .fail .typeError w
  | some .null => .fail .typeError w
  | some td =>
    match popupOptionsFor h td with
    | .error e => .fail e w
    | .ok popupOptions =>
      (openReviewGatePopup
        { popupOptions with
            triggerId := td.getProp "trigger_id", title := some (.str "Review Gate") } w).bind
      fun w1 =>
      (sendExtensionAcknowledgement h (td.getProp "trigger_id") (td.getProp "tool") w1).bind
      fun w2 =>
      match td.getProp "tool" with
      | some (.str tool) =>
        .host (.showInformationMessage (triggeredNotification h tool)) (.done w2)
      | _ => .fail .typeError w2

/-- Source: `processTrigger(context, filePath, triggerData, triggerId,
triggerWorkspaceHash)`. The failed removal of the trigger file is caught. -/
def processTrigger (h : Host) (filePath : String) (triggerData : JVal) (_triggerId : JsValue)
    (triggerWorkspaceHash : JVal) (w : Window) : Prog Window :=
  match triggerData with
  | .null => .fail .typeError w
  | _ =>
    let data := triggerData.getProp "data"
    let w1 := { w with currentTriggerData := data }
    match data with
    | none => .fail .typeError w1
    | some .null => .fail .typeError w1
    | some d =>
      let d1 := d.setProp "_workspaceHash"
        (jsOrD (some triggerWorkspaceHash) (ofOptString w.workspaceHash))
      let w2 := { w1 with currentTriggerData := some d1 }
      (handleReviewGateToolCall h (some d1) w2).bind fun w3 =>
      .unlinkSync filePath fun _ => .done w3

/-- Lines 381-394 of `checkTriggerFileWithLock`: `true` when the window goes on
to the lock, `false` on a workspace mismatch. -/
def workspaceMatches (h : Host) (triggerData : JVal) (w : Window) : Except JsError Bool :=
  match triggerData with
  | .null => .error .typeError
  | _ =>
    let triggerWorkspacePath := jsOr (triggerData.getProp "workspace_path")
      (optMember (triggerData.getProp "data") "workspace_path")
    if truthy triggerWorkspacePath && truthy (w.workspacePath.map .str) then
      match triggerWorkspacePath, w.workspacePath with
      | some (.str t), some p => .ok (normalizePath h t == normalizePath h p)
      | _, _ => .error .typeError
    else .ok true

/-- Lines 398-403 of `checkTriggerFileWithLock`: the content of the lock file. -/
def lockData (h : Host) (w : Window) (triggerId : JsValue) : JVal :=
  mkObj
    [("acquired_by", jsOr (w.workspacePath.map .str) (some (.str "unknown"))),
     ("workspace_hash", some (ofOptString w.workspaceHash)),
     ("timestamp", some (.str h.nowIso)), ("trigger_id", triggerId)]

/-- Source: `checkTriggerFileWithLock(context, filePath, triggerData, triggerId,
lockFilePath, triggerWorkspaceHash)`. -/
def checkTriggerFileWithLock (h : Host) (filePath : String) (triggerData : JVal)
    (triggerId : JsValue) (lockFilePath : String) (triggerWorkspaceHash : JVal) (w : Window) :
    Prog Window :=
  Prog.tryCatch
    (.existsSync filePath fun trigger =>
      if !trigger then .done w
      else .existsSync lockFilePath fun lock =>
        if lock then .done w
        else
          match workspaceMatches h triggerData w with
          | .error e => .fail e w
          | .ok false => .done w
          | .ok true =>
            .writeFileSync lockFilePath (.json (lockData h w triggerId)) true fun r =>
              match r with
              | .ok _ =>
                (processTrigger h filePath triggerData triggerId triggerWorkspaceHash w).bind
                fun w1 => .done (w1.setTimeout 2000 (.unlinkLock lockFilePath))
              | .error e => if e = .fsError "EEXIST" then .done w else .fail e w)
    (fun _ w1 => .done w1)

/-- Line 327 of `checkTriggerFile`:
`triggerData.data?.trigger_id || triggerData.timestamp`. -/
def extractTriggerId (triggerData : JVal) : JsValue :=
  jsOr (optMember (triggerData.getProp "data") "trigger_id") (triggerData.getProp "timestamp")

/-- Line 338 of `checkTriggerFile`: the lock file of a trigger id. -/
def lockFilePathOf (h : Host) (triggerId : JsValue) : String :=
  pathJoin h h.tmpdir ("review_gate_lock_" ++ renderJs triggerId ++ ".json")

/-- Lines 316-358 of `checkTriggerFile`: what is done with the parsed file. -/
def checkParsedTrigger (h : Host) (filePath : String) (expectedHash : Option String)
    (triggerData : JVal) (w : Window) : Prog Window :=
  match triggerData with
  | .null => .fail .typeError w
  | _ =>
    let editor := triggerData.getProp "editor"
    let system := triggerData.getProp "system"
    if declaresOther editor "cursor" then .done w
    else if declaresOther system "review-gate-v2" then .done w
    else
      let triggerId := extractTriggerId triggerData
      let triggerWorkspaceHash := jsOrD (triggerData.getProp "workspace_hash") .null
      if truthy (expectedHash.map .str) then
        processTrigger h filePath triggerData triggerId triggerWorkspaceHash w
      else
        let lockFilePath := lockFilePathOf h triggerId
        if !w.focused then
          .existsSync lockFilePath fun lock =>
            if lock then .done w
            else .done (w.setTimeout 100
              (.checkTriggerFileWithLock filePath triggerData triggerId lockFilePath
                triggerWorkspaceHash))
        else
          checkTriggerFileWithLock h filePath triggerData triggerId lockFilePath
            triggerWorkspaceHash w

/-- Source: `checkTriggerFile(context, filePath, expectedHash)`. Whatever is
thrown inside is caught (and logged unless it is `ENOENT`). -/
def checkTriggerFile (h : Host) (filePath : String) (expectedHash : Option String)
    (w : Window) : Prog Window :=
  Prog.tryCatch
    (.existsSync filePath fun found =>
      if !found then .done w
      else .readFileSync filePath fun r =>
        match r with
        | .error e => .fail e w
        | .ok data =>
          match data.parse with
          | .error e => .fail e w
          | .ok triggerData => checkParsedTrigger h filePath expectedHash triggerData w)
    (fun _ w1 => .done w1)

/-- The statement `if (chatPanel) { chatPanel.webview.postMessage(msg); }`,
followed by `k`. -/
def postIfPanel (msg : WebviewMessage) (w : Window) (k : Prog Window) : Prog Window :=
  match w.chatPanel with
  | some _ => .host (.postMessage msg) k
  | none => k

/-- Lines 2003-2014 of `handleSpeechToText`: the transcription request. -/
def transcriptionRequest (h : Host) (tempAudioPath : String) (triggerId : JsValue) : JVal :=
  mkObj
    [("timestamp", some (.str h.nowIso)), ("system", some (.str "review-gate-v2")),
     ("editor", some (.str "cursor")),
     ("data", some (mkObj
        [("tool", some (.str "speech_to_text")), ("audio_file", some (.str tempAudioPath)),
         ("trigger_id", triggerId), ("format", some (.str "wav"))])),
     ("mcp_integration", some (.bool true))]

/-- Line 2016 of `handleSpeechToText`: the speech trigger file of a trigger id. -/
def speechTriggerFile (h : Host) (triggerId : JsValue) : String :=
  getTempPath h ("review_gate_speech_trigger_" ++ renderJs triggerId ++ ".json")

/-- Source: `handleSpeechToText(audioData, triggerId, isFilePath)` with
`isFilePath = true`, as both of its callers call it (`audioData` is then the
path of the audio file). It writes the speech trigger file and starts the
transcription poll; a failed write is caught and answered with an empty
transcription. -/
def handleSpeechToText (h : Host) (tempAudioPath : String) (triggerId : JsValue) (w : Window) :
    Prog Window :=
  .writeFileSync (speechTriggerFile h triggerId)
    (.json (transcriptionRequest h tempAudioPath triggerId)) false fun r =>
    match r with
    | .ok _ =>
      let poll : SpeechPoll :=
        { triggerId := triggerId, triggerFile := speechTriggerFile h triggerId, waitTime := 0 }
      .done { w with speechPolls := w.speechPolls ++ [poll] }
    | .error _ => postIfPanel (.speechTranscribed "" none) w (.done w)

/-- Lines 2309-2349 of `stopNodeRecording`: the callback that looks at the
recorded file one second after the recording process exited. An exception of
`fs.statSync` leaves the callback. -/
def checkAudioFile (h : Host) (audioFile : String) (triggerId : JsValue) (w : Window) :
    Prog Window :=
  .existsSync audioFile fun found =>
    if found then
      .statSync audioFile fun r =>
        match r with
        | .error e => .fail e w
        | .ok stats =>
          if stats.size > 500 then
            (handleSpeechToText h audioFile triggerId w).bind fun w1 =>
            .done { w1 with currentRecording := none }
          else
            postIfPanel
              (.speechTranscribed ""
                (some "No speech detected - try speaking louder or closer to microphone"))
              w (.unlinkSync audioFile fun _ => .done { w with currentRecording := none })
    else
      postIfPanel (.speechTranscribed "" (some "Recording failed - no audio file created")) w
        (.done { w with currentRecording := none })

/-- What runs when a timer set by the functions of this module expires. -/
def TimerAction.fire (h : Host) : TimerAction → Window → Prog Window
  | .checkTriggerFileWithLock filePath triggerData triggerId lockFilePath triggerWorkspaceHash, w =>
    ReviewGate.checkTriggerFileWithLock h filePath triggerData triggerId lockFilePath
      triggerWorkspaceHash w
  | .unlinkLock lockFilePath, w => .unlinkSync lockFilePath fun _ => .done w
  | .postMessage msg, w =>
    match w.chatPanel with
    | some _ => .host (.postMessage msg) (.done w)
    | none => .fail .typeError w
  | .confirmReply msg, w =>
    match w.chatPanel with
    | some _ => .host (.postMessage msg) (.done (w.setTimeout 1000 .statusInactive))
    | none => .fail .typeError w
  | .statusInactive, w => postIfPanel (.updateMcpStatus false) w (.done w)
  | .checkAudioFile audioFile triggerId, w => ReviewGate.checkAudioFile h audioFile triggerId w
  | .forceKill, w =>
    match w.currentRecording with
    | some recording =>
      if recording.pid.any (fun pid => pid != 0) then
        .host (.kill recording.pid "SIGKILL") (.done { w with currentRecording := none })
      else .done w
    | none => .done w

/-- An entry of the list `triggerFiles` of `startReviewGateIntegration`. -/
structure TriggerFile where
  path : String
  type : String
  hash : Option String

/-- The list `triggerFiles` built by `startReviewGateIntegration`. -/
def triggerFiles (h : Host) (w : Window) : List TriggerFile :=
  (match w.workspaceHash with
    | some hash =>
      if hash != "" then
        [{ path := getTempPath h ("review_gate_trigger_" ++ hash ++ ".json"),
           type := "workspace", hash := some hash }]
      else []
    | none => []) ++
  [{ path := getTempPath h "review_gate_trigger.json", type := "generic", hash := none }]

/-- The statement `triggerFiles.forEach(f => checkTriggerFile(context, f.path, f.hash))`. -/
def checkAll (h : Host) : List TriggerFile → Window → Prog Window
  | [], w => .done w
  | f :: rest, w => (checkTriggerFile h f.path f.hash w).bind (checkAll h rest)

/-- One poll of `startReviewGateIntegration` (every 250 ms). -/
def pollTick (h : Host) (w : Window) : Prog Window := checkAll h (triggerFiles h w) w

/-- The module state after `activate` has read the workspace folder
(`fsPath` is the first folder's path, if any). -/
def activate (h : Host) (fsPath : Option String) (focused : Bool) : Window :=
  let workspacePath := match fsPath with
    | some p => if p != "" then some p else none
    | none => none
  { workspacePath := workspacePath,
    workspaceHash := calculateWorkspaceHash h workspacePath,
    focused := focused, chatPanel := none, currentTriggerData := some .null,
    currentMcpIntegration := false, mcpStatus := false, timers := [],
    currentRecording := none, speechPolls := [] }

/-! ## Replies, liveness and voice capture -/

/-- Whether `t` starts at some position of `s` (lists of characters). -/
def includesFrom (t : List Char) : List Char → Bool
  | [] => t.isEmpty
  | c :: rest => t.isPrefixOf (c :: rest) || includesFrom t rest

/-- The library function `String.prototype.includes`. -/
def includes (s t : String) : Bool := includesFrom t.toList s.toList

/-- The expression `a && b`. -/
def jsAnd (a b : JsValue) : JsValue := if truthy a then b else a

/-- The text of `error.message`, shortened to the kind of the error or its
code. -/
def JsError.message : JsError → String
  | .typeError => "TypeError"
  | .syntaxError => "SyntaxError"
  | .fsError code => code

/-- Source: `logMessage(message)`. The output channel exists from `activate`
on. -/
def logMessage (h : Host) (message : String) (w : Window) : Prog Window :=
  .host (.appendLine ("[" ++ h.nowIso ++ "] " ++ message)) (.done w)

/-- Line 126 of `logUserInput`: the line written to the output channel and to
the input log. -/
def logLine (h : Host) (eventType : String) (inputText : JsValue) : String :=
  "[" ++ h.nowIso ++ "] " ++ eventType ++ ": " ++ renderJs inputText

/-- The input log of `logUserInput`. -/
def userInputsLog (h : Host) : String := getTempPath h "review_gate_user_inputs.log"

/-- Lines 144-155 of `logUserInput`: the response files, in the order they are
written. -/
def responsePatterns (h : Host) (responseHash : JsValue) (triggerId : JVal) : List String :=
  (if truthy responseHash then
      [getTempPath h
        ("review_gate_response_" ++ renderJs responseHash ++ "_" ++ triggerId.render ++ ".json")]
    else []) ++
  [getTempPath h ("review_gate_response_" ++ triggerId.render ++ ".json"),
   getTempPath h "review_gate_response.json",
   getTempPath h ("mcp_response_" ++ triggerId.render ++ ".json"),
   getTempPath h "mcp_response.json"]

/-- Lines 157-168 of `logUserInput`: the response. -/
def responseData (h : Host) (w : Window) (inputText : JsValue) (eventType : String)
    (triggerId : JVal) (responseHash : JsValue) (attachments : JVal) : JVal :=
  mkObj
    [("timestamp", some (.str h.nowIso)), ("trigger_id", some triggerId),
     ("workspace_hash", responseHash), ("workspace_path", some (ofOptString w.workspacePath)),
     ("user_input", inputText), ("response", inputText), ("message", inputText),
     ("attachments", some attachments), ("event_type", some (.str eventType)),
     ("source", some (.str "review_gate_extension"))]

/-- Lines 173-180 of `logUserInput`: the loop over the response files. Each
write has its own `try`/`catch`. -/
def writeResponses (h : Host) (responseJson : Content) : List String → Window → Prog Window
  | [], w => .done w
  | responseFile :: rest, w =>
    .writeFileSync responseFile responseJson false fun r =>
      match r with
      | .ok _ =>
        (logMessage h ("MCP response written: " ++ responseFile) w).bind
          (writeResponses h responseJson rest)
      | .error e =>
        (logMessage h
          ("Failed to write response file " ++ responseFile ++ ": " ++ e.message) w).bind
          (writeResponses h responseJson rest)

/-- Line 141 of `logUserInput`:
`currentTriggerData?._workspaceHash || workspaceHash`. -/
def responseHashOf (w : Window) : JsValue :=
  jsOr (optMember w.currentTriggerData "_workspaceHash") (some (ofOptString w.workspaceHash))

/-- Source: `logUserInput(inputText, eventType, triggerId, attachments)`; an
`undefined` argument takes the default of its parameter. The output channel
exists from `activate` on. -/
def logUserInput (h : Host) (inputText : JsValue) (eventType : String) (triggerId : JsValue)
    (attachments : JsValue) (w : Window) : Prog Window :=
  let triggerId := triggerId.getD .null
  let attachments := attachments.getD (.arr [] [])
  let logMsg := logLine h eventType inputText
  .host (.appendLine logMsg)
    (Prog.tryCatch
      (.appendFileSync (userInputsLog h) (logMsg ++ "\n") fun r =>
        match r with
        | .error e => .fail e w
        | .ok _ =>
          if truthy (some triggerId) && eventType == "MCP_RESPONSE" then
            let responseHash := responseHashOf w
            writeResponses h
              (.json (responseData h w inputText eventType triggerId responseHash attachments))
              (responsePatterns h responseHash triggerId) w
          else .done w)
      (fun e w1 =>
        logMessage h ("Could not write to Review Gate log file: " ++ e.message) w1))

/-- The statement `if (chatPanel) { setTimeout(() => { ... }, 500); }` of
`handleReviewMessage`. -/
def replyTimer (msg : WebviewMessage) (w : Window) : Window :=
  match w.chatPanel with
  | some _ => w.setTimeout 500 (.confirmReply msg)
  | none => w

/-- Line 1743 of `handleReviewMessage`: the reply confirms the shutdown. -/
def confirmsShutdown (h : Host) (text : String) : Bool :=
  includes (h.toUpperCase text) "CONFIRM" || h.toUpperCase text == "YES"

/-- Source: `handleReviewMessage(text, attachments, triggerId, mcpIntegration,
specialHandling)`. A `text` that is not a string has no `toUpperCase`. -/
def handleReviewMessage (h : Host) (text : JsValue) (_attachments : JsValue)
    (triggerId : JsValue) (mcpIntegration : Bool) (specialHandling : JVal) (w : Window) :
    Prog Window :=
  if isStr (some specialHandling) "shutdown_mcp" then
    match text with
    | some (.str t) =>
      if confirmsShutdown h t then
        (logUserInput h (some (.str ("SHUTDOWN CONFIRMED: " ++ t))) "SHUTDOWN_CONFIRMED" triggerId
          none w).bind fun w1 =>
        .done (replyTimer
          (.systemMessage
            ("已确认关闭: \"" ++ t
              ++ "\"\n\nMCP服务器关闭已获用户批准。\n\nCursor Agent将执行正常关闭。") false) w1)
      else
        (logUserInput h (some (.str ("SHUTDOWN ALTERNATIVE: " ++ t))) "SHUTDOWN_ALTERNATIVE"
          triggerId none w).bind fun w1 =>
        .done (replyTimer
          (.systemMessage
            ("替代指令: \"" ++ t
              ++ "\"\n\n您的指令已发送至Cursor Agent。\n\nAgent将处理您的请求。") false) w1)
    | _ => .fail .typeError w
  else if isStr (some specialHandling) "ingest_text" then
    (logUserInput h (some (.str ("TEXT FEEDBACK: " ++ renderJs text))) "TEXT_FEEDBACK" triggerId
      none w).bind fun w1 =>
    .done (replyTimer
      (.systemMessage
        ("文本已处理: \"" ++ renderJs text
          ++ "\"\n\n您的反馈已发送至Cursor Agent。\n\nAgent将继续处理。") false) w1)
  else
    .host
      (.appendLine ((if mcpIntegration then "MCP回复" else "审查") ++ " 已提交: " ++ renderJs text))
      (.done (replyTimer (.systemMessage "已发送至Agent" true) w))

/-- Source: `handleWebAudioRecording(base64Audio, mimeType, triggerId)`.
`audioBuffer` is the result of `Buffer.from(base64Audio, 'base64')` and `now`
that of `Date.now()`. -/
def handleWebAudioRecording (h : Host) (now : Int) (audioBuffer : Except JsError (List Nat))
    (triggerId : JsValue) (w : Window) : Prog Window :=
  Prog.tryCatch
    (match audioBuffer with
      | .error e => .fail e w
      | .ok bytes =>
        let audioFile := getTempPath h
          ("review_gate_webaudio_" ++ renderJs triggerId ++ "_" ++ toString now ++ ".webm")
        .writeFileSync audioFile (.binary bytes) false fun r =>
          match r with
          | .error e => .fail e w
          | .ok _ =>
            if bytes.length < 1000 then
              postIfPanel (.speechTranscribed "" (some "录音时间太短，请说得更长一些")) w
                (.unlinkSync audioFile fun _ => .done w)
            else handleSpeechToText h audioFile triggerId w)
    (fun e w1 =>
      postIfPanel (.speechTranscribed "" (some ("音频处理失败: " ++ e.message))) w1 (.done w1))

/-- Source: `stopNodeRecording(triggerId)`, up to its return: the process is
sent `SIGTERM`, gets one more `exit` listener and the force-kill timer is set. -/
def stopNodeRecording (triggerId : JsValue) (w : Window) : Prog Window :=
  match w.currentRecording with
  | none => postIfPanel (.speechTranscribed "" (some "No recording in progress")) w (.done w)
  | some recording =>
    let listener : ExitListener := { audioFile := recording.audioFile, triggerId := triggerId }
    let stopping : Recording :=
      { recording with exitListeners := recording.exitListeners ++ [listener] }
    let w1 := { w with currentRecording := some stopping }
    .host (.kill recording.pid "SIGTERM") (.done (w1.setTimeout 3000 .forceKill))

/-- The `exit` event of a recording process: its listeners run in the order
they were attached, and each sets the timer that looks at the recorded file. -/
def Recording.onExit (recording : Recording) (w : Window) : Window :=
  recording.exitListeners.foldl
    (fun w1 l => w1.setTimeout 1000 (.checkAudioFile l.audioFile l.triggerId)) w

/-- Source: `updateChatPanelStatus()`. -/
def updateChatPanelStatus (w : Window) : Prog Window :=
  postIfPanel (.updateMcpStatus w.mcpStatus) w (.done w)

/-- The heartbeat file of the MCP server. -/
def mcpLogPath (h : Host) : String := getTempPath h "review_gate_v2.log"

/-- Source: `checkMcpStatus()`; `now` is the value of `Date.now()`. -/
def checkMcpStatus (h : Host) (now : Int) (w : Window) : Prog Window :=
  Prog.tryCatch
    (.existsSync (mcpLogPath h) fun found =>
      if found then
        .statSync (mcpLogPath h) fun r =>
          match r with
          | .error e => .fail e w
          | .ok stats =>
            let fileAge := now - stats.mtimeMs
            let wasActive := w.mcpStatus
            let w1 := { w with mcpStatus := decide (fileAge < 30000) }
            if wasActive != w1.mcpStatus then updateChatPanelStatus w1 else .done w1
      else if w.mcpStatus then updateChatPanelStatus { w with mcpStatus := false }
      else .done w)
    (fun _ w1 =>
      if w1.mcpStatus then updateChatPanelStatus { w1 with mcpStatus := false } else .done w1)

/-- The call `message.includes(t)` on the message captured by the panel:
strings and arrays have the method. -/
def messageIncludes (message : JVal) (t : String) : Except JsError Bool :=
  match message with
  | .str s => .ok (includes s t)
  | .arr items _ => .ok (items.any fun v => isStr (some v) t)
  | _ => .error .typeError

/-- A message of the panel's webview to the extension, for the commands
`send`, `ready`, `stopRecording`, `processAudio` and `showError`
(`audioBuffer` is what `Buffer.from(webviewMessage.audioData, 'base64')`
gives). -/
inductive PanelCommand where
  | send (text attachments : JsValue)
  | ready
  | stopRecording
  | processAudio (audioBuffer : Except JsError (List Nat))
  | showError (message : JsValue)

/-- Lines 663-736 of `openReviewGatePopup`: the handler of the messages of the
webview, for the panel held in `chatPanel`. It reads `message`, `toolData`,
`mcpIntegration`, `triggerId` and `specialHandling` as they were when the
panel was created, and the module's variables as they are now. -/
def onDidReceiveMessage (h : Host) (now : Int) (webviewMessage : PanelCommand) (w : Window) :
    Prog Window :=
  match w.chatPanel with
  | none => .done w
  | some panel =>
    let currentTriggerId :=
      jsOr (jsAnd w.currentTriggerData (optMember w.currentTriggerData "trigger_id"))
        (some panel.triggerId)
    match webviewMessage with
    | .send text attachments =>
      let eventType := if w.currentMcpIntegration then "MCP_RESPONSE" else "REVIEW_SUBMITTED"
      (logUserInput h text eventType currentTriggerId
        (jsOr attachments (some (.arr [] []))) w).bind fun w1 =>
      handleReviewMessage h text attachments currentTriggerId w1.currentMcpIntegration
        panel.specialHandling w1
    | .ready =>
      .host (.postMessage (.updateMcpStatus (if panel.mcpIntegration then true else w.mcpStatus)))
        (if truthy (some panel.message) then
          match messageIncludes panel.message "I have completed" with
          | .error e => .fail e w
          | .ok true => .done w
          | .ok false =>
            .host
              (.postMessage
                (.addMessage panel.message panel.toolData panel.mcpIntegration panel.triggerId
                  (some panel.specialHandling)))
              (.done w)
        else .done w)
    | .stopRecording =>
      (logUserInput h (some (.str "User stopped speech recording (legacy)")) "SPEECH_STOP"
        currentTriggerId none w).bind (stopNodeRecording currentTriggerId)
    | .processAudio audioBuffer =>
      (logUserInput h (some (.str "Processing Web Audio recording")) "SPEECH_WEBAUDIO"
        currentTriggerId none w).bind (handleWebAudioRecording h now audioBuffer currentTriggerId)
    | .showError message => .host (.showErrorMessage (renderJs message)) (.done w)

/-- Line 2027 of `handleSpeechToText`: the speech response file of a trigger
id. -/
def speechResultFile (h : Host) (triggerId : JsValue) : String :=
  getTempPath h ("review_gate_speech_response_" ++ renderJs triggerId ++ ".json")

/-- Lines 2030-2065 of `handleSpeechToText`: what a poll does with the response
file it found. Whatever is thrown inside is caught and logged. -/
def readTranscription (h : Host) (poll : SpeechPoll) (w : Window) : Prog Window :=
  let resultFile := speechResultFile h poll.triggerId
  Prog.tryCatch
    (.readFileSync resultFile fun r =>
      match r with
      | .error e => .fail e w
      | .ok data =>
        match data.parse with
        | .error e => .fail e w
        | .ok .null => .fail .typeError w
        | .ok result =>
          let transcription := result.getProp "transcription"
          (if truthy transcription then
            postIfPanel (.speechResult (transcription.getD .null)) w
              (logUserInput h (some (.str ("Speech transcribed: " ++ renderJs transcription)))
                "SPEECH_TRANSCRIBED" poll.triggerId none w)
          else .done w).bind fun w1 =>
          .unlinkSync resultFile fun _ => .unlinkSync poll.triggerFile fun _ => .done w1)
    (fun _ w1 => .done w1)

/-- Lines 2026-2090 of `handleSpeechToText`: one run of the callback of the
transcription poll number `k` (every 500 ms). `clearInterval` takes the poll
off the list; the callback goes on to its end. -/
def speechPollTick (h : Host) (k : Nat) (w : Window) : Prog Window :=
  match w.speechPolls[k]? with
  | none => .done w
  | some poll =>
    .existsSync (speechResultFile h poll.triggerId) fun found =>
      (if found then readTranscription h poll w else .done w).bind fun w1 =>
      let waitTime := poll.waitTime + 500
      if waitTime ≥ 30000 then
        postIfPanel (.speechTranscribed "" none) w1
          (.unlinkSync poll.triggerFile fun _ =>
            .done { w1 with speechPolls := w1.speechPolls.eraseIdx k })
      else if found then .done { w1 with speechPolls := w1.speechPolls.eraseIdx k }
      else
        .done { w1 with speechPolls := w1.speechPolls.set k { poll with waitTime := waitTime } }

/-- The runs of the callback of poll `k`, one for each file system of the list
(the temp directory as the poll finds it): the window afterwards and the calls
made, in order. -/
def speechPollTicks (h : Host) (k : Nat) : List FS → Window → Window × List TraceItem
  | [], w => (w, [])
  | fs :: rest, w =>
    let r := (speechPollTick h k w).run fs
    let x := speechPollTicks h k rest r.state
    (x.1, r.trace ++ x.2)

/-- Source: `startNodeRecording(triggerId)`. `validation` is what the awaited
`validateSoxSetup()` resolves to (`error e` for `{ success: false, error: e }`),
`now` the value of `Date.now()` and `pid` the process id of the spawned
recorder. The callbacks that run while the validation is awaited are not part
of this function. -/
def startNodeRecording (h : Host) (now : Int) (validation : Except String Unit)
    (pid : Option Nat) (triggerId : JsValue) (w : Window) : Prog Window :=
  match w.currentRecording with
  | some _ => postIfPanel (.speechTranscribed "" (some "Recording already in progress")) w (.done w)
  | none =>
    match validation with
    | .error e => postIfPanel (.speechTranscribed "" (some e)) w (.done w)
    | .ok _ =>
      let audioFile := getTempPath h
        ("review_gate_audio_" ++ renderJs triggerId ++ "_" ++ toString now ++ ".wav")
      let recording : Recording :=
        { pid := pid, audioFile := audioFile, triggerId := triggerId, exitListeners := [] }
      let w1 := { w with currentRecording := some recording }
      .host (.spawn "sox" ["-d", "-r", "16000", "-c", "1", audioFile])
        (postIfPanel (.recordingStarted audioFile) w1 (.done w1))

/-- Lines 94-99 of `activate`: the command `reviewGate.openChat`. -/
def openChatCommand (w : Window) : Prog Window :=
  openReviewGatePopup
    { message := some (.str "Welcome to Review Gate V2! Please provide your review or feedback."),
      title := some (.str "Review Gate") } w

/-! ## Observations on runs -/

/-- The file a call acts on (`none` for an editor call). -/
def TraceItem.path : TraceItem → Option String
  | .existsSync p _ => some p
  | .readFileSync p _ => some p
  | .writeFileSync p _ _ _ => some p
  | .unlinkSync p _ => some p
  | .appendFileSync p _ _ => some p
  | .statSync p _ => some p
  | .host _ => none

/-- Whether the call is a write with the exclusive flag `wx`. -/
def TraceItem.isExclusiveWrite : TraceItem → Bool
  | .writeFileSync _ _ excl _ => excl
  | _ => false

/-- Whether the call removes file `p` (successfully or not). -/
def TraceItem.isUnlinkOf (p : String) : TraceItem → Bool
  | .unlinkSync q _ => q == p
  | _ => false

/-- Whether the call is an editor call that opens or reveals the panel. -/
def TraceItem.isPanelOpen : TraceItem → Bool
  | .host (.createWebviewPanel _) => true
  | .host .reveal => true
  | _ => false

/-- Whether the call is a write (of any kind) to file `p`. -/
def TraceItem.isWriteOf (p : String) : TraceItem → Bool
  | .writeFileSync q _ _ _ => q == p
  | _ => false

/-- Lines 317-323 of `checkTriggerFile`: the file is not discarded by the
editor and system tests. -/
def passesTagCheck (triggerData : JVal) : Bool :=
  let editor := triggerData.getProp "editor"
  let system := triggerData.getProp "system"
  !declaresOther editor "cursor" && !declaresOther system "review-gate-v2"

/-- The acknowledgement file of a request, as named by
`sendExtensionAcknowledgement(toolData.trigger_id, toolData.tool)`. -/
def ackFileOf (h : Host) (triggerData : JVal) : String :=
  getTempPath h
    ("review_gate_ack_" ++ renderJs (optMember (triggerData.getProp "data") "trigger_id")
      ++ ".json")

/-! ## Sample data -/

/-- An empty temp directory in which no call fails. -/
def emptyFS : FS :=
  { files := fun _ => none, fault := fun _ _ => none, stats := fun _ => ⟨0, 0⟩ }

/-- The quick-review request of the specification's scenario. -/
def quickReview : JVal :=
  .obj [("system", .str "review-gate-v2"), ("editor", .str "cursor"),
        ("data", .obj [("tool", .str "quick_review"), ("prompt", .str "Is this ok?"),
                       ("trigger_id", .str "t1")])]

/-- The generic trigger file. -/
def genericTrigger (h : Host) : String := getTempPath h "review_gate_trigger.json"

/-- A temp directory that holds only the generic trigger file, with the
quick-review request. -/
def fsGeneric : FS := emptyFS.put (genericTrigger posixHost) (.json quickReview)

/-- The quick-review request addressed to the workspace `/Other/Project`. -/
def targetedRequest : JVal :=
  .obj [("system", .str "review-gate-v2"), ("editor", .str "cursor"),
        ("workspace_path", .str "/Other/Project"),
        ("data", .obj [("tool", .str "quick_review"), ("prompt", .str "Is this ok?"),
                       ("trigger_id", .str "t1")])]

/-- A temp directory that holds only the generic trigger file, with the
request addressed to `/Other/Project`. -/
def fsTargeted : FS := emptyFS.put (genericTrigger posixHost) (.json targetedRequest)

/-- As `fsGeneric`, but creating the lock file of request `t1` fails with
`EACCES`. -/
def fsLockDenied : FS :=
  { fsGeneric with
    fault := fun op p =>
      if op = .write ∧ p = "/tmp/review_gate_lock_t1.json" then some "EACCES" else none }

/-- As `fsGeneric`, but creating the lock file of request `t1` fails with
`EEXIST`: another window created it after this window looked. -/
def fsLockRaceLost : FS :=
  { fsGeneric with
    fault := fun op p =>
      if op = .write ∧ p = "/tmp/review_gate_lock_t1.json" then some "EEXIST" else none }

/-- A request whose editor tag names another editor. -/
def foreignRequest : JVal :=
  .obj [("system", .str "review-gate-v2"), ("editor", .str "vscode"),
        ("data", .obj [("tool", .str "quick_review"), ("prompt", .str "Is this ok?"),
                       ("trigger_id", .str "t1")])]

/-- A temp directory that holds only the generic trigger file, with the
request for another editor. -/
def fsForeign : FS := emptyFS.put (genericTrigger posixHost) (.json foreignRequest)

/-- The quick-review request with an empty editor tag. -/
def emptyEditorRequest : JVal :=
  .obj [("system", .str "review-gate-v2"), ("editor", .str ""),
        ("data", .obj [("tool", .str "quick_review"), ("prompt", .str "Is this ok?"),
                       ("trigger_id", .str "t1")])]

/-- A temp directory that holds only the generic trigger file, with the
request whose editor tag is empty. -/
def fsEmptyEditor : FS := emptyFS.put (genericTrigger posixHost) (.json emptyEditorRequest)

/-- A request whose explicit id is the empty string. -/
def emptyIdRequest : JVal :=
  .obj [("system", .str "review-gate-v2"), ("editor", .str "cursor"),
        ("timestamp", .str "2025-01-01T00:00:00.000Z"),
        ("data", .obj [("tool", .str "quick_review"), ("prompt", .str "Is this ok?"),
                       ("trigger_id", .str "")])]

/-- A request whose explicit id is the number 0. -/
def zeroIdRequest : JVal :=
  .obj [("system", .str "review-gate-v2"), ("editor", .str "cursor"),
        ("timestamp", .num 1735689600000),
        ("data", .obj [("tool", .str "quick_review"), ("prompt", .str "Is this ok?"),
                       ("trigger_id", .num 0)])]

/-- A temp directory that holds only the generic trigger file, with the
request whose id is 0. -/
def fsZeroId : FS := emptyFS.put (genericTrigger posixHost) (.json zeroIdRequest)

/-- A temp directory with the scoped trigger file of workspace `/Foo/Bar`
(holding the request addressed to `/Other/Project`), a lock file for the same
trigger id and a generic trigger file with the same id. -/
def fsScoped : FS :=
  ((emptyFS.put "/tmp/review_gate_trigger_1df481b1.json" (.json targetedRequest)).put
    "/tmp/review_gate_lock_t1.json" (.json .null)).put
    (genericTrigger posixHost) (.json quickReview)

/-- An unfocused window on workspace `/Foo/Bar`. -/
def windowAUnfocused : Window := activate posixHost (some "/Foo/Bar") false

/-- A window on workspace `/Foo/Bar`. -/
def windowA : Window := activate posixHost (some "/Foo/Bar") true

/-- A window with no workspace folder. -/
def windowNone : Window := activate posixHost none true

/-- The run of `p` followed, unless `p` threw, by the run of `f`. -/
def Run.andThen {σ : Type} (r : Run σ) (f : σ → Prog σ) : Run σ :=
  match r.error with
  | some _ => r
  | none =>
    let r2 := (f r.state).run r.fs
    { r2 with trace := r.trace ++ r2.trace }

/-- The tool names that have a `case` of their own in
`handleReviewGateToolCall`. -/
def recognisedTools : List String :=
  ["review_gate", "review_gate_chat", "quick_review", "ingest_text", "shutdown_mcp",
   "file_review"]

/-- Lines 529-535 of `handleReviewGateToolCall`: the options of the `default`
case. -/
def genericOptions (toolData : JVal) : PopupOptions :=
  { message := jsOr (toolData.getProp "message") (jsOr (toolData.getProp "prompt")
      (jsOr (toolData.getProp "instruction")
        (some (.str "Cursor Agent needs your input. Please provide your response:")))),
    title := jsOr (toolData.getProp "title") (some (.str "Review Gate V2 ゲート - General Input")),
    autoFocus := true, toolData := some toolData, mcpIntegration := true }

/-- A request for a tool the dispatcher does not know. -/
def unknownToolRequest : JVal :=
  .obj [("tool", .str "summarise"), ("prompt", .str "Summarise the diff?"),
        ("trigger_id", .str "t3")]

/-- A quick-review request whose prompt reports completed work. -/
def completedReview : JVal :=
  .obj [("tool", .str "quick_review"),
        ("prompt", .str "I have completed the refactor. Is this ok?"),
        ("trigger_id", .str "t4")]

/-- The text of a line appended to the output channel. -/
def TraceItem.logged : TraceItem → Option String
  | .host (.appendLine text) => some text
  | _ => none

/-- Whether the call is a `fs.writeFileSync` (with or without the exclusive
flag). -/
def TraceItem.isWrite : TraceItem → Bool
  | .writeFileSync _ _ _ _ => true
  | _ => false

/-- A text-ingestion request. -/
def ingestRequest : JVal :=
  .obj [("tool", .str "ingest_text"), ("text_content", .str "hello"),
        ("source", .str "clipboard"), ("processing_mode", .str "immediate"),
        ("trigger_id", .str "t2")]

/-- An empty temp directory in which the input log cannot be appended to. -/
def fsLogDenied : FS :=
  { emptyFS with
    fault := fun op p =>
      if op = .append ∧ p = "/tmp/review_gate_user_inputs.log" then some "EACCES" else none }

/-- An empty temp directory in which the hash-scoped response file of request
`t1` and workspace `/Foo/Bar` cannot be written. -/
def fsScopedDenied : FS :=
  { emptyFS with
    fault := fun op p =>
      if op = .write ∧ p = "/tmp/review_gate_response_1df481b1_t1.json" then some "EACCES"
      else none }

/-- A quick-review request without an explicit trigger id. -/
def noIdRequest : JVal :=
  .obj [("system", .str "review-gate-v2"), ("editor", .str "cursor"),
        ("timestamp", .str "2025-01-01T00:00:00.000Z"),
        ("data", .obj [("tool", .str "quick_review"), ("prompt", .str "Is this ok?")])]

/-- A temp directory that holds only the generic trigger file, with the
request that has no explicit trigger id. -/
def fsNoId : FS := emptyFS.put (genericTrigger posixHost) (.json noIdRequest)

/-- A temp directory with a heartbeat file last modified at time 1000 (ms). -/
def fsHeartbeat : FS :=
  { emptyFS.put "/tmp/review_gate_v2.log" (.text "") with stats := fun _ => ⟨1000, 0⟩ }

/-- A temp directory with a recorded audio file of 44 bytes (a WAV header
only). -/
def fsSmallAudio : FS :=
  { emptyFS.put "/tmp/review_gate_audio_t1_0.wav" (.binary []) with stats := fun _ => ⟨0, 44⟩ }

/-- Window `/Foo/Bar` while a recording for request `t1` is in progress. -/
def windowRecording : Window :=
  { windowA with
    currentRecording := some
      { pid := some 4242, audioFile := "/tmp/review_gate_audio_t1_0.wav",
        triggerId := some (.str "t1"), exitListeners := [] } }

/-- Whether the call only looks at the file system (an existence test, a read
or a stat). -/
def TraceItem.isRead : TraceItem → Bool
  | .existsSync _ _ => true
  | .readFileSync _ _ => true
  | .statSync _ _ => true
  | _ => false

/-- A temp directory whose generic trigger file does not hold JSON. -/
def fsGarbage : FS := emptyFS.put (genericTrigger posixHost) (.text "not json")

/-- A chat request. -/
def chatRequest : JVal :=
  .obj [("tool", .str "review_gate_chat"), ("message", .str "Anything to add?"),
        ("trigger_id", .str "t6")]

/-- A request to shut the MCP server down. -/
def shutdownRequest : JVal :=
  .obj [("tool", .str "shutdown_mcp"), ("reason", .str "done"), ("trigger_id", .str "t7")]

/-- Window `/Foo/Bar` after it claimed the quick-review request `t1` from the
generic trigger file. -/
def windowClaimed : Window :=
  ((checkTriggerFile posixHost "/tmp/review_gate_trigger.json" none windowA).run fsGeneric).state

/-- Window `/Foo/Bar` with the panel it created for the chat request. -/
def windowChat : Window :=
  ((handleReviewGateToolCall posixHost (some chatRequest) windowA).run emptyFS).state

/-- Window `/Foo/Bar` after the recording for `t1` was stopped, its process
exited and the timer of its `exit` listener looked at the (undersized) audio
file: no recording is current and the force-kill timer of the stop is still
pending. -/
def windowStopped : Window :=
  let stopped := ((stopNodeRecording (some (.str "t1")) windowRecording).run fsSmallAudio).state
  let exited := (stopped.currentRecording.map fun r => r.onExit stopped).getD stopped
  ((TimerAction.fire posixHost (.checkAudioFile "/tmp/review_gate_audio_t1_0.wav"
    (some (.str "t1"))) exited).run fsSmallAudio).state

/-- The window of `windowStopped` after a recording for `t2` was started with
process 4343. -/
def windowRestarted : Window :=
  ((startNodeRecording posixHost 5 (.ok ()) (some 4343) (some (.str "t2")) windowStopped).run
    emptyFS).state

/-- The message of a `chatPanel.webview.postMessage` call. -/
def TraceItem.posted : TraceItem → Option WebviewMessage
  | .host (.postMessage msg) => some msg
  | _ => none

/-- The path of a `fs.unlinkSync` call. -/
def TraceItem.unlinked : TraceItem → Option String
  | .unlinkSync p _ => some p
  | _ => none

/-- A speech response of the MCP server. -/
def speechResponse : JVal := .obj [("transcription", .str "hello world")]

/-- A temp directory that holds only the speech response for `t6`. -/
def fsTranscribed : FS :=
  emptyFS.put "/tmp/review_gate_speech_response_t6.json" (.json speechResponse)

/-- The window with the chat panel while the transcription of the recording
for `t6` is polled. -/
def windowPolling : Window :=
  ((handleSpeechToText posixHost "/tmp/review_gate_audio_t6_0.wav" (some (.str "t6"))
    windowChat).run emptyFS).state

/-! ## Several windows on one temp directory -/

/-- The next call of a function body, executed on the current file system:
the executed call, the rest of the body and the file system afterwards.
`none` when the body has returned or thrown. -/
def Prog.step1 {σ : Type} : Prog σ → FS → Option (TraceItem × Prog σ × FS)
  | .done _, _ => none
  | .fail _ _, _ => none
  | .existsSync p k, fs => some (.existsSync p (fs.existsSync p), k (fs.existsSync p), fs)
  | .readFileSync p k, fs => some (.readFileSync p (fs.readFileSync p), k (fs.readFileSync p), fs)
  | .writeFileSync p c x k, fs =>
    some (.writeFileSync p c x (fs.writeFileSync p c x).1, k (fs.writeFileSync p c x).1,
      (fs.writeFileSync p c x).2)
  | .unlinkSync p k, fs =>
    some (.unlinkSync p (fs.unlinkSync p).1, k (fs.unlinkSync p).1, (fs.unlinkSync p).2)
  | .appendFileSync p t k, fs =>
    some (.appendFileSync p t (fs.appendFileSync p t).1, k (fs.appendFileSync p t).1,
      (fs.appendFileSync p t).2)
  | .statSync p k, fs => some (.statSync p (fs.statSync p), k (fs.statSync p), fs)
  | .host c k, fs => some (.host c, k, fs)

/-- One window process: idle between callbacks, or inside a callback (a poll
or an expired timer) with the rest of its body. A callback that throws is
over; its window keeps the module state reached. -/
inductive Proc where
  | idle (w : Window)
  | running (p : Prog Window)

/-- The process after its callback's body became `p`. -/
def Proc.start : Prog Window → Proc
  | .done w => .idle w
  | .fail _ w => .idle w
  | p => .running p

/-- Several window processes on one temp directory, with the calls made so
far (window index, call) in the order in which they were executed. -/
structure Sys where
  fs : FS
  procs : List Proc
  log : List (Nat × TraceItem)

/-- What the scheduler can let happen next. Time is not modelled: a timer can
expire at any moment after it was set, in any order with the others. -/
inductive Action where
  /-- The poll timer of idle window `i` expires; its window is focused or not. -/
  | poll (i : Nat) (focused : Bool)
  /-- The pending timer number `k` of idle window `i` expires. -/
  | fire (i k : Nat)
  /-- Window `i` executes the next call of its running callback. -/
  | step (i : Nat)
  deriving DecidableEq, Repr

/-- The system after window `i` executed the call `x.1`, with the rest `x.2.1`
of its callback and the file system `x.2.2`. -/
def Sys.afterStep (s : Sys) (i : Nat) (x : TraceItem × Prog Window × FS) : Sys :=
  { fs := x.2.2, procs := s.procs.set i (Proc.start x.2.1), log := s.log ++ [(i, x.1)] }

/-- The windows poll the generic trigger file `filePath`. An action that is
not enabled leaves the system as it is. -/
def Sys.act (h : Host) (filePath : String) (s : Sys) : Action → Sys
  | .poll i focused =>
    match s.procs[i]? with
    | some (.idle w) =>
      let body := checkTriggerFile h filePath none { w with focused := focused }
      { s with procs := s.procs.set i (Proc.start body) }
    | _ => s
  | .fire i k =>
    match s.procs[i]? with
    | some (.idle w) =>
      match w.timers[k]? with
      | some t =>
        let body := t.2.fire h { w with timers := w.timers.eraseIdx k }
        { s with procs := s.procs.set i (Proc.start body) }
      | none => s
    | _ => s
  | .step i =>
    match s.procs[i]? with
    | some (.running p) =>
      match p.step1 s.fs with
      | some x => s.afterStep i x
      | none => s
    | _ => s

/-- The system after a schedule. -/
def Sys.exec (h : Host) (filePath : String) : Sys → List Action → Sys
  | s, [] => s
  | s, a :: rest => Sys.exec h filePath (Sys.act h filePath s a) rest

/-- Whether the next call of the body is an existence test or a write on `lock`. -/
def Prog.onLock {σ : Type} (lock : String) : Prog σ → Bool
  | .existsSync p _ => p == lock
  | .writeFileSync p _ _ _ => p == lock
  | _ => false

/-- Whether the next call of the body removes `lock`. -/
def Prog.unlinks {σ : Type} (lock : String) : Prog σ → Bool
  | .unlinkSync p _ => p == lock
  | _ => false

def Proc.onLock (lock : String) : Proc → Bool
  | .running p => p.onLock lock
  | .idle _ => false

def Proc.unlinks (lock : String) : Proc → Bool
  | .running p => p.unlinks lock
  | .idle _ => false

/-- Whether no window other than `i` is about to test or create `lock`. -/
def Sys.othersOffLock (lock : String) (s : Sys) (i : Nat) : Bool :=
  (List.range s.procs.length).all fun j =>
    j == i || !((s.procs[j]?.map (Proc.onLock lock)).getD false)

/-- An action is timely unless it removes the lock file while another window
is between its test of the lock file and its creation of it. -/
def Sys.timely (lock : String) (s : Sys) : Action → Bool
  | .step i =>
    !((s.procs[i]?.map (Proc.unlinks lock)).getD false) || s.othersOffLock lock i
  | _ => true

/-- Whether every action of the schedule is timely when it is taken. -/
def Sys.timelySchedule (h : Host) (filePath lock : String) : Sys → List Action → Bool
  | _, [] => true
  | s, a :: rest =>
    s.timely lock a && Sys.timelySchedule h filePath lock (Sys.act h filePath s a) rest

/-- The number of times a panel was opened or revealed for a request. -/
def Sys.panelOpens (s : Sys) : Nat := s.log.countP fun e => e.2.isPanelOpen

/-- The number of writes of the acknowledgement file `ack`. -/
def Sys.ackWrites (ack : String) (s : Sys) : Nat := s.log.countP fun e => e.2.isWriteOf ack

/-- Two windows, on `/Foo/Bar` and with no workspace, and the quick-review
request in the generic trigger file. -/
def twoWindows : Sys :=
  { fs := fsGeneric, procs := [.idle windowA, .idle windowNone], log := [] }

/-- Window 0 polls and passes the test of the trigger file; window 1 polls,
takes the lock, dispatches, removes the trigger file and, its timer expired,
the lock file; window 0 then finds no lock, takes it and dispatches too. -/
def staleCheckSchedule : List Action :=
  [.poll 0 true, .step 0, .step 0, .step 0,
   .poll 1 true, .step 1, .step 1, .step 1, .step 1, .step 1,
   .step 1, .step 1, .step 1, .step 1, .step 1,
   .fire 1 1, .step 1,
   .step 0, .step 0, .step 0, .step 0, .step 0, .step 0, .step 0]

/-- The same two windows, each running its poll to the end in turn. -/
def inTurnSchedule : List Action :=
  [.poll 0 false, .step 0, .step 0, .step 0,
   .poll 1 true, .step 1, .step 1, .step 1, .step 1, .step 1,
   .step 1, .step 1, .step 1, .step 1, .step 1,
   .fire 0 0, .step 0, .step 0,
   .fire 1 1, .step 1, .poll 0 true, .step 0]

/-- The body and the file system after the next call of the body was executed
(unchanged when the body has returned or thrown). -/
def Prog.advance {σ : Type} (x : Prog σ × FS) : Prog σ × FS :=
  match x.1.step1 x.2 with
  | some y => (y.2.1, y.2.2)
  | none => x

/-- A request without a tool name. -/
def noToolRequest : JVal :=
  .obj [("system", .str "review-gate-v2"), ("editor", .str "cursor"),
        ("data", .obj [("prompt", .str "Is this ok?"), ("trigger_id", .str "t5")])]

/-- A temp directory that holds only the generic trigger file, with the
request that has no tool name. -/
def fsNoTool : FS := emptyFS.put (genericTrigger posixHost) (.json noToolRequest)

/-- A request without a data object. -/
def noDataRequest : JVal :=
  .obj [("system", .str "review-gate-v2"), ("editor", .str "cursor"),
        ("timestamp", .str "2025-01-01T00:00:00.000Z")]

/-- A temp directory that holds only the generic trigger file, with the
request that has no data object. -/
def fsNoData : FS := emptyFS.put (genericTrigger posixHost) (.json noDataRequest)

/-! ## The invariant of the arbitration -/

/-- The race that the arbitration resolves: the host, the path of the generic
trigger file and the request it holds. -/
structure Scene where
  host : Host
  trigger : String
  request : JVal

def Scene.triggerId (c : Scene) : JsValue := extractTriggerId c.request

/-- The lock file of the request. -/
def Scene.lock (c : Scene) : String := lockFilePathOf c.host c.triggerId

/-- The acknowledgement file of the request. -/
def Scene.ack (c : Scene) : String := ackFileOf c.host c.request

def Scene.workspaceHash (c : Scene) : JVal := jsOrD (c.request.getProp "workspace_hash") .null

/-- The timers a window can hold during the race: panel messages, the deferred
arbitration of this request and, when `ul`, the delayed removal of the lock. -/
def Scene.goodTimer (c : Scene) (ul : Bool) (a : TimerAction) : Prop :=
  (∃ m, a = .postMessage m) ∨
  a = .checkTriggerFileWithLock c.trigger c.request c.triggerId c.lock c.workspaceHash ∨
  (ul = true ∧ a = .unlinkLock c.lock)

def Scene.winOk (c : Scene) (ul : Bool) (w : Window) : Prop :=
  ∀ t ∈ w.timers, c.goodTimer ul t.2

/-- The body has returned or thrown, leaving a window with good timers. -/
def Scene.fin (c : Scene) (ul : Bool) : Prog Window → Prop
  | .done w => c.winOk ul w
  | .fail _ w => c.winOk ul w
  | _ => False

/-- What is left of the callback of the window that created the lock file: it
opens the panel at most `o` more times, writes the acknowledgement at most `a`
more times, creates no lock, and sets the timer that removes the lock only
after it removed the trigger file (`u`: already removed). -/
def Scene.ownerOk (c : Scene) (ul : Bool) : Nat → Nat → Bool → Prog Window → Prop
  | _, _, u, .done w => c.winOk (ul || u) w
  | _, _, u, .fail _ w => c.winOk (ul || u) w
  | o, a, u, .host call k =>
    if (TraceItem.host call).isPanelOpen = true then 1 ≤ o ∧ c.ownerOk ul (o - 1) a u k
    else c.ownerOk ul o a u k
  | o, a, u, .writeFileSync p _ x k =>
    p = c.ack ∧ x = false ∧ 1 ≤ a ∧ ∀ r, c.ownerOk ul o (a - 1) u (k r)
  | o, a, _, .unlinkSync p k => p = c.trigger ∧ ∀ r, c.ownerOk ul o a true (k r)
  | _, _, _, _ => False

/-- What is left of the callback of a window that does not hold the lock: it
goes on only while the trigger file is there, gives up when it finds the lock
file, and becomes the owner only by creating the lock file. -/
def Scene.bys (c : Scene) (ul : Bool) : Prog Window → Prop
  | .done w => c.winOk ul w
  | .fail _ w => c.winOk ul w
  | .existsSync p k =>
    (p = c.trigger ∧ c.bys ul (k true) ∧ c.fin ul (k false)) ∨
    (p = c.lock ∧ c.fin ul (k true) ∧ c.bys ul (k false))
  | .readFileSync p k =>
    p = c.trigger ∧ (∀ e, c.fin ul (k (.error e))) ∧ c.bys ul (k (.ok (.json c.request)))
  | .writeFileSync p _ x k =>
    p = c.lock ∧ x = true ∧ (∀ e, c.fin ul (k (.error e))) ∧ c.ownerOk ul 1 1 false (k (.ok ()))
  | .unlinkSync p k => ul = true ∧ p = c.lock ∧ ∀ r, c.fin ul (k r)
  | .host call k => (TraceItem.host call).isPanelOpen = false ∧ c.fin ul k
  | _ => False

/-- A window that does not hold the lock. -/
def Scene.by (c : Scene) (ul : Bool) : Proc → Prop
  | .idle w => c.winOk ul w
  | .running p => c.bys ul p

/-- The window that created the lock file, inside the callback that did. -/
def Scene.own (c : Scene) (o a : Nat) (u : Bool) : Proc → Prop
  | .idle _ => False
  | .running p => c.ownerOk false o a u p

/-- The trigger, lock and acknowledgement files are three different files. -/
def Scene.distinct (c : Scene) : Prop :=
  c.trigger ≠ c.lock ∧ c.trigger ≠ c.ack ∧ c.lock ≠ c.ack

/-- No call fails for a reason outside the model. -/
def FS.noFault (fs : FS) : Prop := ∀ op p, fs.fault op p = none

/-- The invariant of a race: before the lock file is created nothing was
dispatched; while it exists only the window that created it dispatches, once;
after it was removed the trigger file is gone and no window is about to test
or create the lock. -/
def Scene.inv (c : Scene) (s : Sys) : Prop :=
  s.fs.noFault ∧
  (s.fs.files c.trigger = none ∨ s.fs.files c.trigger = some (.json c.request)) ∧
  ((s.fs.files c.lock = none ∧ s.panelOpens = 0 ∧ s.ackWrites c.ack = 0 ∧
      ∀ (i : Nat) (q : Proc), s.procs[i]? = some q → c.by false q) ∨
   (∃ o : Nat, s.fs.files c.lock ≠ none ∧
      (∀ (i : Nat) (q : Proc), s.procs[i]? = some q → i ≠ o → c.by false q) ∧
      ((∃ q ro ra u, s.procs[o]? = some q ∧ c.own ro ra u q ∧
          s.panelOpens + ro ≤ 1 ∧ s.ackWrites c.ack + ra ≤ 1 ∧
          (u = true → s.fs.files c.trigger = none)) ∨
       (∃ q, s.procs[o]? = some q ∧ c.by true q ∧
          s.panelOpens ≤ 1 ∧ s.ackWrites c.ack ≤ 1 ∧
          (s.fs.files c.trigger = none ∨ c.by false q)))) ∨
   (s.fs.files c.lock = none ∧ s.fs.files c.trigger = none ∧
      s.panelOpens ≤ 1 ∧ s.ackWrites c.ack ≤ 1 ∧
      ∀ (i : Nat) (q : Proc), s.procs[i]? = some q → c.by true q ∧ q.onLock c.lock = false))

/-! # Theorems -/

set_option maxRecDepth 100000

/-! ## Workspace identity -/

theorem leBytes_four (n : Nat) :
    leBytes 4 n = [n % 256, n / 256 % 256, n / 256 / 256 % 256, n / 256 / 256 / 256 % 256] := by
  simp [leBytes]

theorem md5Hex_length (s : String) : (md5Hex s).length = 32 := by
  simp [md5Hex, leBytes_four, hexByte, String.length]

theorem substring0_md5Hex_ne_empty (s : String) : substring0 (md5Hex s) 8 ≠ "" := by
  intro hEq
  have hlen : (substring0 (md5Hex s) 8).length = 8 := by
    have h32 := md5Hex_length s
    simp only [String.length] at h32
    simp [substring0, String.length, h32]
  rw [hEq] at hlen
  simp at hlen

theorem calculateWorkspaceHash_eq_none_iff (h : Host) (wsPath : Option String) :
    calculateWorkspaceHash h wsPath = none ↔ wsPath = none ∨ wsPath = some "" := by
  cases wsPath with
  | none => simp [calculateWorkspaceHash]
  | some p =>
    by_cases hp : p = ""
    · simp [calculateWorkspaceHash, hp]
    · simp [calculateWorkspaceHash, hp]

theorem calculateWorkspaceHash_ne_empty (h : Host) (wsPath : Option String) (hash : String)
    (hh : calculateWorkspaceHash h wsPath = some hash) : hash ≠ "" := by
  cases wsPath with
  | none => simp [calculateWorkspaceHash] at hh
  | some p =>
    by_cases hp : p = ""
    · simp [calculateWorkspaceHash, hp] at hh
    · simp [calculateWorkspaceHash, hp] at hh
      rw [← hh]
      exact substring0_md5Hex_ne_empty _

/-- C3: two non-empty paths that are the same string after replacing every
backslash by a slash and lowercasing get the same workspace hash, on every
host (whatever its case mapping). -/
theorem calculateWorkspaceHash_normalized (h : Host) (p q : String) (hp : p ≠ "") (hq : q ≠ "")
    (hn : h.toLowerCase (replaceBackslashes p) = h.toLowerCase (replaceBackslashes q)) :
    calculateWorkspaceHash h (some p) = calculateWorkspaceHash h (some q) := by
  simp [calculateWorkspaceHash, hp, hq, normalizePath, hn]

/-- C3, at a Windows path written with backslashes and capitals and the same path
with slashes in lower case. -/
theorem calculateWorkspaceHash_normalized_witness :
    ("C:\\Users\\Me\\Proj" ≠ "" ∧ "c:/users/me/proj" ≠ "") ∧
    calculateWorkspaceHash windowsHost (some "C:\\Users\\Me\\Proj")
      = calculateWorkspaceHash windowsHost (some "c:/users/me/proj") :=
  ⟨by decide, calculateWorkspaceHash_normalized windowsHost "C:\\Users\\Me\\Proj"
    "c:/users/me/proj" (by decide) (by decide) (by decide)⟩

/-- C4 (as stated, refuted): `/Foo/Bar` and `foo\bar` are normalised to
different strings (`/foo/bar` and `foo/bar`: the leading separator stays) and
get different workspace hashes. -/
theorem hash_FooBar_vs_foobar_differ :
    normalizePath posixHost "/Foo/Bar" = "/foo/bar" ∧
    normalizePath posixHost "foo\\bar" = "foo/bar" ∧
    calculateWorkspaceHash posixHost (some "/Foo/Bar") = some "1df481b1" ∧
    calculateWorkspaceHash posixHost (some "foo\\bar") = some "82d0f0fa" ∧
    calculateWorkspaceHash posixHost (some "/Foo/Bar")
      ≠ calculateWorkspaceHash posixHost (some "foo\\bar") := by
  refine ⟨by decide, by decide, by decide, by decide, by decide⟩

/-- C4 (amended): `/Foo/Bar` and `\foo\bar`, which differ only in letter case
and separator style, are normalised to the same string and get the same
workspace hash. -/
theorem hash_FooBar_same_separators :
    normalizePath posixHost "/Foo/Bar" = normalizePath posixHost "\\foo\\bar" ∧
    calculateWorkspaceHash posixHost (some "/Foo/Bar")
      = calculateWorkspaceHash posixHost (some "\\foo\\bar") := by
  refine ⟨by decide, by decide⟩

theorem activate_workspaceHash (h : Host) (fsPath : Option String) (focused : Bool) :
    (activate h fsPath focused).workspaceHash = calculateWorkspaceHash h fsPath := by
  cases fsPath with
  | none => rfl
  | some p =>
    by_cases hp : p = ""
    · simp [activate, calculateWorkspaceHash, hp]
    · simp [activate, calculateWorkspaceHash, hp]

/-- C5: the polled paths are the hash-scoped trigger file followed by the
generic one when the workspace hash is known, and the generic one alone
otherwise; the hash is unknown exactly for an absent or empty workspace path. -/
theorem triggerFiles_paths (h : Host) (fsPath : Option String) (focused : Bool) :
    (triggerFiles h (activate h fsPath focused)).map (fun f => f.path) =
      (match calculateWorkspaceHash h fsPath with
        | some hash =>
          [getTempPath h ("review_gate_trigger_" ++ hash ++ ".json"),
           getTempPath h "review_gate_trigger.json"]
        | none => [getTempPath h "review_gate_trigger.json"]) ∧
    (calculateWorkspaceHash h fsPath = none ↔ fsPath = none ∨ fsPath = some "") := by
  refine ⟨?_, calculateWorkspaceHash_eq_none_iff h fsPath⟩
  have hw := activate_workspaceHash h fsPath focused
  cases hc : calculateWorkspaceHash h fsPath with
  | none => simp [triggerFiles, hw, hc]
  | some hash =>
    have hne := calculateWorkspaceHash_ne_empty h fsPath hash hc
    simp [triggerFiles, hw, hc, hne]

/-! ## Running program trees -/

theorem Prog.run_tryCatch_done {σ : Type} (p : Prog σ) (fs : FS) :
    (p.tryCatch fun _ s => .done s).run fs = { p.run fs with error := none } := by
  induction p generalizing fs with
  | done s => rfl
  | fail e s => rfl
  | existsSync q k ih => simp [Prog.tryCatch, Prog.run, ih]
  | readFileSync q k ih => simp [Prog.tryCatch, Prog.run, ih]
  | writeFileSync q c x k ih => simp [Prog.tryCatch, Prog.run, ih]
  | unlinkSync q k ih => simp [Prog.tryCatch, Prog.run, ih]
  | appendFileSync q t k ih => simp [Prog.tryCatch, Prog.run, ih]
  | statSync q k ih => simp [Prog.tryCatch, Prog.run, ih]
  | host c k ih => simp [Prog.tryCatch, Prog.run, ih]

theorem Run.andThen_cons {σ : Type} (r : Run σ) (f : σ → Prog σ) (item : TraceItem) :
    ({ r with trace := item :: r.trace } : Run σ).andThen f
      = { r.andThen f with trace := item :: (r.andThen f).trace } := by
  unfold Run.andThen
  cases h : r.error <;> simp [h]

theorem Prog.run_bind {σ : Type} (p : Prog σ) (f : σ → Prog σ) (fs : FS) :
    (p.bind f).run fs = (p.run fs).andThen f := by
  induction p generalizing fs with
  | done s => simp [Prog.bind, Prog.run, Run.andThen]
  | fail e s => simp [Prog.bind, Prog.run, Run.andThen]
  | existsSync q k ih => simp [Prog.bind, Prog.run, ih, Run.andThen_cons]
  | readFileSync q k ih => simp [Prog.bind, Prog.run, ih, Run.andThen_cons]
  | writeFileSync q c x k ih => simp [Prog.bind, Prog.run, ih, Run.andThen_cons]
  | unlinkSync q k ih => simp [Prog.bind, Prog.run, ih, Run.andThen_cons]
  | appendFileSync q t k ih => simp [Prog.bind, Prog.run, ih, Run.andThen_cons]
  | statSync q k ih => simp [Prog.bind, Prog.run, ih, Run.andThen_cons]
  | host c k ih => simp [Prog.bind, Prog.run, ih, Run.andThen_cons]

/-! ## Dispatch -/

theorem lookupKey_setField_ne (fields : List (String × JVal)) (k k2 : String) (v : JVal)
    (hk : k2 ≠ k) : lookupKey k2 (setField fields k v) = lookupKey k2 fields := by
  have hmap : ∀ l : List (String × JVal),
      lookupKey k2 (l.map (fun kv => if kv.1 = k then (k, v) else kv)) = lookupKey k2 l := by
    intro l
    induction l with
    | nil => rfl
    | cons kv rest ih =>
      by_cases hak : kv.1 = k
      · have hne : ¬ kv.1 = k2 := fun h2 => hk (h2 ▸ hak)
        simp [lookupKey, hak, ih, Ne.symm hk, hne]
      · simp [lookupKey, hak, ih]
  have happ : ∀ l : List (String × JVal), lookupKey k2 (l ++ [(k, v)]) = lookupKey k2 l := by
    intro l
    induction l with
    | nil => simp [lookupKey, Ne.symm hk]
    | cons kv rest ih =>
      by_cases hak : kv.1 = k2
      · simp [lookupKey, hak]
      · simp [lookupKey, hak, ih]
  unfold setField
  split
  · exact hmap fields
  · exact happ fields

theorem getProp_setProp_ne (d : JVal) (k k2 : String) (v : JVal) (hk : k2 ≠ k) :
    (d.setProp k v).getProp k2 = d.getProp k2 := by
  cases d <;> simp [JVal.setProp, JVal.getProp, lookupKey_setField_ne _ _ _ _ hk]

theorem setProp_ne_null (d : JVal) (k : String) (v : JVal) (hd : d ≠ .null) :
    d.setProp k v ≠ .null := by
  cases d <;> simp [JVal.setProp] at hd ⊢

theorem sendExtensionAcknowledgement_run (h : Host) (triggerId toolType : JsValue) (w : Window)
    (fs : FS) :
    ∃ c, (sendExtensionAcknowledgement h triggerId toolType w).run fs =
      ⟨w, none,
       (fs.writeFileSync (getTempPath h ("review_gate_ack_" ++ renderJs triggerId ++ ".json"))
          c false).2,
       [.writeFileSync (getTempPath h ("review_gate_ack_" ++ renderJs triggerId ++ ".json"))
          c false
          (fs.writeFileSync (getTempPath h ("review_gate_ack_" ++ renderJs triggerId ++ ".json"))
            c false).1]⟩ :=
  ⟨_, rfl⟩

theorem openReviewGatePopup_run (opts : PopupOptions) (w : Window) (fs : FS) :
    ∃ c1 c2 w1, (openReviewGatePopup opts w).run fs = ⟨w1, none, fs, [.host c1, .host c2]⟩ ∧
      (TraceItem.host c1).isPanelOpen = true := by
  unfold openReviewGatePopup
  cases hp : w.chatPanel with
  | none =>
    by_cases ht : truthy (some (opts.triggerId.getD .null)) = true
    · simp [hp, ht, Prog.run, TraceItem.isPanelOpen]
    · simp [hp, ht, Prog.run, TraceItem.isPanelOpen]
  | some panel =>
    by_cases ht : truthy (some (opts.triggerId.getD .null)) = true
    · simp [hp, ht, Prog.run, TraceItem.isPanelOpen]
    · simp [hp, ht, Prog.run, TraceItem.isPanelOpen]

theorem handleReviewGateToolCall_run (h : Host) (td : JVal) (w : Window) (fs : FS)
    (opts : PopupOptions) (hnn : td ≠ .null) (hopts : popupOptionsFor h td = .ok opts) :
    ∃ c1 c2 ackC w1 info,
      (TraceItem.host c1).isPanelOpen = true ∧
      (handleReviewGateToolCall h (some td) w).run fs =
        ⟨w1, (match td.getProp "tool" with | some (.str _) => none | _ => some .typeError),
         (fs.writeFileSync
            (getTempPath h ("review_gate_ack_" ++ renderJs (td.getProp "trigger_id") ++ ".json"))
            ackC false).2,
         [.host c1, .host c2,
          .writeFileSync
            (getTempPath h ("review_gate_ack_" ++ renderJs (td.getProp "trigger_id") ++ ".json"))
            ackC false
            (fs.writeFileSync
              (getTempPath h ("review_gate_ack_" ++ renderJs (td.getProp "trigger_id") ++ ".json"))
              ackC false).1] ++
          (match td.getProp "tool" with | some (.str _) => [.host info] | _ => [])⟩ := by
  obtain ⟨c1, c2, w1, hopen, hpanel⟩ := openReviewGatePopup_run
    { opts with triggerId := td.getProp "trigger_id", title := some (.str "Review Gate") } w fs
  obtain ⟨ackC, hack⟩ := sendExtensionAcknowledgement_run h (td.getProp "trigger_id")
    (td.getProp "tool") w1 fs
  have hdef : handleReviewGateToolCall h (some td) w =
      (openReviewGatePopup
        { opts with triggerId := td.getProp "trigger_id", title := some (.str "Review Gate") }
        w).bind fun w1 =>
      (sendExtensionAcknowledgement h (td.getProp "trigger_id") (td.getProp "tool") w1).bind
      fun w2 =>
      match td.getProp "tool" with
      | some (.str tool) =>
        .host (.showInformationMessage (triggeredNotification h tool)) (.done w2)
      | _ => .fail .typeError w2 := by
    cases td <;> simp [handleReviewGateToolCall, hopts] at hnn ⊢
  rw [hdef, Prog.run_bind, hopen]
  simp only [Run.andThen]
  rw [Prog.run_bind, hack]
  simp only [Run.andThen]
  cases ht : td.getProp "tool" with
  | none => exact ⟨c1, c2, ackC, w1, .reveal, hpanel, by simp [Prog.run]⟩
  | some t =>
    cases t with
    | str s => exact ⟨c1, c2, ackC, w1, _, hpanel, by simp [Prog.run]; rfl⟩
    | null => exact ⟨c1, c2, ackC, w1, .reveal, hpanel, by simp [Prog.run]⟩
    | bool b => exact ⟨c1, c2, ackC, w1, .reveal, hpanel, by simp [Prog.run]⟩
    | num n => exact ⟨c1, c2, ackC, w1, .reveal, hpanel, by simp [Prog.run]⟩
    | arr a b => exact ⟨c1, c2, ackC, w1, .reveal, hpanel, by simp [Prog.run]⟩
    | obj o => exact ⟨c1, c2, ackC, w1, .reveal, hpanel, by simp [Prog.run]⟩

theorem handleReviewGateToolCall_run_error (h : Host) (td : JVal) (w : Window) (fs : FS)
    (e : JsError) (hopts : popupOptionsFor h td = .error e) :
    ∃ e2, (handleReviewGateToolCall h (some td) w).run fs = ⟨w, some e2, fs, []⟩ := by
  cases td <;> simp [handleReviewGateToolCall, hopts, Prog.run]

theorem optMember_some (d : JVal) (k : String) (hd : d ≠ .null) :
    optMember (some d) k = d.getProp k := by
  cases d <;> simp [optMember] at hd ⊢

/-- The shape of every run of `processTrigger`: either the dispatch completes
and the removal of the trigger file is the last call, after the panel was
opened and the acknowledgement written, or an exception leaves the function
and the trigger file is not removed. -/
theorem processTrigger_run_shape (h : Host) (filePath : String) (td : JVal) (tid : JsValue)
    (twh : JVal) (w : Window) (fs : FS) :
    ∃ c1 c2 ackC info w1 e,
      (TraceItem.host c1).isPanelOpen = true ∧
      ((processTrigger h filePath td tid twh w).run fs =
          ⟨w1, none,
           ((fs.writeFileSync (ackFileOf h td) ackC false).2.unlinkSync filePath).2,
           [.host c1, .host c2,
            .writeFileSync (ackFileOf h td) ackC false
              (fs.writeFileSync (ackFileOf h td) ackC false).1,
            .host info,
            .unlinkSync filePath
              ((fs.writeFileSync (ackFileOf h td) ackC false).2.unlinkSync filePath).1]⟩ ∨
       (∃ w2, (processTrigger h filePath td tid twh w).run fs = ⟨w2, some e, fs, []⟩) ∨
       (processTrigger h filePath td tid twh w).run fs =
          ⟨w1, some e, (fs.writeFileSync (ackFileOf h td) ackC false).2,
           [.host c1, .host c2,
            .writeFileSync (ackFileOf h td) ackC false
              (fs.writeFileSync (ackFileOf h td) ackC false).1]⟩) := by
  have hdummy : (TraceItem.host .reveal).isPanelOpen = true := rfl
  by_cases hnn : td = .null
  · subst hnn
    exact ⟨.reveal, .reveal, .text "", .reveal, w, .typeError, hdummy, Or.inr (Or.inl ⟨w, rfl⟩)⟩
  cases hdata : td.getProp "data" with
  | none =>
    refine ⟨.reveal, .reveal, .text "", .reveal, w, .typeError, hdummy,
      Or.inr (Or.inl ⟨{ w with currentTriggerData := none }, ?_⟩)⟩
    cases td <;> simp [processTrigger, hdata, Prog.run] at hnn ⊢
  | some d =>
    by_cases hdn : d = .null
    · subst hdn
      refine ⟨.reveal, .reveal, .text "", .reveal, w, .typeError, hdummy,
        Or.inr (Or.inl ⟨{ w with currentTriggerData := some .null }, ?_⟩)⟩
      cases td <;> simp [processTrigger, hdata, Prog.run] at hnn ⊢
    · have hack : ackFileOf h td = getTempPath h ("review_gate_ack_" ++
          renderJs ((d.setProp "_workspaceHash"
            (jsOrD (some twh) (ofOptString w.workspaceHash))).getProp "trigger_id") ++ ".json") := by
        rw [getProp_setProp_ne _ _ _ _ (by decide)]
        simp [ackFileOf, hdata, optMember_some d _ hdn]
      have hd1 := setProp_ne_null d "_workspaceHash"
        (jsOrD (some twh) (ofOptString w.workspaceHash)) hdn
      have hdef : processTrigger h filePath td tid twh w =
          (handleReviewGateToolCall h
            (some (d.setProp "_workspaceHash" (jsOrD (some twh) (ofOptString w.workspaceHash))))
            { w with currentTriggerData := some (d.setProp "_workspaceHash"
                (jsOrD (some twh) (ofOptString w.workspaceHash))) }).bind fun w3 =>
          .unlinkSync filePath fun _ => .done w3 := by
        cases td <;> cases d <;> simp [processTrigger, hdata] at hnn hdn ⊢
      cases hopts : popupOptionsFor h
          (d.setProp "_workspaceHash" (jsOrD (some twh) (ofOptString w.workspaceHash))) with
      | error e =>
        obtain ⟨e2, hrun⟩ := handleReviewGateToolCall_run_error h _
          { w with currentTriggerData := some (d.setProp "_workspaceHash"
              (jsOrD (some twh) (ofOptString w.workspaceHash))) } fs e hopts
        refine ⟨.reveal, .reveal, .text "", .reveal, w, e2, hdummy,
          Or.inr (Or.inl ⟨{ w with currentTriggerData := some (d.setProp "_workspaceHash"
            (jsOrD (some twh) (ofOptString w.workspaceHash))) }, ?_⟩)⟩
        rw [hdef, Prog.run_bind, hrun]
        rfl
      | ok opts =>
        obtain ⟨c1, c2, ackC, w1, info, hpanel, hrun⟩ := handleReviewGateToolCall_run h _
          { w with currentTriggerData := some (d.setProp "_workspaceHash"
              (jsOrD (some twh) (ofOptString w.workspaceHash))) } fs opts hd1 hopts
        refine ⟨c1, c2, ackC, info, w1, .typeError, hpanel, ?_⟩
        rw [hdef, Prog.run_bind, hrun, ← hack]
        cases ht : (d.setProp "_workspaceHash"
            (jsOrD (some twh) (ofOptString w.workspaceHash))).getProp "tool" with
        | none => exact Or.inr (Or.inr (by simp [Run.andThen]))
        | some t =>
          cases t with
          | str s => exact Or.inl (by simp [Run.andThen, Prog.run])
          | null => exact Or.inr (Or.inr (by simp [Run.andThen]))
          | bool b => exact Or.inr (Or.inr (by simp [Run.andThen]))
          | num n => exact Or.inr (Or.inr (by simp [Run.andThen]))
          | arr a b => exact Or.inr (Or.inr (by simp [Run.andThen]))
          | obj o => exact Or.inr (Or.inr (by simp [Run.andThen]))

/-- C10 (as stated, refuted): in the run of `processTrigger` on the
quick-review request the panel is created and the acknowledgement written
first; the removal of the trigger file is the last call. -/
theorem processTrigger_quickReview_trace :
    ((processTrigger posixHost "/tmp/review_gate_trigger.json" quickReview (some (.str "t1"))
        .null windowA).run fsGeneric).trace =
      [.host (.createWebviewPanel "Review Gate"),
       .host (.setHtml "Review Gate" true),
       .writeFileSync "/tmp/review_gate_ack_t1.json"
         (.json (.obj [("acknowledged", .bool true),
                       ("timestamp", .str "2025-01-01T00:00:00.000Z"),
                       ("trigger_id", .str "t1"), ("tool_type", .str "quick_review"),
                       ("extension", .str "review-gate-v2"), ("popup_activated", .bool true)]))
         false (.ok ()),
       .host (.showInformationMessage
         "Cursor Agent 触发了 \"QUICK REVIEW\" - Review Gate 弹窗已打开，等待您的输入！"),
       .unlinkSync "/tmp/review_gate_trigger.json" (.ok ())] := by
  rfl

/-- C10 (amended): when `processTrigger` returns normally, the removal of the
trigger file is its last call and comes after the panel was opened and the
acknowledgement file written; when the dispatch throws, the trigger file is
not removed at all. -/
theorem processTrigger_deletes_after_dispatch (h : Host) (filePath : String) (td : JVal)
    (tid : JsValue) (twh : JVal) (w : Window) (fs : FS) :
    (((processTrigger h filePath td tid twh w).run fs).error = none →
      ∃ before res,
        ((processTrigger h filePath td tid twh w).run fs).trace
          = before ++ [.unlinkSync filePath res] ∧
        before.any TraceItem.isPanelOpen = true ∧
        before.any (TraceItem.isWriteOf (ackFileOf h td)) = true ∧
        before.all (fun i => !i.isUnlinkOf filePath) = true) ∧
    (((processTrigger h filePath td tid twh w).run fs).error ≠ none →
      ((processTrigger h filePath td tid twh w).run fs).trace.all
        (fun i => !i.isUnlinkOf filePath) = true) := by
  obtain ⟨c1, c2, ackC, info, w1, e, hpanel, hrun | ⟨w2, hrun⟩ | hrun⟩ :=
    processTrigger_run_shape h filePath td tid twh w fs
  · rw [hrun]
    refine ⟨fun _ => ⟨[.host c1, .host c2,
        .writeFileSync (ackFileOf h td) ackC false
          (fs.writeFileSync (ackFileOf h td) ackC false).1, .host info], _, rfl, ?_, ?_, ?_⟩,
      fun hne => absurd rfl hne⟩
    · simp [hpanel]
    · simp [TraceItem.isWriteOf]
    · simp [TraceItem.isUnlinkOf]
  · rw [hrun]
    exact ⟨fun hnone => by simp at hnone, fun _ => by simp⟩
  · rw [hrun]
    exact ⟨fun hnone => by simp at hnone, fun _ => by simp [TraceItem.isUnlinkOf]⟩

/-- C10 (amended), at the quick-review request claimed by a window with no
workspace. -/
theorem processTrigger_deletes_after_dispatch_witness :
    ((processTrigger posixHost "/tmp/review_gate_trigger.json" quickReview (some (.str "t1"))
        .null windowNone).run fsGeneric).error = none ∧
    ∃ before res,
      ((processTrigger posixHost "/tmp/review_gate_trigger.json" quickReview (some (.str "t1"))
          .null windowNone).run fsGeneric).trace
        = before ++ [.unlinkSync "/tmp/review_gate_trigger.json" res] ∧
      before.any TraceItem.isPanelOpen = true ∧
      before.any (TraceItem.isWriteOf (ackFileOf posixHost quickReview)) = true ∧
      before.all (fun i => !i.isUnlinkOf "/tmp/review_gate_trigger.json") = true :=
  ⟨by rfl, (processTrigger_deletes_after_dispatch posixHost "/tmp/review_gate_trigger.json"
    quickReview (some (.str "t1")) .null windowNone fsGeneric).1 (by rfl)⟩

/-! ## Arbitration -/

theorem writeFileSync_error_fs (fs : FS) (p : String) (c : Content) (x : Bool) (e : JsError)
    (he : (fs.writeFileSync p c x).1 = .error e) : (fs.writeFileSync p c x).2 = fs := by
  unfold FS.writeFileSync at he ⊢
  cases hf : fs.fault .write p with
  | some code => simp
  | none =>
    by_cases hx : (x && fs.existsSync p) = true
    · simp [hx]
    · simp [hf, hx] at he

theorem checkTriggerFileWithLock_no_trigger (h : Host) (filePath : String) (td : JVal)
    (tid : JsValue) (lock : String) (twh : JVal) (w : Window) (fs : FS)
    (hfp : fs.existsSync filePath = false) :
    (checkTriggerFileWithLock h filePath td tid lock twh w).run fs
      = ⟨w, none, fs, [.existsSync filePath false]⟩ := by
  simp [checkTriggerFileWithLock, Prog.run_tryCatch_done, Prog.run, hfp]

theorem checkTriggerFileWithLock_locked (h : Host) (filePath : String) (td : JVal)
    (tid : JsValue) (lock : String) (twh : JVal) (w : Window) (fs : FS)
    (hfp : fs.existsSync filePath = true) (hlock : fs.existsSync lock = true) :
    (checkTriggerFileWithLock h filePath td tid lock twh w).run fs
      = ⟨w, none, fs, [.existsSync filePath true, .existsSync lock true]⟩ := by
  simp [checkTriggerFileWithLock, Prog.run_tryCatch_done, Prog.run, hfp, hlock]

theorem checkTriggerFileWithLock_mismatch (h : Host) (filePath : String) (td : JVal)
    (tid : JsValue) (lock : String) (twh : JVal) (w : Window) (fs : FS)
    (hfp : fs.existsSync filePath = true) (hlock : fs.existsSync lock = false)
    (hm : workspaceMatches h td w ≠ .ok true) :
    (checkTriggerFileWithLock h filePath td tid lock twh w).run fs
      = ⟨w, none, fs, [.existsSync filePath true, .existsSync lock false]⟩ := by
  cases hws : workspaceMatches h td w with
  | error e => simp [checkTriggerFileWithLock, Prog.run_tryCatch_done, Prog.run, hfp, hlock, hws]
  | ok b =>
    cases b with
    | true => exact absurd hws hm
    | false =>
      simp [checkTriggerFileWithLock, Prog.run_tryCatch_done, Prog.run, hfp, hlock, hws]

theorem checkTriggerFileWithLock_write_failed (h : Host) (filePath : String) (td : JVal)
    (tid : JsValue) (lock : String) (twh : JVal) (w : Window) (fs : FS) (e : JsError)
    (hfp : fs.existsSync filePath = true) (hlock : fs.existsSync lock = false)
    (hm : workspaceMatches h td w = .ok true)
    (hwrite : (fs.writeFileSync lock (.json (lockData h w tid)) true).1 = .error e) :
    (checkTriggerFileWithLock h filePath td tid lock twh w).run fs
      = ⟨w, none, fs, [.existsSync filePath true, .existsSync lock false,
          .writeFileSync lock (.json (lockData h w tid)) true (.error e)]⟩ := by
  have hfs := writeFileSync_error_fs _ _ _ _ _ hwrite
  by_cases he : e = .fsError "EEXIST"
  · simp [checkTriggerFileWithLock, Prog.run_tryCatch_done, Prog.run, hfp, hlock, hm, hwrite,
      hfs, he]
  · simp [checkTriggerFileWithLock, Prog.run_tryCatch_done, Prog.run, hfp, hlock, hm, hwrite,
      hfs, he]

theorem checkTriggerFileWithLock_acquired (h : Host) (filePath : String) (td : JVal)
    (tid : JsValue) (lock : String) (twh : JVal) (w : Window) (fs : FS)
    (hfp : fs.existsSync filePath = true) (hlock : fs.existsSync lock = false)
    (hm : workspaceMatches h td w = .ok true)
    (hwrite : (fs.writeFileSync lock (.json (lockData h w tid)) true).1 = .ok ()) :
    (checkTriggerFileWithLock h filePath td tid lock twh w).run fs
      = ⟨(match ((processTrigger h filePath td tid twh w).run
              (fs.writeFileSync lock (.json (lockData h w tid)) true).2).error with
          | none => ((processTrigger h filePath td tid twh w).run
              (fs.writeFileSync lock (.json (lockData h w tid)) true).2).state.setTimeout 2000
                (.unlinkLock lock)
          | some _ => ((processTrigger h filePath td tid twh w).run
              (fs.writeFileSync lock (.json (lockData h w tid)) true).2).state),
         none,
         ((processTrigger h filePath td tid twh w).run
            (fs.writeFileSync lock (.json (lockData h w tid)) true).2).fs,
         .existsSync filePath true :: .existsSync lock false ::
          .writeFileSync lock (.json (lockData h w tid)) true (.ok ()) ::
          ((processTrigger h filePath td tid twh w).run
            (fs.writeFileSync lock (.json (lockData h w tid)) true).2).trace⟩ := by
  simp only [checkTriggerFileWithLock, Prog.run_tryCatch_done, Prog.run, hfp, hlock, hm, hwrite,
    Prog.run_bind, Run.andThen, Bool.not_true, Bool.false_eq_true, if_false]
  cases herr : ((processTrigger h filePath td tid twh w).run
      (fs.writeFileSync lock (.json (lockData h w tid)) true).2).error with
  | none => simp [Prog.run]
  | some e => simp

/-- C8 (as stated, refuted): a window with no workspace folder is not the
target of a request addressed to `/Other/Project`, yet it does not abandon:
it creates the lock file, opens its panel, writes the acknowledgement and
removes the trigger file. -/
theorem checkTriggerFileWithLock_no_workspace_claims :
    windowNone.workspacePath = none ∧
    ((checkTriggerFileWithLock posixHost "/tmp/review_gate_trigger.json" targetedRequest
        (some (.str "t1")) "/tmp/review_gate_lock_t1.json" .null windowNone).run
      fsTargeted).trace =
      [.existsSync "/tmp/review_gate_trigger.json" true,
       .existsSync "/tmp/review_gate_lock_t1.json" false,
       .writeFileSync "/tmp/review_gate_lock_t1.json"
         (.json (.obj [("acquired_by", .str "unknown"), ("workspace_hash", .null),
                       ("timestamp", .str "2025-01-01T00:00:00.000Z"),
                       ("trigger_id", .str "t1")]))
         true (.ok ()),
       .host (.createWebviewPanel "Review Gate"),
       .host (.setHtml "Review Gate" true),
       .writeFileSync "/tmp/review_gate_ack_t1.json"
         (.json (.obj [("acknowledged", .bool true),
                       ("timestamp", .str "2025-01-01T00:00:00.000Z"),
                       ("trigger_id", .str "t1"), ("tool_type", .str "quick_review"),
                       ("extension", .str "review-gate-v2"), ("popup_activated", .bool true)]))
         false (.ok ()),
       .host (.showInformationMessage
         "Cursor Agent 触发了 \"QUICK REVIEW\" - Review Gate 弹窗已打开，等待您的输入！"),
       .unlinkSync "/tmp/review_gate_trigger.json" (.ok ())] := by
  exact ⟨rfl, rfl⟩

/-- C8 (amended): a window that has a workspace path different, after
normalisation, from the target path of the request abandons in
`checkTriggerFileWithLock`: its state and the file system are unchanged
(no lock file, no dispatch, trigger file in place), nothing is thrown and
its only calls are existence tests. A window with no workspace path is not
compared with the target at all. -/
theorem checkTriggerFileWithLock_mismatch_abandons (h : Host) (filePath : String) (td : JVal)
    (tid : JsValue) (lock : String) (twh : JVal) (w : Window) (fs : FS) (p t : String)
    (hws : w.workspacePath = some p) (hp : p ≠ "")
    (htarget : jsOr (td.getProp "workspace_path")
      (optMember (td.getProp "data") "workspace_path") = some (.str t))
    (ht : t ≠ "") (hmis : normalizePath h t ≠ normalizePath h p) :
    (((checkTriggerFileWithLock h filePath td tid lock twh w).run fs).state = w ∧
      ((checkTriggerFileWithLock h filePath td tid lock twh w).run fs).error = none ∧
      ((checkTriggerFileWithLock h filePath td tid lock twh w).run fs).fs = fs ∧
      ∀ item ∈ ((checkTriggerFileWithLock h filePath td tid lock twh w).run fs).trace,
        ∃ q b, item = .existsSync q b) ∧
    ∀ w2 : Window, w2.workspacePath = none → workspaceMatches h td w2 = .ok true := by
  have hnn : td ≠ .null := by
    rintro rfl
    simp [JVal.getProp, jsOr, truthy, optMember] at htarget
  have hm : workspaceMatches h td w = .ok false := by
    cases td <;>
      simp [workspaceMatches, htarget, hws, truthy, hp, ht, hmis] at hnn ⊢
  constructor
  · by_cases hfp : fs.existsSync filePath = true
    · by_cases hlock : fs.existsSync lock = true
      · rw [checkTriggerFileWithLock_locked h filePath td tid lock twh w fs hfp hlock]
        simp
      · rw [checkTriggerFileWithLock_mismatch h filePath td tid lock twh w fs hfp
          (by simpa using hlock) (by simp [hm])]
        simp
    · rw [checkTriggerFileWithLock_no_trigger h filePath td tid lock twh w fs
        (by simpa using hfp)]
      simp
  · intro w2 hw2
    cases td <;> simp [workspaceMatches, hw2, truthy] at hnn ⊢

/-- C8 (amended), at the window on `/Foo/Bar` and the request addressed to
`/Other/Project`. -/
theorem checkTriggerFileWithLock_mismatch_abandons_witness :
    (windowA.workspacePath = some "/Foo/Bar" ∧ "/Foo/Bar" ≠ "" ∧
      jsOr (targetedRequest.getProp "workspace_path")
        (optMember (targetedRequest.getProp "data") "workspace_path")
        = some (.str "/Other/Project") ∧
      "/Other/Project" ≠ "" ∧
      normalizePath posixHost "/Other/Project" ≠ normalizePath posixHost "/Foo/Bar") ∧
    ((((checkTriggerFileWithLock posixHost "/tmp/review_gate_trigger.json" targetedRequest
          (some (.str "t1")) "/tmp/review_gate_lock_t1.json" .null windowA).run
        fsTargeted).state = windowA ∧
      ((checkTriggerFileWithLock posixHost "/tmp/review_gate_trigger.json" targetedRequest
          (some (.str "t1")) "/tmp/review_gate_lock_t1.json" .null windowA).run
        fsTargeted).error = none ∧
      ((checkTriggerFileWithLock posixHost "/tmp/review_gate_trigger.json" targetedRequest
          (some (.str "t1")) "/tmp/review_gate_lock_t1.json" .null windowA).run
        fsTargeted).fs = fsTargeted ∧
      ∀ item ∈ ((checkTriggerFileWithLock posixHost "/tmp/review_gate_trigger.json"
          targetedRequest (some (.str "t1")) "/tmp/review_gate_lock_t1.json" .null windowA).run
        fsTargeted).trace, ∃ q b, item = .existsSync q b) ∧
    ∀ w2 : Window, w2.workspacePath = none →
      workspaceMatches posixHost targetedRequest w2 = .ok true) :=
  ⟨⟨by rfl, by decide, by rfl, by decide, by decide⟩,
   checkTriggerFileWithLock_mismatch_abandons posixHost "/tmp/review_gate_trigger.json"
     targetedRequest (some (.str "t1")) "/tmp/review_gate_lock_t1.json" .null windowA fsTargeted
     "/Foo/Bar" "/Other/Project" (by rfl) (by decide) (by rfl) (by decide) (by decide)⟩

/-- C9 (as stated, refuted): when creating the lock file fails with `EACCES`,
nothing is propagated to the caller: `checkTriggerFileWithLock` returns
normally, its own handler having caught the rethrown error. -/
theorem checkTriggerFileWithLock_swallows_EACCES :
    ((checkTriggerFileWithLock posixHost "/tmp/review_gate_trigger.json" quickReview
        (some (.str "t1")) "/tmp/review_gate_lock_t1.json" .null windowA).run
      fsLockDenied).error = none ∧
    ((checkTriggerFileWithLock posixHost "/tmp/review_gate_trigger.json" quickReview
        (some (.str "t1")) "/tmp/review_gate_lock_t1.json" .null windowA).run
      fsLockDenied).trace =
      [.existsSync "/tmp/review_gate_trigger.json" true,
       .existsSync "/tmp/review_gate_lock_t1.json" false,
       .writeFileSync "/tmp/review_gate_lock_t1.json"
         (.json (.obj [("acquired_by", .str "/Foo/Bar"), ("workspace_hash", .str "1df481b1"),
                       ("timestamp", .str "2025-01-01T00:00:00.000Z"),
                       ("trigger_id", .str "t1")]))
         true (.error (.fsError "EACCES"))] := by
  exact ⟨rfl, rfl⟩

/-- C9 (amended): when the exclusive creation of the lock file fails, for
`EEXIST` as for any other error, the window abandons and
`checkTriggerFileWithLock` returns normally: no dispatch, the window state
and the file system (the trigger file included) are unchanged, and no error
reaches the caller. -/
theorem checkTriggerFileWithLock_lock_failure (h : Host) (filePath : String) (td : JVal)
    (tid : JsValue) (lock : String) (twh : JVal) (w : Window) (fs : FS) (e : JsError)
    (hfp : fs.existsSync filePath = true) (hlock : fs.existsSync lock = false)
    (hm : workspaceMatches h td w = .ok true)
    (hwrite : (fs.writeFileSync lock (.json (lockData h w tid)) true).1 = .error e) :
    (checkTriggerFileWithLock h filePath td tid lock twh w).run fs
      = ⟨w, none, fs, [.existsSync filePath true, .existsSync lock false,
          .writeFileSync lock (.json (lockData h w tid)) true (.error e)]⟩ :=
  checkTriggerFileWithLock_write_failed h filePath td tid lock twh w fs e hfp hlock hm hwrite

/-- C9 (amended), at a window that loses the race for the lock (`EEXIST`). -/
theorem checkTriggerFileWithLock_lock_failure_witness :
    (fsLockRaceLost.existsSync "/tmp/review_gate_trigger.json" = true ∧
      fsLockRaceLost.existsSync "/tmp/review_gate_lock_t1.json" = false ∧
      workspaceMatches posixHost quickReview windowNone = .ok true ∧
      (fsLockRaceLost.writeFileSync "/tmp/review_gate_lock_t1.json"
        (.json (lockData posixHost windowNone (some (.str "t1")))) true).1
        = .error (.fsError "EEXIST")) ∧
    (checkTriggerFileWithLock posixHost "/tmp/review_gate_trigger.json" quickReview
        (some (.str "t1")) "/tmp/review_gate_lock_t1.json" .null windowNone).run fsLockRaceLost
      = ⟨windowNone, none, fsLockRaceLost,
          [.existsSync "/tmp/review_gate_trigger.json" true,
           .existsSync "/tmp/review_gate_lock_t1.json" false,
           .writeFileSync "/tmp/review_gate_lock_t1.json"
             (.json (lockData posixHost windowNone (some (.str "t1")))) true
             (.error (.fsError "EEXIST"))]⟩ :=
  ⟨⟨by rfl, by rfl, by rfl, by rfl⟩,
   checkTriggerFileWithLock_lock_failure posixHost "/tmp/review_gate_trigger.json" quickReview
     (some (.str "t1")) "/tmp/review_gate_lock_t1.json" .null windowNone fsLockRaceLost
     (.fsError "EEXIST") (by rfl) (by rfl) (by rfl) (by rfl)⟩

/-! ## Polling a trigger file -/

theorem existsSync_of_readFileSync (fs : FS) (p : String) (c : Content)
    (hr : fs.readFileSync p = .ok c) : fs.existsSync p = true := by
  unfold FS.readFileSync at hr
  unfold FS.existsSync
  cases hf : fs.fault .read p with
  | some code => simp [hf] at hr
  | none =>
    cases hfile : fs.files p with
    | none => simp [hf, hfile] at hr
    | some c2 => rfl

theorem checkTriggerFile_run_parsed (h : Host) (filePath : String) (expectedHash : Option String)
    (w : Window) (fs : FS) (td : JVal) (hfile : fs.readFileSync filePath = .ok (.json td)) :
    (checkTriggerFile h filePath expectedHash w).run fs =
      { (checkParsedTrigger h filePath expectedHash td w).run fs with
        error := none
        trace := .existsSync filePath true :: .readFileSync filePath (.ok (.json td)) ::
          ((checkParsedTrigger h filePath expectedHash td w).run fs).trace } := by
  have hex := existsSync_of_readFileSync fs filePath _ hfile
  simp [checkTriggerFile, Prog.run_tryCatch_done, Prog.run, hex, hfile, Content.parse]

theorem declaresOther_null_false (td : JVal) (k s : String)
    (hd : declaresOther (td.getProp k) s = true) : td ≠ .null := by
  rintro rfl
  simp [declaresOther, JVal.getProp, truthy] at hd

/-- C2: a trigger file found at the workspace-scoped path (a non-empty
`expectedHash`) that passes the editor and system tests is handed straight to
`processTrigger`, whatever the focus of the window, the lock files and other
trigger files present and the `workspace_path` of the request; apart from the
existence test and the read of the trigger file itself, the calls are those
of `processTrigger`: no exclusive write, and no file touched other than the
trigger file and the acknowledgement file. -/
theorem checkTriggerFile_scoped_dispatches (h : Host) (filePath hash : String) (w : Window)
    (fs : FS) (td : JVal) (hh : hash ≠ "")
    (hfile : fs.readFileSync filePath = .ok (.json td)) (hnn : td ≠ .null)
    (htag : passesTagCheck td = true) :
    (checkTriggerFile h filePath (some hash) w).run fs =
      { (processTrigger h filePath td (extractTriggerId td)
          (jsOrD (td.getProp "workspace_hash") .null) w).run fs with
        error := none
        trace := .existsSync filePath true :: .readFileSync filePath (.ok (.json td)) ::
          ((processTrigger h filePath td (extractTriggerId td)
            (jsOrD (td.getProp "workspace_hash") .null) w).run fs).trace } ∧
    ∀ item ∈ ((checkTriggerFile h filePath (some hash) w).run fs).trace,
      item.isExclusiveWrite = false ∧
      (item.path = none ∨ item.path = some filePath ∨ item.path = some (ackFileOf h td)) := by
  have hparsed : checkParsedTrigger h filePath (some hash) td w =
      processTrigger h filePath td (extractTriggerId td)
        (jsOrD (td.getProp "workspace_hash") .null) w := by
    simp only [passesTagCheck, Bool.and_eq_true, Bool.not_eq_true'] at htag
    cases td <;>
      simp [checkParsedTrigger, htag.1, htag.2, truthy, hh] at hnn ⊢
  have hrun := checkTriggerFile_run_parsed h filePath (some hash) w fs td hfile
  rw [hparsed] at hrun
  refine ⟨hrun, ?_⟩
  rw [hrun]
  obtain ⟨c1, c2, ackC, info, w1, e, _, hshape | ⟨w2, hshape⟩ | hshape⟩ :=
    processTrigger_run_shape h filePath td (extractTriggerId td)
      (jsOrD (td.getProp "workspace_hash") .null) w fs
  all_goals
    rw [hshape]
    simp [TraceItem.isExclusiveWrite, TraceItem.path]

/-- C6 (as stated, refuted): a trigger file that declares the editor `""`, a
string other than `cursor`, is not discarded: the empty string is falsy, the
test `triggerData.editor && triggerData.editor !== 'cursor'` lets the file
through, and the window takes the lock, opens its panel, writes the
acknowledgement and removes the trigger file. -/
theorem checkTriggerFile_empty_editor_dispatched :
    emptyEditorRequest.getProp "editor" = some (.str "") ∧
    ((checkTriggerFile posixHost "/tmp/review_gate_trigger.json" none windowA).run
      fsEmptyEditor).trace =
      [.existsSync "/tmp/review_gate_trigger.json" true,
       .readFileSync "/tmp/review_gate_trigger.json" (.ok (.json emptyEditorRequest)),
       .existsSync "/tmp/review_gate_trigger.json" true,
       .existsSync "/tmp/review_gate_lock_t1.json" false,
       .writeFileSync "/tmp/review_gate_lock_t1.json"
         (.json (.obj [("acquired_by", .str "/Foo/Bar"), ("workspace_hash", .str "1df481b1"),
                       ("timestamp", .str "2025-01-01T00:00:00.000Z"),
                       ("trigger_id", .str "t1")]))
         true (.ok ()),
       .host (.createWebviewPanel "Review Gate"),
       .host (.setHtml "Review Gate" true),
       .writeFileSync "/tmp/review_gate_ack_t1.json"
         (.json (.obj [("acknowledged", .bool true),
                       ("timestamp", .str "2025-01-01T00:00:00.000Z"),
                       ("trigger_id", .str "t1"), ("tool_type", .str "quick_review"),
                       ("extension", .str "review-gate-v2"), ("popup_activated", .bool true)]))
         false (.ok ()),
       .host (.showInformationMessage
         "Cursor Agent 触发了 \"QUICK REVIEW\" - Review Gate 弹窗已打开，等待您的输入！"),
       .unlinkSync "/tmp/review_gate_trigger.json" (.ok ())] := by
  exact ⟨rfl, rfl⟩

/-- C6 (amended): a trigger file (at a scoped or the generic path) whose editor
field is present with a truthy value other than `cursor`, or whose system
field is present with a truthy value other than `review-gate-v2`, is
discarded with no effect: the run consists of the existence test and the read
only, the window state (panel, trigger context, timers) and the file system
(no lock, no acknowledgement, trigger file in place) are unchanged, and
nothing is thrown. -/
theorem checkTriggerFile_discards_foreign (h : Host) (filePath : String)
    (expectedHash : Option String) (w : Window) (fs : FS) (td : JVal)
    (hfile : fs.readFileSync filePath = .ok (.json td))
    (hforeign : declaresOther (td.getProp "editor") "cursor" = true ∨
      declaresOther (td.getProp "system") "review-gate-v2" = true) :
    (checkTriggerFile h filePath expectedHash w).run fs =
      ⟨w, none, fs,
       [.existsSync filePath true, .readFileSync filePath (.ok (.json td))]⟩ := by
  have hnn : td ≠ .null := by
    rcases hforeign with hf | hf
    · exact declaresOther_null_false td _ _ hf
    · exact declaresOther_null_false td _ _ hf
  have hparsed : checkParsedTrigger h filePath expectedHash td w = .done w := by
    rcases hforeign with hf | hf
    · cases td <;> simp [checkParsedTrigger, hf] at hnn ⊢
    · cases td <;> simp [checkParsedTrigger, hf] at hnn ⊢
  rw [checkTriggerFile_run_parsed h filePath expectedHash w fs td hfile, hparsed]
  rfl

/-- C2, at an unfocused window whose scoped trigger file holds a request addressed
to another workspace, with a lock file and a generic trigger file of the same
id present. -/
theorem checkTriggerFile_scoped_dispatches_witness :
    ("1df481b1" ≠ "" ∧
      fsScoped.readFileSync "/tmp/review_gate_trigger_1df481b1.json"
        = .ok (.json targetedRequest) ∧
      targetedRequest ≠ .null ∧ passesTagCheck targetedRequest = true) ∧
    ((checkTriggerFile posixHost "/tmp/review_gate_trigger_1df481b1.json" (some "1df481b1")
        windowAUnfocused).run fsScoped =
      { (processTrigger posixHost "/tmp/review_gate_trigger_1df481b1.json" targetedRequest
          (extractTriggerId targetedRequest)
          (jsOrD (targetedRequest.getProp "workspace_hash") .null) windowAUnfocused).run
          fsScoped with
        error := none
        trace := .existsSync "/tmp/review_gate_trigger_1df481b1.json" true ::
          .readFileSync "/tmp/review_gate_trigger_1df481b1.json" (.ok (.json targetedRequest)) ::
          ((processTrigger posixHost "/tmp/review_gate_trigger_1df481b1.json" targetedRequest
            (extractTriggerId targetedRequest)
            (jsOrD (targetedRequest.getProp "workspace_hash") .null) windowAUnfocused).run
            fsScoped).trace } ∧
    ∀ item ∈ ((checkTriggerFile posixHost "/tmp/review_gate_trigger_1df481b1.json"
        (some "1df481b1") windowAUnfocused).run fsScoped).trace,
      item.isExclusiveWrite = false ∧
      (item.path = none ∨ item.path = some "/tmp/review_gate_trigger_1df481b1.json" ∨
        item.path = some (ackFileOf posixHost targetedRequest))) :=
  ⟨⟨by decide, by rfl, by simp [targetedRequest], by rfl⟩,
   checkTriggerFile_scoped_dispatches posixHost "/tmp/review_gate_trigger_1df481b1.json"
     "1df481b1" windowAUnfocused fsScoped targetedRequest (by decide) (by rfl)
     (by simp [targetedRequest]) (by rfl)⟩

/-- C6 (amended), at a request whose editor tag is `vscode`. -/
theorem checkTriggerFile_discards_foreign_witness :
    (fsForeign.readFileSync "/tmp/review_gate_trigger.json" = .ok (.json foreignRequest) ∧
      (declaresOther (foreignRequest.getProp "editor") "cursor" = true ∨
        declaresOther (foreignRequest.getProp "system") "review-gate-v2" = true)) ∧
    (checkTriggerFile posixHost "/tmp/review_gate_trigger.json" none windowA).run fsForeign =
      ⟨windowA, none, fsForeign,
       [.existsSync "/tmp/review_gate_trigger.json" true,
        .readFileSync "/tmp/review_gate_trigger.json" (.ok (.json foreignRequest))]⟩ :=
  ⟨⟨by rfl, Or.inl (by rfl)⟩,
   checkTriggerFile_discards_foreign posixHost "/tmp/review_gate_trigger.json" none windowA
     fsForeign foreignRequest (by rfl) (Or.inl (by rfl))⟩

theorem processTrigger_no_exclusive_write (h : Host) (filePath : String) (td : JVal)
    (tid : JsValue) (twh : JVal) (w : Window) (fs : FS) :
    ∀ item ∈ ((processTrigger h filePath td tid twh w).run fs).trace,
      item.isExclusiveWrite = false := by
  obtain ⟨c1, c2, ackC, info, w1, e, _, hshape | ⟨w2, hshape⟩ | hshape⟩ :=
    processTrigger_run_shape h filePath td tid twh w fs
  all_goals
    rw [hshape]
    simp [TraceItem.isExclusiveWrite]

theorem checkTriggerFileWithLock_exclusive_writes (h : Host) (filePath : String) (td : JVal)
    (tid : JsValue) (lock : String) (twh : JVal) (w : Window) (fs : FS) :
    ∀ item ∈ ((checkTriggerFileWithLock h filePath td tid lock twh w).run fs).trace,
      item.isExclusiveWrite = true → item.path = some lock := by
  by_cases hfp : fs.existsSync filePath = true
  · by_cases hlock : fs.existsSync lock = true
    · rw [checkTriggerFileWithLock_locked h filePath td tid lock twh w fs hfp hlock]
      simp [TraceItem.isExclusiveWrite]
    · have hlock2 : fs.existsSync lock = false := by simpa using hlock
      by_cases hm : workspaceMatches h td w = .ok true
      · cases hwrite : (fs.writeFileSync lock (.json (lockData h w tid)) true).1 with
        | error e =>
          rw [checkTriggerFileWithLock_write_failed h filePath td tid lock twh w fs e hfp hlock2
            hm hwrite]
          simp [TraceItem.isExclusiveWrite, TraceItem.path]
        | ok u =>
          rw [checkTriggerFileWithLock_acquired h filePath td tid lock twh w fs hfp hlock2 hm
            hwrite]
          intro item hitem hx
          simp only [List.mem_cons] at hitem
          rcases hitem with rfl | rfl | rfl | hitem
          · simp [TraceItem.isExclusiveWrite] at hx
          · simp [TraceItem.isExclusiveWrite] at hx
          · rfl
          · have := processTrigger_no_exclusive_write h filePath td tid twh w _ item hitem
            rw [this] at hx
            exact absurd hx (by decide)
      · rw [checkTriggerFileWithLock_mismatch h filePath td tid lock twh w fs hfp hlock2 hm]
        simp [TraceItem.isExclusiveWrite]
  · rw [checkTriggerFileWithLock_no_trigger h filePath td tid lock twh w fs
      (by simpa using hfp)]
    simp [TraceItem.isExclusiveWrite]

theorem checkParsedTrigger_generic_focused (h : Host) (filePath : String) (td : JVal)
    (w : Window) (hnn : td ≠ .null) (htag : passesTagCheck td = true)
    (hfocus : w.focused = true) :
    checkParsedTrigger h filePath none td w =
      checkTriggerFileWithLock h filePath td (extractTriggerId td)
        (lockFilePathOf h (extractTriggerId td)) (jsOrD (td.getProp "workspace_hash") .null) w := by
  simp only [passesTagCheck, Bool.and_eq_true, Bool.not_eq_true'] at htag
  cases td <;> simp [checkParsedTrigger, htag.1, htag.2, truthy, hfocus] at hnn ⊢

theorem checkParsedTrigger_generic_unfocused (h : Host) (filePath : String) (td : JVal)
    (w : Window) (hnn : td ≠ .null) (htag : passesTagCheck td = true)
    (hfocus : w.focused = false) :
    checkParsedTrigger h filePath none td w =
      .existsSync (lockFilePathOf h (extractTriggerId td)) fun lock =>
        if lock then .done w
        else .done (w.setTimeout 100
          (.checkTriggerFileWithLock filePath td (extractTriggerId td)
            (lockFilePathOf h (extractTriggerId td))
            (jsOrD (td.getProp "workspace_hash") .null))) := by
  simp only [passesTagCheck, Bool.and_eq_true, Bool.not_eq_true'] at htag
  cases td <;> simp [checkParsedTrigger, htag.1, htag.2, truthy, hfocus] at hnn ⊢

theorem checkParsedTrigger_discarded (h : Host) (filePath : String)
    (expectedHash : Option String) (td : JVal) (w : Window) (fs : FS)
    (htag : td = .null ∨ passesTagCheck td = false) :
    ((checkParsedTrigger h filePath expectedHash td w).run fs).trace = [] := by
  rcases htag with rfl | htag
  · rfl
  · have hnn : td ≠ .null := by
      rintro rfl
      simp [passesTagCheck, declaresOther, JVal.getProp, truthy] at htag
    simp only [passesTagCheck, Bool.and_eq_false_iff, Bool.not_eq_false'] at htag
    rcases htag with hf | hf
    · cases td <;> simp [checkParsedTrigger, hf, Prog.run] at hnn ⊢
    · by_cases he : declaresOther (td.getProp "editor") "cursor" = true
      · cases td <;> simp [checkParsedTrigger, he, Prog.run] at hnn ⊢
      · cases td <;> simp [checkParsedTrigger, he, hf, Prog.run] at hnn ⊢

/-- C7 (as stated, refuted): a request with the explicit id `""`, and one with
the explicit id `0`, get their top-level timestamp as trigger id, not
`data.trigger_id` (both ids are falsy for `||`); the lock file of the second
is named after the timestamp. -/
theorem falsy_explicit_id_replaced_by_timestamp :
    optMember (emptyIdRequest.getProp "data") "trigger_id" = some (.str "") ∧
    extractTriggerId emptyIdRequest = some (.str "2025-01-01T00:00:00.000Z") ∧
    optMember (zeroIdRequest.getProp "data") "trigger_id" = some (.num 0) ∧
    extractTriggerId zeroIdRequest = some (.num 1735689600000) ∧
    (((checkTriggerFile posixHost "/tmp/review_gate_trigger.json" none windowA).run
      fsZeroId).trace.filter TraceItem.isExclusiveWrite).map TraceItem.path
      = [some "/tmp/review_gate_lock_1735689600000.json"] := by
  exact ⟨rfl, rfl, rfl, rfl, rfl⟩

/-- C7 (amended): the trigger id is `data.trigger_id` when that is truthy (an
explicit id that is not empty, 0, false or null) and the top-level `timestamp`
otherwise; on the generic path every exclusive write of `checkTriggerFile` is
on the file `review_gate_lock_<id>.json` of `os.tmpdir()`, and a focused
window that finds no lock and passes the workspace test creates exactly that
file. -/
theorem trigger_id_names_lock_file (h : Host) (td : JVal) :
    extractTriggerId td =
      (if truthy (optMember (td.getProp "data") "trigger_id") = true
        then optMember (td.getProp "data") "trigger_id" else td.getProp "timestamp") ∧
    (∀ (filePath : String) (w : Window) (fs : FS),
      fs.readFileSync filePath = .ok (.json td) →
      ∀ item ∈ ((checkTriggerFile h filePath none w).run fs).trace,
        item.isExclusiveWrite = true →
        item.path = some (pathJoin h h.tmpdir
          ("review_gate_lock_" ++ renderJs (extractTriggerId td) ++ ".json"))) ∧
    (∀ (filePath : String) (w : Window) (fs : FS),
      fs.readFileSync filePath = .ok (.json td) → td ≠ .null → passesTagCheck td = true →
      w.focused = true →
      fs.existsSync (pathJoin h h.tmpdir
        ("review_gate_lock_" ++ renderJs (extractTriggerId td) ++ ".json")) = false →
      workspaceMatches h td w = .ok true →
      (fs.writeFileSync (pathJoin h h.tmpdir
          ("review_gate_lock_" ++ renderJs (extractTriggerId td) ++ ".json"))
        (.json (lockData h w (extractTriggerId td))) true).1 = .ok () →
      TraceItem.writeFileSync (pathJoin h h.tmpdir
          ("review_gate_lock_" ++ renderJs (extractTriggerId td) ++ ".json"))
        (.json (lockData h w (extractTriggerId td))) true (.ok ())
        ∈ ((checkTriggerFile h filePath none w).run fs).trace) := by
  refine ⟨rfl, ?_, ?_⟩
  · intro filePath w fs hfile item hitem hx
    rw [checkTriggerFile_run_parsed h filePath none w fs td hfile] at hitem
    simp only [List.mem_cons] at hitem
    rcases hitem with rfl | rfl | hitem
    · simp [TraceItem.isExclusiveWrite] at hx
    · simp [TraceItem.isExclusiveWrite] at hx
    · by_cases hpass : td ≠ .null ∧ passesTagCheck td = true
      · cases hfocus : w.focused with
        | true =>
          rw [checkParsedTrigger_generic_focused h filePath td w hpass.1 hpass.2 hfocus] at hitem
          exact checkTriggerFileWithLock_exclusive_writes h filePath td _ _ _ w fs item hitem hx
        | false =>
          rw [checkParsedTrigger_generic_unfocused h filePath td w hpass.1 hpass.2 hfocus]
            at hitem
          by_cases hl : fs.existsSync (lockFilePathOf h (extractTriggerId td)) = true
          · simp [Prog.run, hl] at hitem
            subst hitem
            simp [TraceItem.isExclusiveWrite] at hx
          · simp [Prog.run, hl] at hitem
            subst hitem
            simp [TraceItem.isExclusiveWrite] at hx
      · have hd : td = .null ∨ passesTagCheck td = false := by
          by_cases hnn : td = .null
          · exact Or.inl hnn
          · right
            simp only [not_and] at hpass
            simpa using hpass hnn
        rw [checkParsedTrigger_discarded h filePath none td w fs hd] at hitem
        simp at hitem
  · intro filePath w fs hfile hnn htag hfocus hlock hm hwrite
    have hex := existsSync_of_readFileSync fs filePath _ hfile
    have hacq := checkTriggerFileWithLock_acquired h filePath td (extractTriggerId td)
      (lockFilePathOf h (extractTriggerId td)) (jsOrD (td.getProp "workspace_hash") .null) w fs
      hex hlock hm hwrite
    rw [checkTriggerFile_run_parsed h filePath none w fs td hfile,
      checkParsedTrigger_generic_focused h filePath td w hnn htag hfocus, hacq]
    simp [lockFilePathOf]

/-- C7 (amended), at the quick-review request with id `t1`: the focused window creates
`/tmp/review_gate_lock_t1.json`. -/
theorem trigger_id_names_lock_file_witness :
    (fsGeneric.readFileSync "/tmp/review_gate_trigger.json" = .ok (.json quickReview) ∧
      quickReview ≠ .null ∧ passesTagCheck quickReview = true ∧ windowA.focused = true ∧
      fsGeneric.existsSync "/tmp/review_gate_lock_t1.json" = false ∧
      workspaceMatches posixHost quickReview windowA = .ok true ∧
      (fsGeneric.writeFileSync "/tmp/review_gate_lock_t1.json"
        (.json (lockData posixHost windowA (some (.str "t1")))) true).1 = .ok ()) ∧
    TraceItem.writeFileSync "/tmp/review_gate_lock_t1.json"
        (.json (lockData posixHost windowA (some (.str "t1")))) true (.ok ())
      ∈ ((checkTriggerFile posixHost "/tmp/review_gate_trigger.json" none windowA).run
          fsGeneric).trace :=
  ⟨⟨by rfl, by simp [quickReview], by rfl, by rfl, by rfl, by rfl, by rfl⟩,
   (trigger_id_names_lock_file posixHost quickReview).2.2 "/tmp/review_gate_trigger.json"
     windowA fsGeneric (by rfl) (by simp [quickReview]) (by rfl) (by rfl) (by rfl) (by rfl)
     (by rfl)⟩

/-! ## Several windows: the shape of the callbacks -/

/-- A sequential run is the interleaved execution with no other window: the
first call as executed by `Prog.step1`, then the run of the rest. -/
theorem Prog.run_of_step1 {σ : Type} (p : Prog σ) (fs : FS) (x : TraceItem × Prog σ × FS)
    (hx : p.step1 fs = some x) :
    p.run fs = { x.2.1.run x.2.2 with trace := x.1 :: (x.2.1.run x.2.2).trace } := by
  cases p <;> simp only [Prog.step1, Option.some.injEq] at hx <;> first
    | exact absurd hx (by simp)
    | (subst hx; rfl)

theorem Prog.tryCatch_idem {σ : Type} (p : Prog σ) :
    (p.tryCatch fun _ s => .done s).tryCatch (fun _ s => .done s)
      = p.tryCatch fun _ s => .done s := by
  induction p with
  | done s => rfl
  | fail e s => rfl
  | existsSync q k ih => simp [Prog.tryCatch, ih]
  | readFileSync q k ih => simp [Prog.tryCatch, ih]
  | writeFileSync q c x k ih => simp [Prog.tryCatch, ih]
  | unlinkSync q k ih => simp [Prog.tryCatch, ih]
  | appendFileSync q t k ih => simp [Prog.tryCatch, ih]
  | statSync q k ih => simp [Prog.tryCatch, ih]
  | host c k ih => simp [Prog.tryCatch, ih]

theorem Scene.winOk_mono (c : Scene) (w : Window) (hw : c.winOk false w) (ul : Bool) :
    c.winOk ul w := by
  intro t ht
  rcases hw t ht with hm | hc | ⟨hf, _⟩
  · exact Or.inl hm
  · exact Or.inr (Or.inl hc)
  · exact absurd hf (by decide)

theorem Scene.winOk_setTimeout (c : Scene) (ul : Bool) (w : Window) (ms : Nat) (a : TimerAction)
    (hw : c.winOk ul w) (ha : c.goodTimer ul a) : c.winOk ul (w.setTimeout ms a) := by
  intro t ht
  simp only [Window.setTimeout, List.mem_append, List.mem_singleton] at ht
  rcases ht with ht | rfl
  · exact hw t ht
  · exact ha

theorem openReviewGatePopup_tree (c : Scene) (ul : Bool) (opts : PopupOptions) (w : Window)
    (hw : c.winOk ul w) :
    ∃ c1 c2 w1, openReviewGatePopup opts w = .host c1 (.host c2 (.done w1)) ∧
      (TraceItem.host c1).isPanelOpen = true ∧ (TraceItem.host c2).isPanelOpen = false ∧
      c.winOk ul w1 := by
  have hpm : ∀ m, c.goodTimer ul (.postMessage m) := fun m => Or.inl ⟨m, rfl⟩
  unfold openReviewGatePopup
  cases hp : w.chatPanel with
  | none =>
    simp only [hp]
    refine ⟨_, _, _, rfl, rfl, rfl, ?_⟩
    intro t ht
    split_ifs at ht <;>
      simp only [Window.setTimeout, List.mem_append, List.mem_singleton] at ht <;>
      first
        | exact hw t ht
        | (rcases ht with ht | rfl
           · exact hw t ht
           · exact hpm _)
  | some panel =>
    simp only [hp]
    refine ⟨_, _, _, rfl, rfl, rfl, ?_⟩
    intro t ht
    split_ifs at ht <;>
      simp only [Window.setTimeout, List.mem_append, List.mem_singleton] at ht <;>
      first
        | exact hw t ht
        | (rcases ht with ht | rfl
           · exact hw t ht
           · exact hpm _)
        | (rcases ht with (ht | rfl) | rfl
           · exact hw t ht
           · exact hpm _
           · exact hpm _)
        | (rcases ht with ((ht | rfl) | rfl) | rfl
           · exact hw t ht
           · exact hpm _
           · exact hpm _
           · exact hpm _)

theorem Scene.winOk_or (c : Scene) (ul u : Bool) (w : Window) (hw : c.winOk ul w) :
    c.winOk (ul || u) w := by
  intro t ht
  rcases hw t ht with hm | hc | ⟨hf, hu⟩
  · exact Or.inl hm
  · exact Or.inr (Or.inl hc)
  · exact Or.inr (Or.inr ⟨by simp [hf], hu⟩)

theorem handleReviewGateToolCall_tree (c : Scene) (ul : Bool) (h : Host) (td : JVal)
    (w : Window) (opts : PopupOptions) (hnn : td ≠ .null)
    (hopts : popupOptionsFor h td = .ok opts) (hw : c.winOk ul w) :
    ∃ c1 c2 w1,
      (TraceItem.host c1).isPanelOpen = true ∧ (TraceItem.host c2).isPanelOpen = false ∧
      c.winOk ul w1 ∧
      handleReviewGateToolCall h (some td) w =
        .host c1 (.host c2 (.writeFileSync
          (getTempPath h ("review_gate_ack_" ++ renderJs (td.getProp "trigger_id") ++ ".json"))
          (.json (ackData h (td.getProp "trigger_id") (td.getProp "tool"))) false fun _ =>
            match td.getProp "tool" with
            | some (.str tool) =>
              .host (.showInformationMessage (triggeredNotification h tool)) (.done w1)
            | _ => .fail .typeError w1)) := by
  obtain ⟨c1, c2, w1, htree, ho1, ho2, hw1⟩ := openReviewGatePopup_tree c ul
    { opts with triggerId := td.getProp "trigger_id", title := some (.str "Review Gate") } w hw
  have hdef : handleReviewGateToolCall h (some td) w =
      (openReviewGatePopup
        { opts with triggerId := td.getProp "trigger_id", title := some (.str "Review Gate") }
        w).bind fun w1 =>
      (sendExtensionAcknowledgement h (td.getProp "trigger_id") (td.getProp "tool") w1).bind
      fun w2 =>
      match td.getProp "tool" with
      | some (.str tool) =>
        .host (.showInformationMessage (triggeredNotification h tool)) (.done w2)
      | _ => .fail .typeError w2 := by
    cases td <;> simp [handleReviewGateToolCall, hopts] at hnn ⊢
  refine ⟨c1, c2, w1, ho1, ho2, hw1, ?_⟩
  rw [hdef, htree]
  simp [Prog.bind, sendExtensionAcknowledgement]

theorem Scene.winOk_timers (c : Scene) (ul : Bool) (w w2 : Window) (hw : c.winOk ul w)
    (ht : w2.timers = w.timers) : c.winOk ul w2 := by
  intro t hmem
  rw [ht] at hmem
  exact hw t hmem

theorem Scene.ownerOk_claim (c : Scene) (ul : Bool) (w : Window) (hw : c.winOk ul w) :
    c.ownerOk ul 1 1 false
      (((processTrigger c.host c.trigger c.request c.triggerId c.workspaceHash w).bind
          fun w1 => .done (w1.setTimeout 2000 (.unlinkLock c.lock))).tryCatch
        fun _ s => .done s) := by
  have hor : ∀ w2 : Window, w2.timers = w.timers → c.winOk (ul || false) w2 := by
    intro w2 ht
    exact c.winOk_or ul false w2 (c.winOk_timers ul w w2 hw ht)
  by_cases hnn : c.request = .null
  · simp only [processTrigger, hnn, Prog.bind, Prog.tryCatch, Scene.ownerOk]
    exact hor w rfl
  cases hdata : c.request.getProp "data" with
  | none =>
    have hdef : processTrigger c.host c.trigger c.request c.triggerId c.workspaceHash w
        = .fail .typeError { w with currentTriggerData := none } := by
      cases hr : c.request <;> simp [processTrigger, hr, hdata] at hnn hdata ⊢ <;>
        simp [hdata]
    rw [hdef]
    simp only [Prog.bind, Prog.tryCatch, Scene.ownerOk]
    exact hor _ rfl
  | some d =>
    by_cases hdn : d = .null
    · subst hdn
      have hdef : processTrigger c.host c.trigger c.request c.triggerId c.workspaceHash w
          = .fail .typeError { w with currentTriggerData := some .null } := by
        cases hr : c.request <;> simp [processTrigger, hr, hdata] at hnn hdata ⊢ <;>
          simp [hdata]
      rw [hdef]
      simp only [Prog.bind, Prog.tryCatch, Scene.ownerOk]
      exact hor _ rfl
    · have hack : getTempPath c.host ("review_gate_ack_" ++
          renderJs ((d.setProp "_workspaceHash"
            (jsOrD (some c.workspaceHash) (ofOptString w.workspaceHash))).getProp "trigger_id")
            ++ ".json") = c.ack := by
        rw [getProp_setProp_ne _ _ _ _ (by decide)]
        simp [Scene.ack, ackFileOf, hdata, optMember_some d _ hdn]
      have hd1 := setProp_ne_null d "_workspaceHash"
        (jsOrD (some c.workspaceHash) (ofOptString w.workspaceHash)) hdn
      have hdef : processTrigger c.host c.trigger c.request c.triggerId c.workspaceHash w =
          (handleReviewGateToolCall c.host
            (some (d.setProp "_workspaceHash"
              (jsOrD (some c.workspaceHash) (ofOptString w.workspaceHash))))
            { w with currentTriggerData := some (d.setProp "_workspaceHash"
                (jsOrD (some c.workspaceHash) (ofOptString w.workspaceHash))) }).bind fun w3 =>
          .unlinkSync c.trigger fun _ => .done w3 := by
        cases hr : c.request <;> cases d <;>
          simp [processTrigger, hr, hdata] at hnn hdn hdata ⊢ <;> simp [hdata]
      have hw2 : c.winOk ul { w with currentTriggerData := some (d.setProp "_workspaceHash"
          (jsOrD (some c.workspaceHash) (ofOptString w.workspaceHash))) } :=
        c.winOk_timers ul w _ hw rfl
      rw [hdef]
      cases hopts : popupOptionsFor c.host
          (d.setProp "_workspaceHash"
            (jsOrD (some c.workspaceHash) (ofOptString w.workspaceHash))) with
      | error e =>
        have hh : handleReviewGateToolCall c.host
            (some (d.setProp "_workspaceHash"
              (jsOrD (some c.workspaceHash) (ofOptString w.workspaceHash))))
            { w with currentTriggerData := some (d.setProp "_workspaceHash"
                (jsOrD (some c.workspaceHash) (ofOptString w.workspaceHash))) }
            = .fail e { w with currentTriggerData := some (d.setProp "_workspaceHash"
                (jsOrD (some c.workspaceHash) (ofOptString w.workspaceHash))) } := by
          generalize d.setProp "_workspaceHash"
            (jsOrD (some c.workspaceHash) (ofOptString w.workspaceHash)) = d1 at hopts hd1 ⊢
          cases d1 <;> simp [handleReviewGateToolCall, hopts] at hd1 ⊢
        rw [hh]
        simp only [Prog.bind, Prog.tryCatch, Scene.ownerOk]
        exact hor _ rfl
      | ok opts =>
        obtain ⟨c1, c2, w1, ho1, ho2, hw1, htree⟩ := handleReviewGateToolCall_tree c ul c.host _
          { w with currentTriggerData := some (d.setProp "_workspaceHash"
              (jsOrD (some c.workspaceHash) (ofOptString w.workspaceHash))) } opts hd1 hopts hw2
        rw [htree, hack]
        have hunlock : c.winOk (ul || true) (w1.setTimeout 2000 (.unlinkLock c.lock)) :=
          c.winOk_setTimeout _ _ _ _ (c.winOk_or ul true w1 hw1)
            (Or.inr (Or.inr ⟨by simp, rfl⟩))
        have hinfo : ∀ t, (TraceItem.host (.showInformationMessage t)).isPanelOpen = false :=
          fun _ => rfl
        cases ht : (d.setProp "_workspaceHash"
            (jsOrD (some c.workspaceHash) (ofOptString w.workspaceHash))).getProp "tool" with
        | none =>
          simp [Prog.bind, Prog.tryCatch, Scene.ownerOk, ho1, ho2]
          exact hw1
        | some t =>
          cases t with
          | str s =>
            simp [Prog.bind, Prog.tryCatch, Scene.ownerOk, ho1, ho2, hinfo]
            simpa using hunlock
          | null =>
            simp [Prog.bind, Prog.tryCatch, Scene.ownerOk, ho1, ho2]
            exact hw1
          | bool b =>
            simp [Prog.bind, Prog.tryCatch, Scene.ownerOk, ho1, ho2]
            exact hw1
          | num n =>
            simp [Prog.bind, Prog.tryCatch, Scene.ownerOk, ho1, ho2]
            exact hw1
          | arr a b =>
            simp [Prog.bind, Prog.tryCatch, Scene.ownerOk, ho1, ho2]
            exact hw1
          | obj o =>
            simp [Prog.bind, Prog.tryCatch, Scene.ownerOk, ho1, ho2]
            exact hw1

theorem Scene.bys_checkTriggerFileWithLock (c : Scene) (ul : Bool) (w : Window)
    (hw : c.winOk ul w) :
    c.bys ul (checkTriggerFileWithLock c.host c.trigger c.request c.triggerId c.lock
      c.workspaceHash w) := by
  have hclaim := c.ownerOk_claim ul w hw
  simp only [checkTriggerFileWithLock, Prog.tryCatch, Scene.bys]
  refine Or.inl ⟨trivial, ?_, ?_⟩
  · simp only [Bool.not_true, Bool.false_eq_true, if_false, Prog.tryCatch, Scene.bys]
    refine Or.inr ⟨trivial, ?_, ?_⟩
    · simpa [Prog.tryCatch, Scene.fin] using hw
    · cases hm : workspaceMatches c.host c.request w with
      | error e => simpa [Prog.tryCatch, Scene.bys] using hw
      | ok b =>
        cases b with
        | false => simpa [Prog.tryCatch, Scene.bys] using hw
        | true =>
          simp only [Prog.tryCatch, Scene.bys]
          refine ⟨trivial, trivial, ?_, ?_⟩
          · intro e
            by_cases he : e = .fsError "EEXIST"
            · simpa [he, Prog.tryCatch, Scene.fin] using hw
            · simpa [he, Prog.tryCatch, Scene.fin] using hw
          · exact hclaim
  · simpa [Prog.tryCatch, Scene.fin] using hw

theorem Scene.bys_checkTriggerFile (c : Scene) (ul : Bool) (w : Window) (hw : c.winOk ul w) :
    c.bys ul (checkTriggerFile c.host c.trigger none w) := by
  simp only [checkTriggerFile, Prog.tryCatch, Scene.bys]
  refine Or.inl ⟨trivial, ?_, ?_⟩
  · refine ⟨trivial, ?_, ?_⟩
    · intro e
      simpa [Prog.tryCatch, Scene.fin] using hw
    · show c.bys ul ((checkParsedTrigger c.host c.trigger none c.request w).tryCatch
        fun _ w1 => .done w1)
      by_cases hpass : c.request ≠ .null ∧ passesTagCheck c.request = true
      · cases hfocus : w.focused with
        | true =>
          rw [checkParsedTrigger_generic_focused c.host c.trigger c.request w hpass.1 hpass.2
            hfocus]
          have hb := c.bys_checkTriggerFileWithLock ul w hw
          unfold checkTriggerFileWithLock at hb ⊢
          rw [Prog.tryCatch_idem]
          exact hb
        | false =>
          rw [checkParsedTrigger_generic_unfocused c.host c.trigger c.request w hpass.1 hpass.2
            hfocus]
          simp only [Prog.tryCatch, Scene.bys]
          refine Or.inr ⟨rfl, ?_, ?_⟩
          · simpa [Prog.tryCatch, Scene.fin] using hw
          · exact c.winOk_setTimeout ul w _ _ hw (Or.inr (Or.inl rfl))
      · have hfin : ∃ w2 : Window, w2.timers = w.timers ∧
            (checkParsedTrigger c.host c.trigger none c.request w).tryCatch
              (fun _ s => .done s) = .done w2 := by
          by_cases hnn : c.request = .null
          · exact ⟨w, rfl, by simp [checkParsedTrigger, hnn, Prog.tryCatch]⟩
          · have htag : passesTagCheck c.request = false := by
              simp only [not_and] at hpass
              simpa using hpass hnn
            simp only [passesTagCheck, Bool.and_eq_false_iff, Bool.not_eq_false'] at htag
            refine ⟨w, rfl, ?_⟩
            rcases htag with hf | hf
            · cases hr : c.request <;>
                simp [checkParsedTrigger, hr, hf, Prog.tryCatch] at hnn hf ⊢ <;>
                simp [hf, Prog.tryCatch]
            · by_cases he : declaresOther (c.request.getProp "editor") "cursor" = true
              · cases hr : c.request <;>
                  simp [checkParsedTrigger, hr, he, Prog.tryCatch] at hnn he ⊢ <;>
                  simp [he, Prog.tryCatch]
              · cases hr : c.request <;>
                  simp [checkParsedTrigger, hr, he, hf, Prog.tryCatch] at hnn he hf ⊢ <;>
                  simp [he, hf, Prog.tryCatch]
        obtain ⟨w2, ht, heq⟩ := hfin
        rw [heq]
        exact c.winOk_timers ul w w2 hw ht
  · simpa [Prog.tryCatch, Scene.fin] using hw

/-! ## Several windows: one step of one window -/

theorem Scene.fin_bys (c : Scene) (ul : Bool) (p : Prog Window) (hp : c.fin ul p) :
    c.bys ul p := by
  cases p <;> simp [Scene.fin, Scene.bys] at hp ⊢ <;> exact hp

theorem Scene.bys_fire (c : Scene) (ul : Bool) (w : Window) (k : Nat) (t : Nat × TimerAction)
    (hw : c.winOk ul w) (ht : w.timers[k]? = some t) :
    c.bys ul (t.2.fire c.host { w with timers := w.timers.eraseIdx k }) := by
  have hw2 : c.winOk ul { w with timers := w.timers.eraseIdx k } := by
    intro t2 ht2
    exact hw t2 (List.mem_of_mem_eraseIdx ht2)
  rcases hw t (List.getElem?_mem ht) with ⟨m, hm⟩ | hc | ⟨hul, hu⟩
  · rw [hm]
    cases hp : w.chatPanel with
    | none => simpa [TimerAction.fire, hp, Scene.bys] using hw2
    | some panel =>
      simp only [TimerAction.fire, hp, Scene.bys, Scene.fin]
      exact ⟨rfl, hw2⟩
  · rw [hc]
    exact c.bys_checkTriggerFileWithLock ul _ hw2
  · rw [hu]
    simp only [TimerAction.fire, Scene.bys, Scene.fin]
    exact ⟨hul, trivial, fun _ => hw2⟩

theorem FS.writeFileSync_noFault (fs : FS) (p : String) (c : Content) (x : Bool)
    (h : fs.noFault) :
    fs.writeFileSync p c x =
      if (x && fs.existsSync p) = true then (.error (.fsError "EEXIST"), fs)
      else (.ok (), fs.put p c) := by
  simp [FS.writeFileSync, h .write p]

theorem FS.unlinkSync_noFault (fs : FS) (p : String) (h : fs.noFault) :
    fs.unlinkSync p =
      if fs.existsSync p = true then (.ok (), fs.remove p)
      else (.error (.fsError "ENOENT"), fs) := by
  simp [FS.unlinkSync, h .unlink p]

theorem FS.readFileSync_noFault (fs : FS) (p : String) (h : fs.noFault) :
    fs.readFileSync p =
      match fs.files p with
      | none => .error (.fsError "ENOENT")
      | some c => .ok c := by
  simp [FS.readFileSync, h .read p]

/-- One call of a window that does not hold the lock: it opens no panel and
writes no acknowledgement; it leaves the files as they are, unless it creates
the lock file (and becomes the owner) or removes it (its timer expired). -/
theorem Scene.bys_step (c : Scene) (ul : Bool) (p : Prog Window) (fs : FS)
    (hd : c.distinct) (hp : c.bys ul p) (hfs : fs.noFault)
    (hcontent : fs.files c.trigger = none ∨ fs.files c.trigger = some (.json c.request))
    (x : TraceItem × Prog Window × FS) (hx : p.step1 fs = some x) :
    x.1.isPanelOpen = false ∧ x.1.isWriteOf c.ack = false ∧ x.2.2.noFault ∧
    x.2.2.files c.trigger = fs.files c.trigger ∧
    ((x.2.2.files c.lock = fs.files c.lock ∧ c.bys ul x.2.1 ∧
        (fs.files c.lock ≠ none → p.onLock c.lock = true → c.fin ul x.2.1) ∧
        (fs.files c.trigger = none → p.onLock c.lock = false → c.fin ul x.2.1)) ∨
     (p.onLock c.lock = true ∧ fs.files c.lock = none ∧ x.2.2.files c.lock ≠ none ∧
        c.ownerOk ul 1 1 false x.2.1) ∨
     (ul = true ∧ p.unlinks c.lock = true ∧ x.2.2.files c.lock = none ∧ c.fin ul x.2.1)) := by
  obtain ⟨hd1, hd2, hd3⟩ := hd
  cases p with
  | done w => simp [Prog.step1] at hx
  | fail e w => simp [Prog.step1] at hx
  | appendFileSync q t k => simp [Scene.bys] at hp
  | statSync q k => simp [Scene.bys] at hp
  | host call k =>
    simp only [Scene.bys] at hp
    simp only [Prog.step1, Option.some.injEq] at hx
    subst hx
    refine ⟨hp.1, rfl, hfs, rfl, Or.inl ⟨rfl, c.fin_bys ul k hp.2, ?_, fun _ _ => hp.2⟩⟩
    intro _ h2
    simp [Prog.onLock] at h2
  | existsSync q k =>
    simp only [Scene.bys] at hp
    simp only [Prog.step1, Option.some.injEq] at hx
    subst hx
    refine ⟨rfl, rfl, hfs, rfl, Or.inl ⟨rfl, ?_, ?_, ?_⟩⟩
    · rcases hp with ⟨_, hb, hf⟩ | ⟨_, hf, hb⟩
      · cases fs.existsSync q
        · exact c.fin_bys ul _ hf
        · exact hb
      · cases fs.existsSync q
        · exact hb
        · exact c.fin_bys ul _ hf
    · intro hlock hon
      have hq : q = c.lock := by simpa [Prog.onLock] using hon
      rcases hp with ⟨hq2, _, _⟩ | ⟨_, hf, _⟩
      · exact absurd (hq2.symm.trans hq) hd1
      · have : fs.existsSync q = true := by
          rw [hq]
          cases hl : fs.files c.lock with
          | none => exact absurd hl hlock
          | some v => simp [FS.existsSync, hl]
        simpa [this] using hf
    · intro htrig hon
      have hq : q ≠ c.lock := by simpa [Prog.onLock] using hon
      rcases hp with ⟨hq2, _, hf⟩ | ⟨hq2, _, _⟩
      · have : fs.existsSync q = false := by simp [FS.existsSync, hq2, htrig]
        simpa [this] using hf
      · exact absurd hq2 hq
  | readFileSync q k =>
    simp only [Scene.bys] at hp
    simp only [Prog.step1, Option.some.injEq] at hx
    subst hx
    obtain ⟨hq, hf, hb⟩ := hp
    subst hq
    refine ⟨rfl, rfl, hfs, rfl, Or.inl ⟨rfl, ?_, ?_, ?_⟩⟩
    · rw [FS.readFileSync_noFault fs _ hfs]
      rcases hcontent with hc | hc
      · simpa [hc] using c.fin_bys ul _ (hf _)
      · simpa [hc] using hb
    · intro _ hon
      simp [Prog.onLock, hd1] at hon
    · intro htrig _
      rw [FS.readFileSync_noFault fs _ hfs]
      simpa [htrig] using hf _
  | unlinkSync q k =>
    simp only [Scene.bys] at hp
    simp only [Prog.step1, Option.some.injEq] at hx
    subst hx
    obtain ⟨hul, hq, hf⟩ := hp
    subst hq
    refine ⟨rfl, rfl, ?_, ?_, Or.inr (Or.inr ⟨hul, by simp [Prog.unlinks], ?_, hf _⟩)⟩
    · rw [FS.unlinkSync_noFault fs _ hfs]
      split <;> exact hfs
    · rw [FS.unlinkSync_noFault fs _ hfs]
      split
      · simp [FS.remove, hd1]
      · rfl
    · rw [FS.unlinkSync_noFault fs _ hfs]
      split
      · simp [FS.remove]
      · rename_i hex
        simpa [FS.existsSync] using hex
  | writeFileSync q content excl k =>
    simp only [Scene.bys] at hp
    simp only [Prog.step1, Option.some.injEq] at hx
    subst hx
    obtain ⟨hq, hexcl, hf, ho⟩ := hp
    subst hq
    subst hexcl
    have hnotack : (TraceItem.writeFileSync c.lock content true
        (fs.writeFileSync c.lock content true).1).isWriteOf c.ack = false := by
      simp [TraceItem.isWriteOf, hd3]
    refine ⟨rfl, hnotack, ?_, ?_, ?_⟩
    · rw [FS.writeFileSync_noFault fs _ _ _ hfs]
      split <;> exact hfs
    · rw [FS.writeFileSync_noFault fs _ _ _ hfs]
      split
      · rfl
      · simp [FS.put, hd1]
    · cases hl : fs.files c.lock with
      | none =>
        right; left
        have hex : fs.existsSync c.lock = false := by simp [FS.existsSync, hl]
        rw [FS.writeFileSync_noFault fs _ _ _ hfs]
        simp only [hex, Bool.and_false, Bool.false_eq_true, if_false]
        exact ⟨by simp [Prog.onLock], trivial, by simp [FS.put], ho⟩
      | some v =>
        left
        have hex : fs.existsSync c.lock = true := by simp [FS.existsSync, hl]
        rw [FS.writeFileSync_noFault fs _ _ _ hfs]
        simp only [hex, Bool.and_true, if_true]
        refine ⟨hl, c.fin_bys ul _ (hf _), fun _ _ => hf _, fun _ hon => ?_⟩
        simp [Prog.onLock] at hon

/-- One call of the window that created the lock file: it uses up its budget
of panel openings and acknowledgement writes, leaves the lock file as it is,
and removes the trigger file before it sets the timer that removes the lock. -/
theorem Scene.owner_step (c : Scene) (o a : Nat) (u : Bool) (p : Prog Window) (fs : FS)
    (hd : c.distinct) (hp : c.ownerOk false o a u p) (hfs : fs.noFault)
    (x : TraceItem × Prog Window × FS) (hx : p.step1 fs = some x) :
    ∃ o2 a2 u2, c.ownerOk false o2 a2 u2 x.2.1 ∧
      o2 + (if x.1.isPanelOpen = true then 1 else 0) = o ∧
      a2 + (if x.1.isWriteOf c.ack = true then 1 else 0) = a ∧
      x.2.2.noFault ∧ x.2.2.files c.lock = fs.files c.lock ∧
      ((u2 = u ∧ x.2.2.files c.trigger = fs.files c.trigger) ∨
        (u2 = true ∧ x.2.2.files c.trigger = none)) := by
  obtain ⟨hd1, hd2, hd3⟩ := hd
  cases p with
  | done w => simp [Prog.step1] at hx
  | fail e w => simp [Prog.step1] at hx
  | appendFileSync q t k => simp [Scene.ownerOk] at hp
  | statSync q k => simp [Scene.ownerOk] at hp
  | existsSync q k => simp [Scene.ownerOk] at hp
  | readFileSync q k => simp [Scene.ownerOk] at hp
  | host call k =>
    simp only [Scene.ownerOk] at hp
    simp only [Prog.step1, Option.some.injEq] at hx
    subst hx
    by_cases hopen : (TraceItem.host call).isPanelOpen = true
    · rw [if_pos hopen] at hp
      refine ⟨o - 1, a, u, hp.2, ?_, ?_, hfs, rfl, Or.inl ⟨rfl, rfl⟩⟩
      · simp only [hopen, if_true]
        omega
      · simp [TraceItem.isWriteOf]
    · rw [if_neg hopen] at hp
      refine ⟨o, a, u, hp, ?_, ?_, hfs, rfl, Or.inl ⟨rfl, rfl⟩⟩
      · simp [hopen]
      · simp [TraceItem.isWriteOf]
  | writeFileSync q content excl k =>
    simp only [Scene.ownerOk] at hp
    simp only [Prog.step1, Option.some.injEq] at hx
    subst hx
    obtain ⟨hq, hexcl, ha, hk⟩ := hp
    subst hq
    subst hexcl
    refine ⟨o, a - 1, u, hk _, ?_, ?_, ?_, ?_, Or.inl ⟨rfl, ?_⟩⟩
    · simp [TraceItem.isPanelOpen]
    · simp only [TraceItem.isWriteOf, beq_self_eq_true, if_true]
      omega
    · rw [FS.writeFileSync_noFault fs _ _ _ hfs]
      simpa using hfs
    · rw [FS.writeFileSync_noFault fs _ _ _ hfs]
      simp [FS.put, hd3]
    · rw [FS.writeFileSync_noFault fs _ _ _ hfs]
      simp [FS.put, hd2]
  | unlinkSync q k =>
    simp only [Scene.ownerOk] at hp
    simp only [Prog.step1, Option.some.injEq] at hx
    subst hx
    obtain ⟨hq, hk⟩ := hp
    subst hq
    refine ⟨o, a, true, hk _, ?_, ?_, ?_, ?_, Or.inr ⟨rfl, ?_⟩⟩
    · simp [TraceItem.isPanelOpen]
    · simp [TraceItem.isWriteOf]
    · rw [FS.unlinkSync_noFault fs _ hfs]
      split <;> exact hfs
    · rw [FS.unlinkSync_noFault fs _ hfs]
      split
      · simp [FS.remove, Ne.symm hd1]
      · rfl
    · rw [FS.unlinkSync_noFault fs _ hfs]
      split
      · simp [FS.remove]
      · rename_i hex
        simpa [FS.existsSync] using hex

theorem getElem?_set_cases {α : Type} (l : List α) (i j : Nat) (a q : α)
    (h : (l.set i a)[j]? = some q) : (j = i ∧ q = a) ∨ (j ≠ i ∧ l[j]? = some q) := by
  rw [List.getElem?_set] at h
  by_cases hij : i = j
  · subst hij
    rw [if_pos rfl] at h
    split at h
    · exact Or.inl ⟨rfl, by simpa using h.symm⟩
    · exact absurd h (by simp)
  · rw [if_neg hij] at h
    exact Or.inr ⟨fun hji => hij hji.symm, h⟩

theorem Scene.by_start (c : Scene) (ul : Bool) (p : Prog Window) (hp : c.bys ul p) :
    c.by ul (Proc.start p) := by
  cases p <;> exact hp

theorem Scene.by_start_fin (c : Scene) (ul : Bool) (p : Prog Window) (hp : c.fin ul p) :
    (Proc.start p).onLock c.lock = false := by
  cases p <;> simp [Scene.fin] at hp <;> rfl

theorem Scene.by_mono (c : Scene) (q : Proc) (hq : c.by false q) : c.by true q := by
  have hfin : ∀ p, c.fin false p → c.fin true p := by
    intro p hp
    cases p <;> simp [Scene.fin] at hp ⊢ <;> exact c.winOk_mono _ hp true
  have hown : ∀ (p : Prog Window) (o a : Nat) (u : Bool),
      c.ownerOk false o a u p → c.ownerOk true o a u p := by
    intro p
    induction p with
    | done w =>
      intro o a u hp
      simp only [Scene.ownerOk] at hp ⊢
      intro t ht
      rcases hp t ht with hm | hc | ⟨_, hu⟩
      · exact Or.inl hm
      · exact Or.inr (Or.inl hc)
      · exact Or.inr (Or.inr ⟨rfl, hu⟩)
    | fail e w =>
      intro o a u hp
      simp only [Scene.ownerOk] at hp ⊢
      intro t ht
      rcases hp t ht with hm | hc | ⟨_, hu⟩
      · exact Or.inl hm
      · exact Or.inr (Or.inl hc)
      · exact Or.inr (Or.inr ⟨rfl, hu⟩)
    | existsSync q k ih => intro o a u hp; simp [Scene.ownerOk] at hp
    | readFileSync q k ih => intro o a u hp; simp [Scene.ownerOk] at hp
    | appendFileSync q t k ih => intro o a u hp; simp [Scene.ownerOk] at hp
    | statSync q k ih => intro o a u hp; simp [Scene.ownerOk] at hp
    | writeFileSync q content x k ih =>
      intro o a u hp
      simp only [Scene.ownerOk] at hp ⊢
      exact ⟨hp.1, hp.2.1, hp.2.2.1, fun r => ih r _ _ _ (hp.2.2.2 r)⟩
    | unlinkSync q k ih =>
      intro o a u hp
      simp only [Scene.ownerOk] at hp ⊢
      exact ⟨hp.1, fun r => ih r _ _ _ (hp.2 r)⟩
    | host call k ih =>
      intro o a u hp
      simp only [Scene.ownerOk] at hp ⊢
      split
      · rename_i hopen
        rw [if_pos hopen] at hp
        exact ⟨hp.1, ih _ _ _ hp.2⟩
      · rename_i hopen
        rw [if_neg hopen] at hp
        exact ih _ _ _ hp
  have hbys : ∀ p : Prog Window, c.bys false p → c.bys true p := by
    intro p
    induction p with
    | done w => intro hp; exact c.winOk_mono _ hp true
    | fail e w => intro hp; exact c.winOk_mono _ hp true
    | appendFileSync q t k ih => intro hp; simp [Scene.bys] at hp
    | statSync q k ih => intro hp; simp [Scene.bys] at hp
    | unlinkSync q k ih => intro hp; simp [Scene.bys] at hp
    | host call k ih =>
      intro hp
      simp only [Scene.bys] at hp ⊢
      exact ⟨hp.1, hfin _ hp.2⟩
    | existsSync q k ih =>
      intro hp
      simp only [Scene.bys] at hp ⊢
      rcases hp with ⟨hq, hb, hf⟩ | ⟨hq, hf, hb⟩
      · exact Or.inl ⟨hq, ih _ hb, hfin _ hf⟩
      · exact Or.inr ⟨hq, hfin _ hf, ih _ hb⟩
    | readFileSync q k ih =>
      intro hp
      simp only [Scene.bys] at hp ⊢
      exact ⟨hp.1, fun e => hfin _ (hp.2.1 e), ih _ hp.2.2⟩
    | writeFileSync q content x k ih =>
      intro hp
      simp only [Scene.bys] at hp ⊢
      exact ⟨hp.1, hp.2.1, fun e => hfin _ (hp.2.2.1 e), hown _ _ _ _ hp.2.2.2⟩
  cases q with
  | idle w => exact c.winOk_mono _ hq true
  | running p => exact hbys p hq

/-! ## Several windows: the invariant is kept -/

theorem Scene.inv_replace_idle (c : Scene) (s : Sys) (i : Nat) (w : Window) (q2 : Proc)
    (hi : s.procs[i]? = some (.idle w))
    (hby : ∀ ul, c.winOk ul w → c.by ul q2)
    (hon : c.winOk true w → q2.onLock c.lock = false) (hinv : c.inv s) :
    c.inv { s with procs := s.procs.set i q2 } := by
  obtain ⟨hfs, hcontent, hphase⟩ := hinv
  refine ⟨hfs, hcontent, ?_⟩
  rcases hphase with ⟨hlock, ho, ha, hall⟩ | ⟨o, hlock, hothers, howner⟩ |
    ⟨hlock, htrig, ho, ha, hall⟩
  · refine Or.inl ⟨hlock, ho, ha, ?_⟩
    intro j q hj
    rcases getElem?_set_cases _ _ _ _ _ hj with ⟨_, rfl⟩ | ⟨_, hold⟩
    · exact hby false (hall i _ hi)
    · exact hall j q hold
  · refine Or.inr (Or.inl ⟨o, hlock, ?_, ?_⟩)
    · intro j q hj hjo
      rcases getElem?_set_cases _ _ _ _ _ hj with ⟨hji, rfl⟩ | ⟨_, hold⟩
      · exact hby false (hothers i _ hi (hji ▸ hjo))
      · exact hothers j q hold hjo
    · by_cases hio : i = o
      · subst hio
        have hnew : (s.procs.set i q2)[i]? = some q2 := by
          rw [List.getElem?_set]
          have hlt : i < s.procs.length := by
            obtain ⟨hlt, _⟩ := List.getElem?_eq_some.mp hi
            exact hlt
          simp [hlt]
        rcases howner with ⟨q, ro, ra, u, hq, hown, _⟩ | ⟨q, hq, hbt, hop, hak, hrest⟩
        · rw [hi] at hq
          cases hq
          exact absurd hown (by simp [Scene.own])
        · rw [hi] at hq
          cases hq
          refine Or.inr ⟨q2, hnew, hby true hbt, hop, hak, ?_⟩
          rcases hrest with ht | hbf
          · exact Or.inl ht
          · exact Or.inr (hby false hbf)
      · have hsame : (s.procs.set i q2)[o]? = s.procs[o]? := List.getElem?_set_ne hio
        rcases howner with ⟨q, ro, ra, u, hq, hrest⟩ | ⟨q, hq, hrest⟩
        · exact Or.inl ⟨q, ro, ra, u, hsame ▸ hq, hrest⟩
        · exact Or.inr ⟨q, hsame ▸ hq, hrest⟩
  · refine Or.inr (Or.inr ⟨hlock, htrig, ho, ha, ?_⟩)
    intro j q hj
    rcases getElem?_set_cases _ _ _ _ _ hj with ⟨_, rfl⟩ | ⟨_, hold⟩
    · exact ⟨hby true (hall i _ hi).1, hon (hall i _ hi).1⟩
    · exact hall j q hold

theorem Scene.start_checkTriggerFile_offLock (c : Scene) (hd : c.distinct) (w : Window) :
    (Proc.start (checkTriggerFile c.host c.trigger none w)).onLock c.lock = false := by
  simp [checkTriggerFile, Prog.tryCatch, Proc.start, Proc.onLock, Prog.onLock, hd.1]

theorem Scene.start_fire_offLock (c : Scene) (hd : c.distinct) (w : Window) (k : Nat)
    (t : Nat × TimerAction) (hw : c.winOk true w) (ht : w.timers[k]? = some t) :
    (Proc.start (t.2.fire c.host { w with timers := w.timers.eraseIdx k })).onLock c.lock
      = false := by
  rcases hw t (List.getElem?_mem ht) with ⟨m, hm⟩ | hc | ⟨_, hu⟩
  · rw [hm]
    cases hp : w.chatPanel <;> simp [TimerAction.fire, hp, Proc.start, Proc.onLock, Prog.onLock]
  · rw [hc]
    simp [TimerAction.fire, checkTriggerFileWithLock, Prog.tryCatch, Proc.start, Proc.onLock,
      Prog.onLock, hd.1]
  · rw [hu]
    simp [TimerAction.fire, Proc.start, Proc.onLock, Prog.onLock]

theorem Sys.panelOpens_step (s : Sys) (i : Nat) (x : TraceItem × Prog Window × FS) :
    (s.afterStep i x).panelOpens
      = s.panelOpens + (if x.1.isPanelOpen = true then 1 else 0) := by
  simp [Sys.panelOpens, Sys.afterStep, List.countP_append, List.countP_singleton]

theorem Sys.ackWrites_step (ack : String) (s : Sys) (i : Nat)
    (x : TraceItem × Prog Window × FS) :
    (s.afterStep i x).ackWrites ack
      = s.ackWrites ack + (if x.1.isWriteOf ack = true then 1 else 0) := by
  simp [Sys.ackWrites, Sys.afterStep, List.countP_append, List.countP_singleton]

theorem Sys.othersOffLock_spec (lock : String) (s : Sys) (i : Nat)
    (h : s.othersOffLock lock i = true) (j : Nat) (q : Proc) (hj : s.procs[j]? = some q)
    (hji : j ≠ i) : q.onLock lock = false := by
  simp only [Sys.othersOffLock, List.all_eq_true, List.mem_range] at h
  have hlt : j < s.procs.length := by
    obtain ⟨hlt, _⟩ := List.getElem?_eq_some.mp hj
    exact hlt
  have := h j hlt
  simpa [hji, hj] using this

theorem Scene.own_or_by (c : Scene) (o a : Nat) (u : Bool) (p : Prog Window)
    (hp : c.ownerOk false o a u p) :
    c.own o a u (Proc.start p) ∨
      (c.by true (Proc.start p) ∧ (u = true ∨ c.by false (Proc.start p))) := by
  cases p with
  | done w =>
    right
    simp only [Scene.ownerOk, Bool.false_or] at hp
    cases u with
    | true => exact ⟨hp, Or.inl rfl⟩
    | false => exact ⟨c.winOk_mono w hp true, Or.inr hp⟩
  | fail e w =>
    right
    simp only [Scene.ownerOk, Bool.false_or] at hp
    cases u with
    | true => exact ⟨hp, Or.inl rfl⟩
    | false => exact ⟨c.winOk_mono w hp true, Or.inr hp⟩
  | existsSync q k => exact Or.inl hp
  | readFileSync q k => exact Or.inl hp
  | writeFileSync q content x k => exact Or.inl hp
  | unlinkSync q k => exact Or.inl hp
  | appendFileSync q t k => exact Or.inl hp
  | statSync q k => exact Or.inl hp
  | host call k => exact Or.inl hp

theorem Scene.bys_false_not_unlinks (c : Scene) (p : Prog Window) (hp : c.bys false p) :
    p.unlinks c.lock = false := by
  cases p <;> simp [Scene.bys, Prog.unlinks] at hp ⊢

theorem Scene.inv_step (c : Scene) (hd : c.distinct) (s : Sys) (i : Nat) (p : Prog Window)
    (x : TraceItem × Prog Window × FS) (hi : s.procs[i]? = some (.running p))
    (hx : p.step1 s.fs = some x)
    (ht : (!p.unlinks c.lock || s.othersOffLock c.lock i) = true) (hinv : c.inv s) :
    c.inv (s.afterStep i x) := by
  obtain ⟨hfs, hcontent, hphase⟩ := hinv
  have hlt : i < s.procs.length := by
    obtain ⟨hlt, _⟩ := List.getElem?_eq_some.mp hi
    exact hlt
  have hnew : (s.procs.set i (Proc.start x.2.1))[i]? = some (Proc.start x.2.1) := by
    rw [List.getElem?_set]
    simp [hlt]
  have hcont2 : ∀ fs2 : FS, fs2.files c.trigger = s.fs.files c.trigger →
      (fs2.files c.trigger = none ∨ fs2.files c.trigger = some (.json c.request)) := by
    intro fs2 h2
    rw [h2]
    exact hcontent
  rcases hphase with ⟨hlock, ho, ha, hall⟩ | ⟨o, hlock, hothers, howner⟩ |
    ⟨hlock, htrig, ho, ha, hall⟩
  · -- no lock yet
    have hp : c.bys false p := hall i _ hi
    obtain ⟨hq1, hq2, hfs2, htr2, hcase⟩ := c.bys_step false p s.fs hd hp hfs hcontent x hx
    refine ⟨hfs2, hcont2 _ htr2, ?_⟩
    rcases hcase with ⟨hl2, hb2, _, _⟩ | ⟨_, _, hl2, hown⟩ | ⟨hul, _⟩
    · refine Or.inl ⟨hl2.trans hlock, ?_, ?_, ?_⟩
      · rw [Sys.panelOpens_step, ho, hq1]
        rfl
      · rw [Sys.ackWrites_step, ha, hq2]
        rfl
      · intro j q hj
        rcases getElem?_set_cases _ _ _ _ _ hj with ⟨_, rfl⟩ | ⟨_, hold⟩
        · exact c.by_start false _ hb2
        · exact hall j q hold
    · refine Or.inr (Or.inl ⟨i, hl2, ?_, ?_⟩)
      · intro j q hj hji
        rcases getElem?_set_cases _ _ _ _ _ hj with ⟨hji2, _⟩ | ⟨_, hold⟩
        · exact absurd hji2 hji
        · exact hall j q hold
      · rcases c.own_or_by 1 1 false _ hown with hrun | ⟨hbt, hrest⟩
        · refine Or.inl ⟨_, 1, 1, false, hnew, hrun, ?_, ?_, fun h => absurd h (by decide)⟩
          · rw [Sys.panelOpens_step, ho, hq1]
            rfl
          · rw [Sys.ackWrites_step, ha, hq2]
            rfl
        · refine Or.inr ⟨_, hnew, hbt, ?_, ?_, ?_⟩
          · rw [Sys.panelOpens_step, ho, hq1]
            decide
          · rw [Sys.ackWrites_step, ha, hq2]
            decide
          · rcases hrest with hu | hbf
            · exact absurd hu (by decide)
            · exact Or.inr hbf
    · exact absurd hul (by decide)
  · -- the lock file exists
    by_cases hio : i = o
    · subst hio
      have hothers2 : ∀ (j : Nat) (q : Proc),
          (s.procs.set i (Proc.start x.2.1))[j]? = some q → j ≠ i → c.by false q := by
        intro j q hj hji
        rcases getElem?_set_cases _ _ _ _ _ hj with ⟨hji2, _⟩ | ⟨_, hold⟩
        · exact absurd hji2 hji
        · exact hothers j q hold hji
      rcases howner with ⟨q, ro, ra, u, hq, hown, hbo, hba, hu⟩ | ⟨q, hq, hbt, hop, hak, hrest⟩
      · rw [hi] at hq
        cases hq
        obtain ⟨o2, a2, u2, hown2, ho2, ha2, hfs2, hl2, htr2⟩ :=
          c.owner_step ro ra u p s.fs hd hown hfs x hx
        have hcont3 : x.2.2.files c.trigger = none ∨
            x.2.2.files c.trigger = some (.json c.request) := by
          rcases htr2 with ⟨_, h2⟩ | ⟨_, h2⟩
          · exact hcont2 _ h2
          · exact Or.inl h2
        have hu2 : u2 = true → x.2.2.files c.trigger = none := by
          intro hu2t
          rcases htr2 with ⟨h1, h2⟩ | ⟨_, h2⟩
          · rw [h2]
            exact hu (h1 ▸ hu2t)
          · exact h2
        refine ⟨hfs2, hcont3, Or.inr (Or.inl ⟨i, hl2 ▸ hlock, hothers2, ?_⟩)⟩
        have hbo2 : (s.afterStep i x).panelOpens + o2 ≤ 1 := by
          rw [Sys.panelOpens_step]
          omega
        have hba2 : (s.afterStep i x).ackWrites c.ack + a2 ≤ 1 := by
          rw [Sys.ackWrites_step]
          omega
        rcases c.own_or_by o2 a2 u2 _ hown2 with hrun | ⟨hbt, hrest⟩
        · exact Or.inl ⟨_, o2, a2, u2, hnew, hrun, hbo2, hba2, hu2⟩
        · refine Or.inr ⟨_, hnew, hbt, by omega, by omega, ?_⟩
          rcases hrest with hu3 | hbf
          · exact Or.inl (hu2 hu3)
          · exact Or.inr hbf
      · rw [hi] at hq
        cases hq
        have hp : c.bys true p := hbt
        obtain ⟨hq1, hq2, hfs2, htr2, hcase⟩ := c.bys_step true p s.fs hd hp hfs hcontent x hx
        refine ⟨hfs2, hcont2 _ htr2, ?_⟩
        have hop2 : (s.afterStep i x).panelOpens ≤ 1 := by
          rw [Sys.panelOpens_step, hq1]
          simpa using hop
        have hak2 : (s.afterStep i x).ackWrites c.ack ≤ 1 := by
          rw [Sys.ackWrites_step, hq2]
          simpa using hak
        rcases hcase with ⟨hl2, hb2, _, _⟩ | ⟨_, hl0, _, _⟩ | ⟨_, hunl, hl2, hfin⟩
        · refine Or.inr (Or.inl ⟨i, hl2 ▸ hlock, hothers2, Or.inr ⟨_, hnew, c.by_start true _ hb2,
            hop2, hak2, ?_⟩⟩)
          rcases hrest with htn | hbf
          · exact Or.inl (htr2.trans htn)
          · obtain ⟨_, _, _, _, hcase2⟩ := c.bys_step false p s.fs hd hbf hfs hcontent x hx
            rcases hcase2 with ⟨_, hb3, _, _⟩ | ⟨_, hl0, _, _⟩ | ⟨hul, _⟩
            · exact Or.inr (c.by_start false _ hb3)
            · exact absurd hl0 hlock
            · exact absurd hul (by decide)
        · exact absurd hl0 hlock
        · have htn : s.fs.files c.trigger = none := by
            rcases hrest with htn | hbf
            · exact htn
            · have := c.bys_false_not_unlinks p hbf
              rw [hunl] at this
              exact absurd this (by decide)
          have hoff : s.othersOffLock c.lock i = true := by
            simpa [hunl] using ht
          refine Or.inr (Or.inr ⟨hl2, htr2.trans htn, hop2, hak2, ?_⟩)
          intro j q hj
          rcases getElem?_set_cases _ _ _ _ _ hj with ⟨_, rfl⟩ | ⟨hji, hold⟩
          · exact ⟨c.by_start true _ (c.fin_bys true _ hfin), c.by_start_fin true _ hfin⟩
          · exact ⟨c.by_mono _ (hothers j q hold hji),
              Sys.othersOffLock_spec c.lock s i hoff j q hold hji⟩
    · have hp : c.bys false p := hothers i _ hi hio
      obtain ⟨hq1, hq2, hfs2, htr2, hcase⟩ := c.bys_step false p s.fs hd hp hfs hcontent x hx
      refine ⟨hfs2, hcont2 _ htr2, ?_⟩
      rcases hcase with ⟨hl2, hb2, _, _⟩ | ⟨_, hl0, _, _⟩ | ⟨hul, _⟩
      · refine Or.inr (Or.inl ⟨o, hl2 ▸ hlock, ?_, ?_⟩)
        · intro j q hj hjo
          rcases getElem?_set_cases _ _ _ _ _ hj with ⟨_, rfl⟩ | ⟨_, hold⟩
          · exact c.by_start false _ hb2
          · exact hothers j q hold hjo
        · have hsame : (s.procs.set i (Proc.start x.2.1))[o]? = s.procs[o]? :=
            List.getElem?_set_ne hio
          rcases howner with ⟨q, ro, ra, u, hq, hown, hbo, hba, hu⟩ |
            ⟨q, hq, hbt, hop, hak, hrest⟩
          · refine Or.inl ⟨q, ro, ra, u, hsame ▸ hq, hown, ?_, ?_, fun h => htr2.trans (hu h)⟩
            · rw [Sys.panelOpens_step, hq1]
              simpa using hbo
            · rw [Sys.ackWrites_step, hq2]
              simpa using hba
          · refine Or.inr ⟨q, hsame ▸ hq, hbt, ?_, ?_, ?_⟩
            · rw [Sys.panelOpens_step, hq1]
              simpa using hop
            · rw [Sys.ackWrites_step, hq2]
              simpa using hak
            · rcases hrest with htn | hbf
              · exact Or.inl (htr2.trans htn)
              · exact Or.inr hbf
      · exact absurd hl0 hlock
      · exact absurd hul (by decide)
  · -- the lock file was removed
    obtain ⟨hbt, hoff⟩ := hall i _ hi
    have hp : c.bys true p := hbt
    have hoffp : p.onLock c.lock = false := hoff
    obtain ⟨hq1, hq2, hfs2, htr2, hcase⟩ := c.bys_step true p s.fs hd hp hfs hcontent x hx
    refine ⟨hfs2, hcont2 _ htr2, Or.inr (Or.inr ⟨?_, htr2.trans htrig, ?_, ?_, ?_⟩)⟩
    · rcases hcase with ⟨hl2, _⟩ | ⟨hon, _⟩ | ⟨_, _, hl2, _⟩
      · exact hl2.trans hlock
      · rw [hoffp] at hon
        exact absurd hon (by decide)
      · exact hl2
    · rw [Sys.panelOpens_step, hq1]
      simpa using ho
    · rw [Sys.ackWrites_step, hq2]
      simpa using ha
    · intro j q hj
      rcases getElem?_set_cases _ _ _ _ _ hj with ⟨_, rfl⟩ | ⟨_, hold⟩
      · rcases hcase with ⟨_, hb2, _, hfin⟩ | ⟨hon, _⟩ | ⟨_, _, _, hfin⟩
        · exact ⟨c.by_start true _ hb2, c.by_start_fin true _ (hfin htrig hoffp)⟩
        · rw [hoffp] at hon
          exact absurd hon (by decide)
        · exact ⟨c.by_start true _ (c.fin_bys true _ hfin), c.by_start_fin true _ hfin⟩
      · exact hall j q hold

theorem Scene.inv_act (c : Scene) (hd : c.distinct) (s : Sys) (a : Action) (hinv : c.inv s)
    (ht : s.timely c.lock a = true) : c.inv (Sys.act c.host c.trigger s a) := by
  cases a with
  | poll i focused =>
    simp only [Sys.act]
    cases hi : s.procs[i]? with
    | none => exact hinv
    | some q =>
      cases q with
      | running p => exact hinv
      | idle w =>
        refine c.inv_replace_idle s i w _ hi ?_ ?_ hinv
        · intro ul hw
          exact c.by_start ul _ (c.bys_checkTriggerFile ul _ (c.winOk_timers ul w _ hw rfl))
        · intro _
          exact c.start_checkTriggerFile_offLock hd _
  | fire i k =>
    simp only [Sys.act]
    cases hi : s.procs[i]? with
    | none => exact hinv
    | some q =>
      cases q with
      | running p => exact hinv
      | idle w =>
        dsimp only
        cases hk : w.timers[k]? with
        | none => exact hinv
        | some t =>
          refine c.inv_replace_idle s i w _ hi ?_ ?_ hinv
          · intro ul hw
            exact c.by_start ul _ (c.bys_fire ul w k t hw hk)
          · intro hw
            exact c.start_fire_offLock hd w k t hw hk
  | step i =>
    simp only [Sys.act]
    cases hi : s.procs[i]? with
    | none => exact hinv
    | some q =>
      cases q with
      | idle w => exact hinv
      | running p =>
        dsimp only
        cases hx : p.step1 s.fs with
        | none => exact hinv
        | some x =>
          refine c.inv_step hd s i p x hi hx ?_ hinv
          simpa [Sys.timely, hi, Proc.unlinks] using ht

theorem Scene.inv_exec (c : Scene) (hd : c.distinct) (acts : List Action) (s : Sys)
    (hinv : c.inv s) (ht : Sys.timelySchedule c.host c.trigger c.lock s acts = true) :
    c.inv (Sys.exec c.host c.trigger s acts) := by
  induction acts generalizing s with
  | nil => exact hinv
  | cons a rest ih =>
    simp only [Sys.timelySchedule, Bool.and_eq_true] at ht
    exact ih _ (c.inv_act hd s a hinv ht.1) ht.2

theorem Scene.inv_counts (c : Scene) (s : Sys) (hinv : c.inv s) :
    s.panelOpens ≤ 1 ∧ s.ackWrites c.ack ≤ 1 := by
  obtain ⟨_, _, hphase⟩ := hinv
  rcases hphase with ⟨_, ho, ha, _⟩ | ⟨o, _, _, howner⟩ | ⟨_, _, ho, ha, _⟩
  · omega
  · rcases howner with ⟨_, _, _, _, _, _, hbo, hba, _⟩ | ⟨_, _, _, hop, hak, _⟩
    · omega
    · exact ⟨hop, hak⟩
  · exact ⟨ho, ha⟩

/-- C1 (as stated, refuted): two windows arbitrate the same generic trigger
file; window 0 is past its test of the trigger file when window 1 takes the
lock, dispatches, removes the trigger file and then the lock file; window 0
finds no lock, creates it and dispatches as well: two panels are opened and
the acknowledgement file is written twice. -/
theorem two_windows_dispatch_twice :
    (Sys.exec posixHost "/tmp/review_gate_trigger.json" twoWindows
      staleCheckSchedule).panelOpens = 2 ∧
    (Sys.exec posixHost "/tmp/review_gate_trigger.json" twoWindows
      staleCheckSchedule).ackWrites "/tmp/review_gate_ack_t1.json" = 2 ∧
    ((Sys.exec posixHost "/tmp/review_gate_trigger.json" twoWindows
      staleCheckSchedule).log.filter fun e => e.2.isPanelOpen).map (fun e => e.1) = [1, 0] := by
  refine ⟨by rfl, by rfl, by rfl⟩

/-- C1 (amended): any number of windows arbitrate the generic trigger file
`filePath` holding `request`, starting idle with no lock file present, on a
file system whose calls do not fail for outside reasons. Under every
interleaving of their polls, timers and single file-system calls in which the
lock file is not removed while another window is about to test or create it,
the panel is opened at most once and the acknowledgement file is written at
most once. -/
theorem at_most_one_dispatch (h : Host) (filePath : String) (request : JVal) (s : Sys)
    (acts : List Action)
    (hpaths : filePath ≠ lockFilePathOf h (extractTriggerId request) ∧
      filePath ≠ ackFileOf h request ∧
      lockFilePathOf h (extractTriggerId request) ≠ ackFileOf h request)
    (hfs : s.fs.noFault) (htrigger : s.fs.files filePath = some (.json request))
    (hlock : s.fs.files (lockFilePathOf h (extractTriggerId request)) = none)
    (hlog : s.log = [])
    (hidle : ∀ q ∈ s.procs, ∃ w, q = .idle w ∧ ∀ t ∈ w.timers, ∃ m, t.2 = .postMessage m)
    (htimely : Sys.timelySchedule h filePath (lockFilePathOf h (extractTriggerId request)) s
      acts = true) :
    (Sys.exec h filePath s acts).panelOpens ≤ 1 ∧
    (Sys.exec h filePath s acts).ackWrites (ackFileOf h request) ≤ 1 := by
  have hinit : Scene.inv ⟨h, filePath, request⟩ s := by
    refine ⟨hfs, Or.inr htrigger, Or.inl ⟨hlock, ?_, ?_, ?_⟩⟩
    · simp [Sys.panelOpens, hlog]
    · simp [Sys.ackWrites, hlog]
    · intro i q hq
      obtain ⟨w, rfl, hw⟩ := hidle q (List.getElem?_mem hq)
      intro t ht
      exact Or.inl (hw t ht)
  exact Scene.inv_counts ⟨h, filePath, request⟩ _
    (Scene.inv_exec ⟨h, filePath, request⟩ hpaths acts s hinit htimely)

/-- C1 (amended), at two windows that run their polls and timers in turn. -/
theorem at_most_one_dispatch_witness :
    (("/tmp/review_gate_trigger.json" ≠ lockFilePathOf posixHost (extractTriggerId quickReview) ∧
        "/tmp/review_gate_trigger.json" ≠ ackFileOf posixHost quickReview ∧
        lockFilePathOf posixHost (extractTriggerId quickReview)
          ≠ ackFileOf posixHost quickReview) ∧
      twoWindows.fs.noFault ∧
      twoWindows.fs.files "/tmp/review_gate_trigger.json" = some (.json quickReview) ∧
      twoWindows.fs.files (lockFilePathOf posixHost (extractTriggerId quickReview)) = none ∧
      twoWindows.log = [] ∧
      (∀ q ∈ twoWindows.procs,
        ∃ w, q = .idle w ∧ ∀ t ∈ w.timers, ∃ m, t.2 = .postMessage m) ∧
      Sys.timelySchedule posixHost "/tmp/review_gate_trigger.json"
        (lockFilePathOf posixHost (extractTriggerId quickReview)) twoWindows inTurnSchedule
        = true) ∧
    (Sys.exec posixHost "/tmp/review_gate_trigger.json" twoWindows inTurnSchedule).panelOpens ≤ 1 ∧
    (Sys.exec posixHost "/tmp/review_gate_trigger.json" twoWindows inTurnSchedule).ackWrites
      (ackFileOf posixHost quickReview) ≤ 1 :=
  ⟨⟨⟨by decide, by decide, by decide⟩, fun _ _ => rfl, by rfl, by rfl, by rfl,
      by
        intro q hq
        simp only [twoWindows, List.mem_cons, List.mem_singleton, List.not_mem_nil,
          or_false] at hq
        rcases hq with rfl | rfl
        · exact ⟨windowA, rfl, fun t ht => absurd ht (by simp [windowA, activate])⟩
        · exact ⟨windowNone, rfl, fun t ht => absurd ht (by simp [windowNone, activate])⟩,
      by rfl⟩,
   at_most_one_dispatch posixHost "/tmp/review_gate_trigger.json" quickReview twoWindows
     inTurnSchedule ⟨by decide, by decide, by decide⟩ (fun _ _ => rfl) (by rfl) (by rfl) (by rfl)
     (by
        intro q hq
        simp only [twoWindows, List.mem_cons, List.mem_singleton, List.not_mem_nil,
          or_false] at hq
        rcases hq with rfl | rfl
        · exact ⟨windowA, rfl, fun t ht => absurd ht (by simp [windowA, activate])⟩
        · exact ⟨windowNone, rfl, fun t ht => absurd ht (by simp [windowNone, activate])⟩)
     (by rfl)⟩

/-! ## The dispatcher's presentation -/

theorem openReviewGatePopup_run_eq (opts : PopupOptions) (w : Window) (fs : FS) :
    ((openReviewGatePopup opts w).run fs).error = none ∧
    ((openReviewGatePopup opts w).run fs).fs = fs := by
  obtain ⟨c1, c2, w1, hrun, _⟩ := openReviewGatePopup_run opts w fs
  rw [hrun]
  exact ⟨rfl, rfl⟩

/-- The run of a dispatch whose presentation could be built: the panel is
opened with the options of the tool (title and trigger id overwritten), the
acknowledgement is written, and the notification is shown when the tool name
is a string. -/
theorem handleReviewGateToolCall_run_eq (h : Host) (td : JVal) (w : Window) (fs : FS)
    (opts : PopupOptions) (hnn : td ≠ .null) (hopts : popupOptionsFor h td = .ok opts) :
    (handleReviewGateToolCall h (some td) w).run fs =
      ⟨((openReviewGatePopup
          { opts with triggerId := td.getProp "trigger_id", title := some (.str "Review Gate") }
          w).run fs).state,
       (match td.getProp "tool" with | some (.str _) => none | _ => some .typeError),
       (fs.writeFileSync
          (getTempPath h ("review_gate_ack_" ++ renderJs (td.getProp "trigger_id") ++ ".json"))
          (.json (ackData h (td.getProp "trigger_id") (td.getProp "tool"))) false).2,
       ((openReviewGatePopup
          { opts with triggerId := td.getProp "trigger_id", title := some (.str "Review Gate") }
          w).run fs).trace ++
        [.writeFileSync
          (getTempPath h ("review_gate_ack_" ++ renderJs (td.getProp "trigger_id") ++ ".json"))
          (.json (ackData h (td.getProp "trigger_id") (td.getProp "tool"))) false
          (fs.writeFileSync
            (getTempPath h ("review_gate_ack_" ++ renderJs (td.getProp "trigger_id") ++ ".json"))
            (.json (ackData h (td.getProp "trigger_id") (td.getProp "tool"))) false).1] ++
        (match td.getProp "tool" with
          | some (.str tool) => [.host (.showInformationMessage (triggeredNotification h tool))]
          | _ => [])⟩ := by
  obtain ⟨c1, c2, w1, hopen, _⟩ := openReviewGatePopup_run
    { opts with triggerId := td.getProp "trigger_id", title := some (.str "Review Gate") } w fs
  have hdef : handleReviewGateToolCall h (some td) w =
      (openReviewGatePopup
        { opts with triggerId := td.getProp "trigger_id", title := some (.str "Review Gate") }
        w).bind fun w1 =>
      (sendExtensionAcknowledgement h (td.getProp "trigger_id") (td.getProp "tool") w1).bind
      fun w2 =>
      match td.getProp "tool" with
      | some (.str tool) =>
        .host (.showInformationMessage (triggeredNotification h tool)) (.done w2)
      | _ => .fail .typeError w2 := by
    cases td <;> simp [handleReviewGateToolCall, hopts] at hnn ⊢
  rw [hdef, Prog.run_bind, hopen]
  simp only [Run.andThen]
  rw [Prog.run_bind]
  simp only [sendExtensionAcknowledgement, Prog.run, Run.andThen]
  cases ht : td.getProp "tool" with
  | none => simp [Prog.run]
  | some t => cases t <;> simp [Prog.run]

/-- C11: a request whose tool name is a string that is none of the six
recognised names gets the generic presentation, and its dispatch does not
fail. The message is `data.message`, else (when that is absent or falsy)
`data.prompt`, else `data.instruction`, else the default text; auto-focus and
MCP integration are on and there is no special-handling tag. The panel is
opened with exactly these options (and the title `Review Gate`), the
acknowledgement is written and the notification shown, and no exception
leaves `handleReviewGateToolCall`. -/
theorem handleReviewGateToolCall_unknown_tool (h : Host) (toolData : JVal) (tool : String)
    (w : Window) (fs : FS) (htool : toolData.getProp "tool" = some (.str tool))
    (hunknown : tool ∉ recognisedTools) :
    popupOptionsFor h toolData = .ok (genericOptions toolData) ∧
    (genericOptions toolData).autoFocus = true ∧
    (genericOptions toolData).mcpIntegration = true ∧
    (genericOptions toolData).specialHandling = none ∧
    ((handleReviewGateToolCall h (some toolData) w).run fs).error = none ∧
    ((handleReviewGateToolCall h (some toolData) w).run fs).state =
      ((openReviewGatePopup
        { genericOptions toolData with
            triggerId := toolData.getProp "trigger_id", title := some (.str "Review Gate") }
        w).run fs).state ∧
    ∃ res,
      ((handleReviewGateToolCall h (some toolData) w).run fs).trace =
        ((openReviewGatePopup
          { genericOptions toolData with
              triggerId := toolData.getProp "trigger_id", title := some (.str "Review Gate") }
          w).run fs).trace ++
        [.writeFileSync
          (getTempPath h
            ("review_gate_ack_" ++ renderJs (toolData.getProp "trigger_id") ++ ".json"))
          (.json (ackData h (toolData.getProp "trigger_id") (some (.str tool)))) false res,
         .host (.showInformationMessage (triggeredNotification h tool))] := by
  have hnn : toolData ≠ .null := by
    intro hnull
    simp [hnull, JVal.getProp] at htool
  have hopts : popupOptionsFor h toolData = .ok (genericOptions toolData) := by
    simp only [recognisedTools, List.mem_cons, List.mem_singleton, List.not_mem_nil, or_false,
      not_or] at hunknown
    obtain ⟨h1, h2, h3, h4, h5, h6⟩ := hunknown
    simp [popupOptionsFor, genericOptions, htool, isStr, h1, h2, h3, h4, h5, h6]
  have hrun := handleReviewGateToolCall_run_eq h toolData w fs _ hnn hopts
  refine ⟨hopts, rfl, rfl, rfl, ?_, ?_, ?_⟩
  · rw [hrun]
    simp [htool]
  · rw [hrun]
  · rw [hrun]
    simp [htool]

/-- C11, at a request for the unknown tool `summarise` that carries only a
prompt. -/
theorem handleReviewGateToolCall_unknown_tool_witness :
    "summarise" ∉ recognisedTools ∧
    popupOptionsFor posixHost unknownToolRequest = .ok (genericOptions unknownToolRequest) ∧
    (genericOptions unknownToolRequest).message = some (.str "Summarise the diff?") ∧
    ((handleReviewGateToolCall posixHost (some unknownToolRequest) windowA).run emptyFS).error
      = none :=
  ⟨by decide,
   (handleReviewGateToolCall_unknown_tool posixHost unknownToolRequest "summarise" windowA emptyFS
      rfl (by decide)).1,
   rfl,
   (handleReviewGateToolCall_unknown_tool posixHost unknownToolRequest "summarise" windowA emptyFS
      rfl (by decide)).2.2.2.2.1⟩

/-- C12 (as stated, refuted): a window with no panel open claims a quick-review
request whose prompt contains the words `I have completed`. The new panel is
titled `Review Gate`, but when its webview reports `ready` the handler posts
the status only: the guard `!message.includes("I have completed")` keeps the
prompt back, and no timer is left that would deliver it. -/
theorem quick_review_completed_prompt_not_shown :
    ((handleReviewGateToolCall posixHost (some completedReview) windowA).run emptyFS).error
      = none ∧
    (((handleReviewGateToolCall posixHost (some completedReview) windowA).run
      emptyFS).state.chatPanel.map fun panel => (panel.title, panel.message))
      = some ("Review Gate", .str "I have completed the refactor. Is this ok?") ∧
    ((handleReviewGateToolCall posixHost (some completedReview) windowA).run
      emptyFS).state.timers = [(200, .postMessage .focus)] ∧
    ((onDidReceiveMessage posixHost 0 .ready
        ((handleReviewGateToolCall posixHost (some completedReview) windowA).run
          emptyFS).state).run
      ((handleReviewGateToolCall posixHost (some completedReview) windowA).run emptyFS).fs).trace
      = [.host (.postMessage (.updateMcpStatus true))] := by
  exact ⟨rfl, rfl, rfl, rfl⟩

/-- C12 (amended): for a quick-review request with a non-empty prompt `P` the
dispatch returns normally and the panel is titled `Review Gate`. When an open
panel is reused, the 150 ms timer that posts `P` to the panel is set (and
posts it when it fires). When the panel is newly created, `P` is posted when
the webview reports `ready`, provided `P` does not contain the text
`I have completed`. -/
theorem quick_review_prompt_delivered (h : Host) (d : JVal) (P : String) (w : Window) (fs : FS)
    (now : Int) (htool : d.getProp "tool" = some (.str "quick_review"))
    (hprompt : d.getProp "prompt" = some (.str P)) (hP : P ≠ "") :
    ((handleReviewGateToolCall h (some d) w).run fs).error = none ∧
    (∀ panel, w.chatPanel = some panel →
      ((handleReviewGateToolCall h (some d) w).run fs).state.chatPanel
        = some { panel with title := "Review Gate" } ∧
      ((handleReviewGateToolCall h (some d) w).run fs).state.timers
        = w.timers ++
          [(100, .postMessage (.updateMcpStatus true)),
           (150, .postMessage
              (.addMessage (.str P) d true ((d.getProp "trigger_id").getD .null) none)),
           (200, .postMessage .focus)] ∧
      ((TimerAction.fire h
          (.postMessage (.addMessage (.str P) d true ((d.getProp "trigger_id").getD .null) none))
          ((handleReviewGateToolCall h (some d) w).run fs).state).run
        ((handleReviewGateToolCall h (some d) w).run fs).fs).trace
        = [.host (.postMessage
            (.addMessage (.str P) d true ((d.getProp "trigger_id").getD .null) none))]) ∧
    (w.chatPanel = none →
      (((handleReviewGateToolCall h (some d) w).run fs).state.chatPanel.map fun panel =>
        panel.title) = some "Review Gate" ∧
      .host (.createWebviewPanel "Review Gate")
        ∈ ((handleReviewGateToolCall h (some d) w).run fs).trace ∧
      (includes P "I have completed" = false →
        ((onDidReceiveMessage h now .ready
            ((handleReviewGateToolCall h (some d) w).run fs).state).run
          ((handleReviewGateToolCall h (some d) w).run fs).fs).trace
          = [.host (.postMessage (.updateMcpStatus true)),
             .host (.postMessage
               (.addMessage (.str P) d true ((d.getProp "trigger_id").getD .null)
                 (some (.str "quick_review"))))])) := by
  have hnn : d ≠ .null := by
    intro hnull
    simp [hnull, JVal.getProp] at htool
  have htruthy : truthy (some (.str P)) = true := by simp [truthy, hP]
  have hopts : popupOptionsFor h d = .ok
      { message := some (.str P),
        title := jsOr (d.getProp "title") (some (.str "Review Gate V2 ゲート - Quick Review")),
        autoFocus := true, toolData := some d, mcpIntegration := true,
        specialHandling := some (.str "quick_review") } := by
    simp [popupOptionsFor, htool, hprompt, isStr, jsOr, htruthy]
  have hrun := handleReviewGateToolCall_run_eq h d w fs _ hnn hopts
  rw [hrun]
  refine ⟨by simp [htool], ?_, ?_⟩
  · intro panel hp
    by_cases ht : truthy (some ((d.getProp "trigger_id").getD .null)) = true
    · simp [openReviewGatePopup, hp, ht, htruthy, Prog.run, Window.setTimeout, TimerAction.fire]
    · simp [openReviewGatePopup, hp, ht, htruthy, Prog.run, Window.setTimeout, TimerAction.fire]
  · intro hp
    by_cases ht : truthy (some ((d.getProp "trigger_id").getD .null)) = true
    · simp [openReviewGatePopup, hp, ht, htruthy, Prog.run, Window.setTimeout,
        onDidReceiveMessage, messageIncludes, JVal.render]
      intro hinc
      simp [hinc, Prog.run]
    · simp [openReviewGatePopup, hp, ht, htruthy, Prog.run, Window.setTimeout,
        onDidReceiveMessage, messageIncludes, JVal.render]
      intro hinc
      simp [hinc, Prog.run]

/-- C12 (amended), at the quick-review request of the specification's
scenario. -/
theorem quick_review_prompt_delivered_witness :
    ((handleReviewGateToolCall posixHost
        (some (.obj [("tool", .str "quick_review"), ("prompt", .str "Is this ok?"),
                     ("trigger_id", .str "t1")])) windowA).run emptyFS).error = none ∧
    ((onDidReceiveMessage posixHost 0 .ready
        ((handleReviewGateToolCall posixHost
          (some (.obj [("tool", .str "quick_review"), ("prompt", .str "Is this ok?"),
                       ("trigger_id", .str "t1")])) windowA).run emptyFS).state).run
      ((handleReviewGateToolCall posixHost
        (some (.obj [("tool", .str "quick_review"), ("prompt", .str "Is this ok?"),
                     ("trigger_id", .str "t1")])) windowA).run emptyFS).fs).trace
      = [.host (.postMessage (.updateMcpStatus true)),
         .host (.postMessage
           (.addMessage (.str "Is this ok?")
             (.obj [("tool", .str "quick_review"), ("prompt", .str "Is this ok?"),
                    ("trigger_id", .str "t1")])
             true (.str "t1") (some (.str "quick_review"))))] :=
  ⟨(quick_review_prompt_delivered posixHost
      (.obj [("tool", .str "quick_review"), ("prompt", .str "Is this ok?"),
             ("trigger_id", .str "t1")]) "Is this ok?" windowA emptyFS 0 rfl rfl (by decide)).1,
   (quick_review_prompt_delivered posixHost
      (.obj [("tool", .str "quick_review"), ("prompt", .str "Is this ok?"),
             ("trigger_id", .str "t1")]) "Is this ok?" windowA emptyFS 0 rfl rfl
      (by decide)).2.2 rfl |>.2.2 rfl⟩

/-! ## Replies -/

/-- The log lines of the two shutdown events are different lines. -/
theorem logLine_shutdown_ne (h : Host) (a b : JsValue) :
    logLine h "SHUTDOWN_CONFIRMED" a ≠ logLine h "SHUTDOWN_ALTERNATIVE" b := by
  intro hEq
  unfold logLine at hEq
  have h2 := congrArg String.data hEq
  simp [String.data_append] at h2

/-- C13: with the special-handling tag `shutdown_mcp`, `handleReviewMessage`
logs the reply under the event `SHUTDOWN_CONFIRMED` exactly when the
upper-cased text contains `CONFIRM` or equals `YES`, and under the event
`SHUTDOWN_ALTERNATIVE` otherwise (the first call of the run is the log line of
that event, and the lines of the two events differ). On a host whose
`toUpperCase` maps `CONFIRM` to itself and `please wait` to `PLEASE WAIT`, the
reply `CONFIRM` is confirmed and the reply `please wait` is an alternative.
The tag `shutdown_mcp` is the one the dispatcher gives a request for the tool
`shutdown_mcp`. -/
theorem handleReviewMessage_shutdown_classification (h : Host) (t : String)
    (attachments triggerId : JsValue) (mcpIntegration : Bool) (w : Window) (fs : FS)
    (hconfirm : h.toUpperCase "CONFIRM" = "CONFIRM")
    (hwait : h.toUpperCase "please wait" = "PLEASE WAIT") :
    ((includes (h.toUpperCase t) "CONFIRM" = true ∨ h.toUpperCase t = "YES") ↔
      ((handleReviewMessage h (some (.str t)) attachments triggerId mcpIntegration
          (.str "shutdown_mcp") w).run fs).trace.head?
        = some (.host (.appendLine
            (logLine h "SHUTDOWN_CONFIRMED" (some (.str ("SHUTDOWN CONFIRMED: " ++ t))))))) ∧
    (¬ (includes (h.toUpperCase t) "CONFIRM" = true ∨ h.toUpperCase t = "YES") ↔
      ((handleReviewMessage h (some (.str t)) attachments triggerId mcpIntegration
          (.str "shutdown_mcp") w).run fs).trace.head?
        = some (.host (.appendLine
            (logLine h "SHUTDOWN_ALTERNATIVE" (some (.str ("SHUTDOWN ALTERNATIVE: " ++ t))))))) ∧
    ((handleReviewMessage h (some (.str "CONFIRM")) attachments triggerId mcpIntegration
        (.str "shutdown_mcp") w).run fs).trace.head?
      = some (.host (.appendLine
          (logLine h "SHUTDOWN_CONFIRMED" (some (.str "SHUTDOWN CONFIRMED: CONFIRM"))))) ∧
    ((handleReviewMessage h (some (.str "please wait")) attachments triggerId mcpIntegration
        (.str "shutdown_mcp") w).run fs).trace.head?
      = some (.host (.appendLine
          (logLine h "SHUTDOWN_ALTERNATIVE" (some (.str "SHUTDOWN ALTERNATIVE: please wait"))))) ∧
    (∀ d : JVal, d.getProp "tool" = some (.str "shutdown_mcp") →
      ∃ opts, popupOptionsFor h d = .ok opts ∧
        opts.specialHandling = some (.str "shutdown_mcp")) := by
  have hhead : ∀ s : String,
      ((handleReviewMessage h (some (.str s)) attachments triggerId mcpIntegration
          (.str "shutdown_mcp") w).run fs).trace.head?
        = some (.host (.appendLine
            (if confirmsShutdown h s then
              logLine h "SHUTDOWN_CONFIRMED" (some (.str ("SHUTDOWN CONFIRMED: " ++ s)))
            else logLine h "SHUTDOWN_ALTERNATIVE" (some (.str ("SHUTDOWN ALTERNATIVE: " ++ s)))))) := by
    intro s
    by_cases hc : confirmsShutdown h s = true
    · simp [handleReviewMessage, isStr, hc, logUserInput, Prog.bind, Prog.run]
    · simp [handleReviewMessage, isStr, hc, logUserInput, Prog.bind, Prog.run]
  have hcond : confirmsShutdown h t = true ↔
      (includes (h.toUpperCase t) "CONFIRM" = true ∨ h.toUpperCase t = "YES") := by
    simp [confirmsShutdown]
  refine ⟨?_, ?_, ?_, ?_, ?_⟩
  · rw [hhead t, ← hcond]
    by_cases hc : confirmsShutdown h t = true
    · simp [hc]
    · simp only [hc, Bool.false_eq_true, if_false, false_iff]
      intro hEq
      exact logLine_shutdown_ne h _ _ (by simpa using hEq.symm)
  · rw [hhead t, ← hcond]
    by_cases hc : confirmsShutdown h t = true
    · simp only [hc, not_true_eq_false, if_true, false_iff]
      intro hEq
      exact logLine_shutdown_ne h _ _ (by simpa using hEq)
    · simp [hc]
  · rw [hhead "CONFIRM"]
    have hc : confirmsShutdown h "CONFIRM" = true := by
      simp only [confirmsShutdown, hconfirm]
      rfl
    simp [hc]
  · rw [hhead "please wait"]
    have hc : confirmsShutdown h "please wait" = false := by
      simp only [confirmsShutdown, hwait]
      rfl
    simp [hc]
  · intro d hd
    simp [popupOptionsFor, hd, isStr]

/-- C13, on the POSIX host, for the reply `yes`. -/
theorem handleReviewMessage_shutdown_classification_witness :
    posixHost.toUpperCase "CONFIRM" = "CONFIRM" ∧
    posixHost.toUpperCase "please wait" = "PLEASE WAIT" ∧
    ((handleReviewMessage posixHost (some (.str "yes")) none (some (.str "t1")) true
        (.str "shutdown_mcp") windowA).run emptyFS).trace.head?
      = some (.host (.appendLine
          (logLine posixHost "SHUTDOWN_CONFIRMED" (some (.str "SHUTDOWN CONFIRMED: yes"))))) :=
  ⟨by decide, by decide,
   (handleReviewMessage_shutdown_classification posixHost "yes" none (some (.str "t1")) true
      windowA emptyFS (by decide) (by decide)).1.mp (Or.inr (by decide))⟩

/-- No tool gets the special-handling tag `ingest_text` from the dispatcher:
the branch of `handleReviewMessage` for that tag is never reached from a
request. -/
theorem popupOptionsFor_never_ingest_text (h : Host) (toolData : JVal) (opts : PopupOptions)
    (hopts : popupOptionsFor h toolData = .ok opts) :
    opts.specialHandling ≠ some (.str "ingest_text") := by
  unfold popupOptionsFor at hopts
  simp only at hopts
  split at hopts
  · split at hopts
    · simp only [Except.ok.injEq] at hopts
      subst hopts
      intro hEq
      simp only [Option.some.injEq, JVal.str.injEq] at hEq
      have h2 := congrArg String.data hEq
      simp [String.data_append] at h2
    · simp at hopts
  all_goals
    repeat' split at hopts
    all_goals
      simp only [Except.ok.injEq] at hopts
      subst hopts
      simp

/-- C14 (the code at the failing input): the dispatcher gives a text-ingestion
request no special-handling tag, so the panel created for it captures `null`,
and the reply `ok` is handled the standard way: the lines that go to the
output channel are the `MCP_RESPONSE` line, the five response-file lines and
the line of the standard handling; no `TEXT_FEEDBACK` line is written. With
the tag `ingest_text`, `handleReviewMessage` would log the reply as
`TEXT_FEEDBACK`. -/
theorem ingest_text_reply_gets_standard_handling :
    ((popupOptionsFor posixHost ingestRequest).toOption.map fun opts => opts.specialHandling)
      = some none ∧
    (((handleReviewGateToolCall posixHost (some ingestRequest) windowA).run
      emptyFS).state.chatPanel.map fun panel => panel.specialHandling) = some .null ∧
    ((onDidReceiveMessage posixHost 0 (.send (some (.str "ok")) (some (.arr [] [])))
        ((handleReviewGateToolCall posixHost (some ingestRequest) windowA).run
          emptyFS).state).run
      ((handleReviewGateToolCall posixHost (some ingestRequest) windowA).run
        emptyFS).fs).trace.filterMap TraceItem.logged
      = ["[2025-01-01T00:00:00.000Z] MCP_RESPONSE: ok",
         "[2025-01-01T00:00:00.000Z] MCP response written: /tmp/review_gate_response_1df481b1_t2.json",
         "[2025-01-01T00:00:00.000Z] MCP response written: /tmp/review_gate_response_t2.json",
         "[2025-01-01T00:00:00.000Z] MCP response written: /tmp/review_gate_response.json",
         "[2025-01-01T00:00:00.000Z] MCP response written: /tmp/mcp_response_t2.json",
         "[2025-01-01T00:00:00.000Z] MCP response written: /tmp/mcp_response.json",
         "MCP回复 已提交: ok"] ∧
    ((handleReviewMessage posixHost (some (.str "ok")) (some (.arr [] [])) (some (.str "t2")) true
        (.str "ingest_text") windowA).run emptyFS).trace.filterMap TraceItem.logged
      = ["[2025-01-01T00:00:00.000Z] TEXT_FEEDBACK: TEXT FEEDBACK: ok"] := by
  exact ⟨rfl, rfl, rfl, rfl⟩

/-! ## The response files -/

theorem Prog.run_tryCatch_error_none {σ : Type} (p : Prog σ) (f : JsError → σ → Prog σ)
    (hf : ∀ e s fs, ((f e s).run fs).error = none) (fs : FS) :
    ((p.tryCatch f).run fs).error = none := by
  induction p generalizing fs with
  | done s => rfl
  | fail e s => exact hf e s fs
  | existsSync q k ih => simp [Prog.tryCatch, Prog.run, ih]
  | readFileSync q k ih => simp [Prog.tryCatch, Prog.run, ih]
  | writeFileSync q c x k ih => simp [Prog.tryCatch, Prog.run, ih]
  | unlinkSync q k ih => simp [Prog.tryCatch, Prog.run, ih]
  | appendFileSync q t k ih => simp [Prog.tryCatch, Prog.run, ih]
  | statSync q k ih => simp [Prog.tryCatch, Prog.run, ih]
  | host c k ih => simp [Prog.tryCatch, Prog.run, ih]

theorem Prog.run_tryCatch_of_error_none {σ : Type} (p : Prog σ) (f : JsError → σ → Prog σ)
    (fs : FS) (hp : (p.run fs).error = none) : (p.tryCatch f).run fs = p.run fs := by
  induction p generalizing fs with
  | done s => rfl
  | fail e s => simp [Prog.run] at hp
  | existsSync q k ih =>
    simp only [Prog.run] at hp
    simp [Prog.tryCatch, Prog.run, ih _ _ hp]
  | readFileSync q k ih =>
    simp only [Prog.run] at hp
    simp [Prog.tryCatch, Prog.run, ih _ _ hp]
  | writeFileSync q c x k ih =>
    simp only [Prog.run] at hp
    simp [Prog.tryCatch, Prog.run, ih _ _ hp]
  | unlinkSync q k ih =>
    simp only [Prog.run] at hp
    simp [Prog.tryCatch, Prog.run, ih _ _ hp]
  | appendFileSync q t k ih =>
    simp only [Prog.run] at hp
    simp [Prog.tryCatch, Prog.run, ih _ _ hp]
  | statSync q k ih =>
    simp only [Prog.run] at hp
    simp [Prog.tryCatch, Prog.run, ih _ _ hp]
  | host c k ih =>
    simp only [Prog.run] at hp
    simp [Prog.tryCatch, Prog.run, ih _ hp]

theorem writeResponses_cons (h : Host) (c : Content) (p : String) (rest : List String)
    (w : Window) (fs : FS) :
    ∃ line,
      (writeResponses h c (p :: rest) w).run fs =
        { (writeResponses h c rest w).run (fs.writeFileSync p c false).2 with
          trace := .writeFileSync p c false (fs.writeFileSync p c false).1 ::
            .host (.appendLine line) ::
            ((writeResponses h c rest w).run (fs.writeFileSync p c false).2).trace } := by
  cases hr : (fs.writeFileSync p c false).1 with
  | ok u =>
    exact ⟨"[" ++ h.nowIso ++ "] " ++ ("MCP response written: " ++ p),
      by simp [writeResponses, Prog.run, hr, logMessage, Prog.bind]⟩
  | error e =>
    exact ⟨"[" ++ h.nowIso ++ "] " ++ ("Failed to write response file " ++ p ++ ": " ++ e.message),
      by simp [writeResponses, Prog.run, hr, logMessage, Prog.bind]⟩

theorem FS.writeFileSync_fault (fs : FS) (p : String) (c : Content) (x : Bool) :
    (fs.writeFileSync p c x).2.fault = fs.fault := by
  unfold FS.writeFileSync
  split
  · rfl
  · split <;> rfl

theorem FS.writeFileSync_files_ne (fs : FS) (p q : String) (c : Content) (x : Bool)
    (hq : q ≠ p) : (fs.writeFileSync p c x).2.files q = fs.files q := by
  unfold FS.writeFileSync
  split
  · rfl
  · split
    · rfl
    · simp [FS.put, hq]

theorem FS.writeFileSync_files_self (fs : FS) (p : String) (c : Content)
    (hp : fs.fault .write p = none) : (fs.writeFileSync p c false).2.files p = some c := by
  simp [FS.writeFileSync, hp, FS.put]

/-- The loop over the response files: nothing is thrown, every path of the
list is written to with the same content whatever happened to the paths
before it, no other write is made, a path whose write does not fail holds the
content afterwards, and no other file changes. -/
theorem writeResponses_run (h : Host) (c : Content) (ps : List String) (w : Window) (fs : FS) :
    ((writeResponses h c ps w).run fs).error = none ∧
    ((writeResponses h c ps w).run fs).state = w ∧
    ((writeResponses h c ps w).run fs).fs.fault = fs.fault ∧
    (∀ p ∈ ps, ∃ res, TraceItem.writeFileSync p c false res
      ∈ ((writeResponses h c ps w).run fs).trace) ∧
    (∀ item ∈ ((writeResponses h c ps w).run fs).trace, item.isWrite = true →
      ∃ p ∈ ps, ∃ res, item = .writeFileSync p c false res) ∧
    (∀ p ∈ ps, fs.fault .write p = none →
      ((writeResponses h c ps w).run fs).fs.files p = some c) ∧
    (∀ p, p ∉ ps → ((writeResponses h c ps w).run fs).fs.files p = fs.files p) := by
  induction ps generalizing fs with
  | nil => simp [writeResponses, Prog.run]
  | cons p rest ih =>
    obtain ⟨line, hrun⟩ := writeResponses_cons h c p rest w fs
    obtain ⟨h1, h2, h3, h4, h5, h6, h7⟩ := ih (fs.writeFileSync p c false).2
    rw [hrun]
    refine ⟨h1, h2, ?_, ?_, ?_, ?_, ?_⟩
    · simpa [FS.writeFileSync_fault] using h3
    · intro q hq
      rcases List.mem_cons.mp hq with hqp | hqr
      · subst hqp
        exact ⟨_, List.mem_cons_self _ _⟩
      · obtain ⟨res, hres⟩ := h4 q hqr
        exact ⟨res, List.mem_cons_of_mem _ (List.mem_cons_of_mem _ hres)⟩
    · intro item hitem hw
      rcases List.mem_cons.mp hitem with hi | hi
      · exact ⟨p, List.mem_cons_self _ _, _, hi⟩
      · rcases List.mem_cons.mp hi with hi2 | hi2
        · subst hi2
          simp [TraceItem.isWrite] at hw
        · obtain ⟨q, hq, res, hres⟩ := h5 item hi2 hw
          exact ⟨q, List.mem_cons_of_mem _ hq, res, hres⟩
    · intro q hq hfault
      by_cases hqr : q ∈ rest
      · exact h6 q hqr (by rw [FS.writeFileSync_fault]; exact hfault)
      · rcases List.mem_cons.mp hq with hqp | hqr2
        · subst hqp
          show ((writeResponses h c rest w).run (fs.writeFileSync q c false).2).fs.files q = some c
          rw [h7 q hqr]
          exact FS.writeFileSync_files_self fs q c hfault
        · exact absurd hqr2 hqr
    · intro q hq
      have hqp : q ≠ p := fun hEq => hq (hEq ▸ List.mem_cons_self _ _)
      have hqr : q ∉ rest := fun hmem => hq (List.mem_cons_of_mem _ hmem)
      show ((writeResponses h c rest w).run (fs.writeFileSync p c false).2).fs.files q = fs.files q
      rw [h7 q hqr]
      exact FS.writeFileSync_files_ne fs p q c false hqp

theorem logMessage_run (h : Host) (m : String) (w : Window) (fs : FS) :
    ((logMessage h m w).run fs).error = none := rfl

/-- No exception leaves `logUserInput`. -/
theorem logUserInput_error_none (h : Host) (inputText : JsValue) (eventType : String)
    (triggerId attachments : JsValue) (w : Window) (fs : FS) :
    ((logUserInput h inputText eventType triggerId attachments w).run fs).error = none := by
  simp only [logUserInput, Prog.run]
  exact Prog.run_tryCatch_error_none _
    (fun e w1 => logMessage h ("Could not write to Review Gate log file: " ++ e.message) w1)
    (fun e s fs2 => logMessage_run h _ s fs2) _

/-- The run of `logUserInput` for a reply in MCP mode whose append to the input
log succeeded: the log line goes to the output channel and to the input log,
then the loop over the response files runs. -/
theorem logUserInput_mcp_run (h : Host) (inputText : JsValue) (N attachments : JVal)
    (w : Window) (fs : FS) (hN : truthy (some N) = true)
    (happend : fs.fault .append (userInputsLog h) = none) :
    (logUserInput h inputText "MCP_RESPONSE" (some N) (some attachments) w).run fs =
      { (writeResponses h
          (.json (responseData h w inputText "MCP_RESPONSE" N (responseHashOf w) attachments))
          (responsePatterns h (responseHashOf w) N) w).run
          (fs.appendFileSync (userInputsLog h) (logLine h "MCP_RESPONSE" inputText ++ "\n")).2 with
        trace :=
          .host (.appendLine (logLine h "MCP_RESPONSE" inputText)) ::
          .appendFileSync (userInputsLog h) (logLine h "MCP_RESPONSE" inputText ++ "\n") (.ok ()) ::
          ((writeResponses h
            (.json (responseData h w inputText "MCP_RESPONSE" N (responseHashOf w) attachments))
            (responsePatterns h (responseHashOf w) N) w).run
            (fs.appendFileSync (userInputsLog h)
              (logLine h "MCP_RESPONSE" inputText ++ "\n")).2).trace } := by
  have hok : (fs.appendFileSync (userInputsLog h)
      (logLine h "MCP_RESPONSE" inputText ++ "\n")).1 = .ok () := by
    unfold FS.appendFileSync
    rw [happend]
    cases fs.files (userInputsLog h) with
    | none => rfl
    | some content => cases content <;> rfl
  have herr := (writeResponses_run h
    (.json (responseData h w inputText "MCP_RESPONSE" N (responseHashOf w) attachments))
    (responsePatterns h (responseHashOf w) N) w
    (fs.appendFileSync (userInputsLog h) (logLine h "MCP_RESPONSE" inputText ++ "\n")).2).1
  simp only [logUserInput, Prog.run, Prog.tryCatch, hok, Option.getD_some, hN, Bool.true_and,
    beq_self_eq_true, if_true]
  rw [Prog.run_tryCatch_of_error_none _ _ _ herr]

theorem FS.appendFileSync_fault (fs : FS) (p : String) (s : String) :
    (fs.appendFileSync p s).2.fault = fs.fault := by
  unfold FS.appendFileSync
  split
  · rfl
  · split <;> rfl

/-- C15 (as stated, refuted): a reply in MCP mode with trigger id `t1` in the
window of workspace `/Foo/Bar` (hash `1df481b1`), when the append to the input
log fails: the failure is caught and logged, no response file is written, and
none of the four paths exists afterwards. -/
theorem logUserInput_append_failure_writes_nothing :
    responseHashOf windowA = some (.str "1df481b1") ∧
    ((logUserInput posixHost (some (.str "looks good")) "MCP_RESPONSE" (some (.str "t1"))
        (some (.arr [] [])) windowA).run fsLogDenied).trace
      = [.host (.appendLine "[2025-01-01T00:00:00.000Z] MCP_RESPONSE: looks good"),
         .appendFileSync "/tmp/review_gate_user_inputs.log"
           "[2025-01-01T00:00:00.000Z] MCP_RESPONSE: looks good\n" (.error (.fsError "EACCES")),
         .host (.appendLine
           "[2025-01-01T00:00:00.000Z] Could not write to Review Gate log file: EACCES")] ∧
    (["/tmp/review_gate_response_1df481b1_t1.json", "/tmp/review_gate_response_t1.json",
      "/tmp/review_gate_response.json", "/tmp/mcp_response.json"].map
        fun p => (((logUserInput posixHost (some (.str "looks good")) "MCP_RESPONSE"
          (some (.str "t1")) (some (.arr [] [])) windowA).run fsLogDenied).fs.files p).isSome)
      = [false, false, false, false] := by
  exact ⟨rfl, rfl, rfl⟩

/-- C15 (amended): on a reply in MCP mode with a (truthy) trigger id `N`, once
the append to the input log has succeeded, `logUserInput` issues a write of
the same serialized response to `review_gate_response_<N>.json`,
`review_gate_response.json` and `mcp_response.json`, and to
`review_gate_response_<H>_<N>.json` when the resolved hash `H` is known
(truthy); every write of the run carries that same response. -/
theorem logUserInput_writes_every_response_path (h : Host) (inputText : JsValue)
    (N attachments : JVal) (w : Window) (fs : FS) (hN : truthy (some N) = true)
    (happend : fs.fault .append (userInputsLog h) = none) :
    (∀ p ∈ [getTempPath h ("review_gate_response_" ++ N.render ++ ".json"),
            getTempPath h "review_gate_response.json", getTempPath h "mcp_response.json"],
      ∃ res, TraceItem.writeFileSync p
          (.json (responseData h w inputText "MCP_RESPONSE" N (responseHashOf w) attachments))
          false res
        ∈ ((logUserInput h inputText "MCP_RESPONSE" (some N) (some attachments) w).run
            fs).trace) ∧
    (truthy (responseHashOf w) = true →
      ∃ res, TraceItem.writeFileSync
          (getTempPath h ("review_gate_response_" ++ renderJs (responseHashOf w) ++ "_"
            ++ N.render ++ ".json"))
          (.json (responseData h w inputText "MCP_RESPONSE" N (responseHashOf w) attachments))
          false res
        ∈ ((logUserInput h inputText "MCP_RESPONSE" (some N) (some attachments) w).run
            fs).trace) ∧
    (∀ item ∈ ((logUserInput h inputText "MCP_RESPONSE" (some N) (some attachments) w).run
        fs).trace,
      item.isWrite = true →
      ∃ p res, item = .writeFileSync p
        (.json (responseData h w inputText "MCP_RESPONSE" N (responseHashOf w) attachments))
        false res) := by
  obtain ⟨_, _, _, h4, h5, _, _⟩ := writeResponses_run h
    (.json (responseData h w inputText "MCP_RESPONSE" N (responseHashOf w) attachments))
    (responsePatterns h (responseHashOf w) N) w
    (fs.appendFileSync (userInputsLog h) (logLine h "MCP_RESPONSE" inputText ++ "\n")).2
  rw [logUserInput_mcp_run h inputText N attachments w fs hN happend]
  refine ⟨?_, ?_, ?_⟩
  · intro p hp
    have hmem : p ∈ responsePatterns h (responseHashOf w) N := by
      simp only [List.mem_cons, List.mem_singleton, List.not_mem_nil, or_false] at hp
      rcases hp with hp | hp | hp <;> simp [responsePatterns, hp]
    obtain ⟨res, hres⟩ := h4 p hmem
    exact ⟨res, List.mem_cons_of_mem _ (List.mem_cons_of_mem _ hres)⟩
  · intro hH
    have hmem : getTempPath h ("review_gate_response_" ++ renderJs (responseHashOf w) ++ "_"
        ++ N.render ++ ".json") ∈ responsePatterns h (responseHashOf w) N := by
      simp [responsePatterns, hH]
    obtain ⟨res, hres⟩ := h4 _ hmem
    exact ⟨res, List.mem_cons_of_mem _ (List.mem_cons_of_mem _ hres)⟩
  · intro item hitem hw
    rcases List.mem_cons.mp hitem with hi | hi
    · subst hi
      simp [TraceItem.isWrite] at hw
    · rcases List.mem_cons.mp hi with hi2 | hi2
      · subst hi2
        simp [TraceItem.isWrite] at hw
      · obtain ⟨p, _, res, hres⟩ := h5 item hi2 hw
        exact ⟨p, res, hres⟩

/-- C15 (amended), at the reply `looks good` to request `t1` in the window of
workspace `/Foo/Bar`: the bare fallback is written. -/
theorem logUserInput_writes_every_response_path_witness :
    truthy (some (.str "t1")) = true ∧
    emptyFS.fault .append (userInputsLog posixHost) = none ∧
    ∃ res, TraceItem.writeFileSync "/tmp/review_gate_response.json"
        (.json (responseData posixHost windowA (some (.str "looks good")) "MCP_RESPONSE"
          (.str "t1") (responseHashOf windowA) (.arr [] [])))
        false res
      ∈ ((logUserInput posixHost (some (.str "looks good")) "MCP_RESPONSE" (some (.str "t1"))
          (some (.arr [] [])) windowA).run emptyFS).trace :=
  ⟨rfl, rfl,
   (logUserInput_writes_every_response_path posixHost (some (.str "looks good")) (.str "t1")
      (.arr [] []) windowA emptyFS rfl rfl).1 "/tmp/review_gate_response.json" (by decide)⟩

/-- C16: the response writes of `logUserInput` (the loop of lines 172-180, which
runs for a reply in MCP mode with a trigger id once the append of line 136 has
returned) are independent: every path of the list (the bare fallback
`review_gate_response.json` is one) is written to whatever happened to the
others, every path whose own write does not fail holds the response
afterwards, and no exception leaves `logUserInput`. -/
theorem logUserInput_response_writes_independent (h : Host) (inputText : JsValue)
    (N attachments : JVal) (w : Window) (fs : FS) (hN : truthy (some N) = true)
    (happend : fs.fault .append (userInputsLog h) = none) :
    ((logUserInput h inputText "MCP_RESPONSE" (some N) (some attachments) w).run fs).error
      = none ∧
    getTempPath h "review_gate_response.json" ∈ responsePatterns h (responseHashOf w) N ∧
    (∀ p ∈ responsePatterns h (responseHashOf w) N,
      ∃ res, TraceItem.writeFileSync p
          (.json (responseData h w inputText "MCP_RESPONSE" N (responseHashOf w) attachments))
          false res
        ∈ ((logUserInput h inputText "MCP_RESPONSE" (some N) (some attachments) w).run
            fs).trace) ∧
    (∀ p ∈ responsePatterns h (responseHashOf w) N, fs.fault .write p = none →
      ((logUserInput h inputText "MCP_RESPONSE" (some N) (some attachments) w).run fs).fs.files p
        = some (.json
            (responseData h w inputText "MCP_RESPONSE" N (responseHashOf w) attachments))) := by
  obtain ⟨_, _, _, h4, _, h6, _⟩ := writeResponses_run h
    (.json (responseData h w inputText "MCP_RESPONSE" N (responseHashOf w) attachments))
    (responsePatterns h (responseHashOf w) N) w
    (fs.appendFileSync (userInputsLog h) (logLine h "MCP_RESPONSE" inputText ++ "\n")).2
  refine ⟨logUserInput_error_none h inputText _ _ _ w fs, by simp [responsePatterns], ?_, ?_⟩
  · rw [logUserInput_mcp_run h inputText N attachments w fs hN happend]
    intro p hp
    obtain ⟨res, hres⟩ := h4 p hp
    exact ⟨res, List.mem_cons_of_mem _ (List.mem_cons_of_mem _ hres)⟩
  · rw [logUserInput_mcp_run h inputText N attachments w fs hN happend]
    intro p hp hfault
    exact h6 p hp (by rw [FS.appendFileSync_fault]; exact hfault)

/-- C16, where the write of the hash-scoped response file fails: the bare
fallback holds the response afterwards. -/
theorem logUserInput_response_writes_independent_witness :
    fsScopedDenied.fault .write "/tmp/review_gate_response_1df481b1_t1.json" = some "EACCES" ∧
    ((logUserInput posixHost (some (.str "looks good")) "MCP_RESPONSE" (some (.str "t1"))
        (some (.arr [] [])) windowA).run fsScopedDenied).fs.files "/tmp/review_gate_response.json"
      = some (.json (responseData posixHost windowA (some (.str "looks good")) "MCP_RESPONSE"
          (.str "t1") (responseHashOf windowA) (.arr [] []))) :=
  ⟨rfl,
   (logUserInput_response_writes_independent posixHost (some (.str "looks good")) (.str "t1")
      (.arr [] []) windowA fsScopedDenied rfl rfl).2.2.2 "/tmp/review_gate_response.json"
      (by decide) rfl⟩

/-! ## From the claim to the reply -/

theorem lookupKey_setField_eq (fields : List (String × JVal)) (k : String) (v : JVal) :
    lookupKey k (setField fields k v) = some v := by
  unfold setField
  split
  · rename_i hsome
    induction fields with
    | nil => simp [lookupKey] at hsome
    | cons kv rest ih =>
      by_cases hk : kv.1 = k
      · simp [lookupKey, hk]
      · simp only [lookupKey, hk, if_false] at hsome
        simp [lookupKey, hk, ih hsome]
  · rename_i hnone
    induction fields with
    | nil => simp [lookupKey]
    | cons kv rest ih =>
      by_cases hk : kv.1 = k
      · simp [lookupKey, hk] at hnone
      · simp only [lookupKey, hk, if_false] at hnone
        simp [lookupKey, hk, ih hnone]

/-- Every presentation the dispatcher builds carries the request, has
auto-focus on and is in MCP mode. -/
theorem popupOptionsFor_fields (h : Host) (toolData : JVal) (opts : PopupOptions)
    (hopts : popupOptionsFor h toolData = .ok opts) :
    opts.toolData = some toolData ∧ opts.mcpIntegration = true ∧ opts.autoFocus = true := by
  unfold popupOptionsFor at hopts
  simp only at hopts
  split at hopts
  · split at hopts
    · simp only [Except.ok.injEq] at hopts
      subst hopts
      exact ⟨rfl, rfl, rfl⟩
    · simp at hopts
  all_goals
    repeat' split at hopts
    all_goals
      simp only [Except.ok.injEq] at hopts
      subst hopts
      exact ⟨rfl, rfl, rfl⟩

/-- The run of `processTrigger` on a request whose `data` is not `null`: the
dispatch, then (unless the dispatch threw) the removal of the trigger file. -/
theorem processTrigger_run_eq (h : Host) (filePath : String) (td : JVal) (tid : JsValue)
    (twh : JVal) (w : Window) (fs : FS) (d : JVal) (hdata : td.getProp "data" = some d)
    (hdn : d ≠ .null) :
    (processTrigger h filePath td tid twh w).run fs =
      ((handleReviewGateToolCall h
          (some (d.setProp "_workspaceHash" (jsOrD (some twh) (ofOptString w.workspaceHash))))
          { w with currentTriggerData := some (d.setProp "_workspaceHash"
              (jsOrD (some twh) (ofOptString w.workspaceHash))) }).run fs).andThen
        fun w3 => .unlinkSync filePath fun _ => .done w3 := by
  have hnn : td ≠ .null := by
    intro hnull
    simp [hnull, JVal.getProp] at hdata
  have hdef : processTrigger h filePath td tid twh w =
      (handleReviewGateToolCall h
        (some (d.setProp "_workspaceHash" (jsOrD (some twh) (ofOptString w.workspaceHash))))
        { w with currentTriggerData := some (d.setProp "_workspaceHash"
            (jsOrD (some twh) (ofOptString w.workspaceHash))) }).bind fun w3 =>
      .unlinkSync filePath fun _ => .done w3 := by
    cases td <;> cases d <;> simp [processTrigger, hdata] at hnn hdn ⊢
  rw [hdef, Prog.run_bind]

/-- A dispatch that returns normally had a presentation and a tool name that
is a string. -/
theorem processTrigger_error_none (h : Host) (filePath : String) (td : JVal) (tid : JsValue)
    (twh : JVal) (w : Window) (fs : FS) (d : JVal) (hdata : td.getProp "data" = some d)
    (hdn : d ≠ .null) (herr : ((processTrigger h filePath td tid twh w).run fs).error = none) :
    (∃ opts, popupOptionsFor h
      (d.setProp "_workspaceHash" (jsOrD (some twh) (ofOptString w.workspaceHash))) = .ok opts) ∧
    ∃ tool, d.getProp "tool" = some (.str tool) := by
  rw [processTrigger_run_eq h filePath td tid twh w fs d hdata hdn] at herr
  have hd1 := setProp_ne_null d "_workspaceHash"
    (jsOrD (some twh) (ofOptString w.workspaceHash)) hdn
  cases hopts : popupOptionsFor h
      (d.setProp "_workspaceHash" (jsOrD (some twh) (ofOptString w.workspaceHash))) with
  | error e =>
    obtain ⟨e2, hrun⟩ := handleReviewGateToolCall_run_error h _
      { w with currentTriggerData := some (d.setProp "_workspaceHash"
          (jsOrD (some twh) (ofOptString w.workspaceHash))) } fs e hopts
    rw [hrun] at herr
    simp [Run.andThen] at herr
  | ok opts =>
    refine ⟨⟨opts, rfl⟩, ?_⟩
    rw [handleReviewGateToolCall_run_eq h _ _ fs opts hd1 hopts] at herr
    have hgt : (d.setProp "_workspaceHash"
        (jsOrD (some twh) (ofOptString w.workspaceHash))).getProp "tool" = d.getProp "tool" :=
      getProp_setProp_ne _ _ _ _ (by decide)
    simp only [hgt] at herr
    cases ht : d.getProp "tool" with
    | none => simp [ht, Run.andThen] at herr
    | some t =>
      cases t with
      | str s => exact ⟨s, rfl⟩
      | null => simp [ht, Run.andThen] at herr
      | bool b => simp [ht, Run.andThen] at herr
      | num n => simp [ht, Run.andThen] at herr
      | arr a b => simp [ht, Run.andThen] at herr
      | obj o => simp [ht, Run.andThen] at herr

theorem String.append_left_cancel {a b c : String} (habc : a ++ b = a ++ c) : b = c := by
  have h2 := congrArg String.data habc
  simp only [String.data_append, List.append_cancel_left_eq] at h2
  exact String.ext h2

theorem getTempPath_injective (h : Host) (a b : String)
    (hab : getTempPath h a = getTempPath h b) : a = b := by
  unfold getTempPath pathJoin at hab
  cases hw : h.win32 <;> simp only [hw, if_true, if_false, Bool.false_eq_true] at hab <;>
    exact String.append_left_cancel hab

/-- No response file is an acknowledgement file. -/
theorem responsePatterns_not_ack (h : Host) (responseHash : JsValue) (triggerId : JVal)
    (p : String) (hp : p ∈ responsePatterns h responseHash triggerId) (x : String) :
    p ≠ getTempPath h ("review_gate_ack_" ++ x) := by
  have hcases : (∃ a, p = getTempPath h ("review_gate_response_" ++ a)) ∨
      p = getTempPath h "review_gate_response.json" ∨
      (∃ b, p = getTempPath h ("mcp_response_" ++ b)) ∨
      p = getTempPath h "mcp_response.json" := by
    unfold responsePatterns at hp
    rcases List.mem_append.mp hp with hp1 | hp2
    · by_cases hh : truthy responseHash = true
      · simp only [hh, if_true, List.mem_singleton] at hp1
        exact Or.inl ⟨renderJs responseHash ++ ("_" ++ (triggerId.render ++ ".json")),
          hp1.trans (by simp only [String.append_assoc])⟩
      · simp [hh] at hp1
    · simp only [List.mem_cons, List.mem_singleton, List.not_mem_nil, or_false] at hp2
      rcases hp2 with hp2 | hp2 | hp2 | hp2
      · exact Or.inl ⟨triggerId.render ++ ".json",
          hp2.trans (by simp only [String.append_assoc])⟩
      · exact Or.inr (Or.inl hp2)
      · exact Or.inr (Or.inr (Or.inl ⟨triggerId.render ++ ".json",
          hp2.trans (by simp only [String.append_assoc])⟩))
      · exact Or.inr (Or.inr (Or.inr hp2))
  intro hEq
  rcases hcases with ⟨a, ha⟩ | ha | ⟨b, ha⟩ | ha
  all_goals
    have h1 := getTempPath_injective h _ _ (ha.symm.trans hEq)
    have h2 := congrArg String.data h1
    simp [String.data_append] at h2

/-- Every write of `logUserInput` goes to one of the response files. -/
theorem logUserInput_writes (h : Host) (inputText : JsValue) (eventType : String)
    (triggerId attachments : JsValue) (w : Window) (fs : FS) :
    ∀ item ∈ ((logUserInput h inputText eventType triggerId attachments w).run fs).trace,
      item.isWrite = true →
      ∃ p ∈ responsePatterns h (responseHashOf w) (triggerId.getD .null), item.path = some p := by
  intro item hitem hw
  unfold logUserInput at hitem
  simp only [Prog.run, Prog.tryCatch] at hitem
  rcases List.mem_cons.mp hitem with hi | hi
  · subst hi
    simp [TraceItem.isWrite] at hw
  rcases List.mem_cons.mp hi with hi2 | hi2
  · subst hi2
    simp [TraceItem.isWrite] at hw
  cases hr : (fs.appendFileSync (userInputsLog h) (logLine h eventType inputText ++ "\n")).1 with
  | error e =>
    rw [hr] at hi2
    simp only [Prog.tryCatch, logMessage, Prog.run, List.mem_singleton] at hi2
    subst hi2
    simp [TraceItem.isWrite] at hw
  | ok u =>
    rw [hr] at hi2
    by_cases hc : (truthy (some (triggerId.getD .null)) && eventType == "MCP_RESPONSE") = true
    · simp only [hc, if_true] at hi2
      obtain ⟨herr, _, _, _, h5, _, _⟩ := writeResponses_run h
        (.json (responseData h w inputText eventType (triggerId.getD .null) (responseHashOf w)
          (attachments.getD (.arr [] []))))
        (responsePatterns h (responseHashOf w) (triggerId.getD .null)) w
        (fs.appendFileSync (userInputsLog h) (logLine h eventType inputText ++ "\n")).2
      rw [Prog.run_tryCatch_of_error_none _ _ _ herr] at hi2
      obtain ⟨p, hp, res, hres⟩ := h5 item hi2 hw
      exact ⟨p, hp, by rw [hres]; rfl⟩
    · simp only [hc, Bool.false_eq_true, if_false, Prog.tryCatch, Prog.run,
        List.not_mem_nil] at hi2

theorem Run.andThen_trace_cases {σ : Type} (r : Run σ) (f : σ → Prog σ) (item : TraceItem)
    (hitem : item ∈ (r.andThen f).trace) :
    item ∈ r.trace ∨ item ∈ ((f r.state).run r.fs).trace := by
  unfold Run.andThen at hitem
  cases hr : r.error with
  | some e =>
    rw [hr] at hitem
    exact Or.inl hitem
  | none =>
    rw [hr] at hitem
    exact List.mem_append.mp hitem

/-- Every write of `handleReviewMessage` goes to a response file. -/
theorem handleReviewMessage_writes (h : Host) (text attachments triggerId : JsValue)
    (mcpIntegration : Bool) (specialHandling : JVal) (w : Window) (fs : FS) :
    ∀ item ∈ ((handleReviewMessage h text attachments triggerId mcpIntegration specialHandling
        w).run fs).trace,
      item.isWrite = true →
      ∃ p ∈ responsePatterns h (responseHashOf w) (triggerId.getD .null), item.path = some p := by
  intro item hitem hw
  unfold handleReviewMessage at hitem
  split at hitem
  · split at hitem
    · split at hitem
      · rw [Prog.run_bind] at hitem
        rcases Run.andThen_trace_cases _ _ _ hitem with hi | hi
        · exact logUserInput_writes h _ _ _ _ w fs item hi hw
        · simp [Prog.run] at hi
      · rw [Prog.run_bind] at hitem
        rcases Run.andThen_trace_cases _ _ _ hitem with hi | hi
        · exact logUserInput_writes h _ _ _ _ w fs item hi hw
        · simp [Prog.run] at hi
    · simp [Prog.run] at hitem
  · split at hitem
    · rw [Prog.run_bind] at hitem
      rcases Run.andThen_trace_cases _ _ _ hitem with hi | hi
      · exact logUserInput_writes h _ _ _ _ w fs item hi hw
      · simp [Prog.run] at hi
    · simp only [Prog.run, List.mem_singleton] at hitem
      subst hitem
      simp [TraceItem.isWrite] at hw

theorem logUserInput_state (h : Host) (inputText : JsValue) (eventType : String)
    (triggerId attachments : JsValue) (w : Window) (fs : FS) :
    ((logUserInput h inputText eventType triggerId attachments w).run fs).state = w := by
  unfold logUserInput
  simp only [Prog.run, Prog.tryCatch]
  cases hr : (fs.appendFileSync (userInputsLog h) (logLine h eventType inputText ++ "\n")).1 with
  | error e => simp [Prog.tryCatch, logMessage, Prog.run]
  | ok u =>
    by_cases hc : (truthy (some (triggerId.getD .null)) && eventType == "MCP_RESPONSE") = true
    · simp only [hc, if_true]
      obtain ⟨herr, hst, _⟩ := writeResponses_run h
        (.json (responseData h w inputText eventType (triggerId.getD .null) (responseHashOf w)
          (attachments.getD (.arr [] []))))
        (responsePatterns h (responseHashOf w) (triggerId.getD .null)) w
        (fs.appendFileSync (userInputsLog h) (logLine h eventType inputText ++ "\n")).2
      rw [Prog.run_tryCatch_of_error_none _ _ _ herr]
      exact hst
    · simp [hc, Prog.tryCatch, Prog.run]

/-- A reply submitted in the panel writes response files only: no write of its
handling goes to an acknowledgement file. -/
theorem reply_writes_no_ack (h : Host) (now : Int) (text attachments : JsValue) (w : Window)
    (fs : FS) (x : String) :
    ∀ item ∈ ((onDidReceiveMessage h now (.send text attachments) w).run fs).trace,
      item.isWrite = true → item.path ≠ some (getTempPath h ("review_gate_ack_" ++ x)) := by
  intro item hitem hw hpath
  unfold onDidReceiveMessage at hitem
  cases hp : w.chatPanel with
  | none =>
    rw [hp] at hitem
    simp [Prog.run] at hitem
  | some panel =>
    rw [hp] at hitem
    simp only at hitem
    rw [Prog.run_bind] at hitem
    rcases Run.andThen_trace_cases _ _ _ hitem with hi | hi
    · obtain ⟨p, hmem, hitemp⟩ := logUserInput_writes h _ _ _ _ w fs item hi hw
      rw [hitemp] at hpath
      exact responsePatterns_not_ack h _ _ p hmem x (Option.some.inj hpath)
    · obtain ⟨p, hmem, hitemp⟩ := handleReviewMessage_writes h _ _ _ _ _ _ _ item hi hw
      rw [hitemp] at hpath
      exact responsePatterns_not_ack h _ _ p hmem x (Option.some.inj hpath)

/-- C18 (as stated, refuted): a focused window claims the request that has no
explicit trigger id. The trigger id of the request is its timestamp, and the
lock file is named after it, but the acknowledgement goes to
`review_gate_ack_undefined.json` and carries no `trigger_id`:
`sendExtensionAcknowledgement` is given `toolData.trigger_id`, not the trigger
id resolved by `checkTriggerFile`. -/
theorem ack_without_explicit_id_named_undefined :
    extractTriggerId noIdRequest = some (.str "2025-01-01T00:00:00.000Z") ∧
    ((checkTriggerFile posixHost "/tmp/review_gate_trigger.json" none windowA).run
      fsNoId).trace.filter TraceItem.isWrite
      = [.writeFileSync "/tmp/review_gate_lock_2025-01-01T00:00:00.000Z.json"
           (.json (.obj [("acquired_by", .str "/Foo/Bar"), ("workspace_hash", .str "1df481b1"),
                         ("timestamp", .str "2025-01-01T00:00:00.000Z"),
                         ("trigger_id", .str "2025-01-01T00:00:00.000Z")]))
           true (.ok ()),
         .writeFileSync "/tmp/review_gate_ack_undefined.json"
           (.json (.obj [("acknowledged", .bool true),
                         ("timestamp", .str "2025-01-01T00:00:00.000Z"),
                         ("tool_type", .str "quick_review"),
                         ("extension", .str "review-gate-v2"), ("popup_activated", .bool true)]))
           false (.ok ())] := by
  exact ⟨rfl, rfl⟩

/-- C18 (amended): a claimed request that has an explicit id `N`
(`data.trigger_id`) and whose dispatch returns normally causes exactly one
write in the course of the dispatch, before any reply: the acknowledgement,
written to `review_gate_ack_<N>.json` with `acknowledged = true`,
`popup_activated = true`, `trigger_id = N` and `tool_type` the tool name of
the request. A reply submitted in the panel afterwards writes no
acknowledgement. -/
theorem processTrigger_acknowledges_once (h : Host) (filePath : String) (td : JVal)
    (tid : JsValue) (twh : JVal) (w : Window) (fs : FS) (d N : JVal)
    (hdata : td.getProp "data" = some d) (hid : d.getProp "trigger_id" = some N)
    (herr : ((processTrigger h filePath td tid twh w).run fs).error = none) :
    (∃ tool res, d.getProp "tool" = some (.str tool) ∧
      ((processTrigger h filePath td tid twh w).run fs).trace.filter TraceItem.isWrite
        = [.writeFileSync (getTempPath h ("review_gate_ack_" ++ N.render ++ ".json"))
            (.json (.obj [("acknowledged", .bool true), ("timestamp", .str h.nowIso),
                          ("trigger_id", N), ("tool_type", .str tool),
                          ("extension", .str "review-gate-v2"),
                          ("popup_activated", .bool true)]))
            false res]) ∧
    (∀ (now : Int) (text attachments : JsValue) (fs2 : FS),
      ∀ item ∈ ((onDidReceiveMessage h now (.send text attachments)
          ((processTrigger h filePath td tid twh w).run fs).state).run fs2).trace,
        item.isWrite = true →
        item.path ≠ some (getTempPath h ("review_gate_ack_" ++ N.render ++ ".json"))) := by
  refine ⟨?_, fun now text attachments fs2 item hitem hw => by
    have hne := reply_writes_no_ack h now text attachments _ fs2 (N.render ++ ".json") item
      hitem hw
    simpa only [String.append_assoc] using hne⟩
  have hdn : d ≠ .null := by
    intro hnull
    simp [hnull, JVal.getProp] at hid
  obtain ⟨⟨opts, hopts⟩, tool, htool⟩ :=
    processTrigger_error_none h filePath td tid twh w fs d hdata hdn herr
  have hd1 := setProp_ne_null d "_workspaceHash"
    (jsOrD (some twh) (ofOptString w.workspaceHash)) hdn
  have hgt : (d.setProp "_workspaceHash"
      (jsOrD (some twh) (ofOptString w.workspaceHash))).getProp "tool" = d.getProp "tool" :=
    getProp_setProp_ne _ _ _ _ (by decide)
  have hgi : (d.setProp "_workspaceHash"
      (jsOrD (some twh) (ofOptString w.workspaceHash))).getProp "trigger_id"
        = d.getProp "trigger_id" :=
    getProp_setProp_ne _ _ _ _ (by decide)
  obtain ⟨c1, c2, w1, hopen, _⟩ := openReviewGatePopup_run
    { opts with
        triggerId := (d.setProp "_workspaceHash"
          (jsOrD (some twh) (ofOptString w.workspaceHash))).getProp "trigger_id",
        title := some (.str "Review Gate") }
    { w with currentTriggerData := some (d.setProp "_workspaceHash"
        (jsOrD (some twh) (ofOptString w.workspaceHash))) } fs
  refine ⟨tool,
    (fs.writeFileSync (getTempPath h ("review_gate_ack_" ++ N.render ++ ".json"))
      (.json (ackData h (some N) (some (.str tool)))) false).1, htool, ?_⟩
  rw [processTrigger_run_eq h filePath td tid twh w fs d hdata hdn,
    handleReviewGateToolCall_run_eq h _ _ fs opts hd1 hopts, hopen]
  simp only [hgt, hgi, htool, hid, Run.andThen, Prog.run, renderJs, ackData, mkObj]
  simp [TraceItem.isWrite]

/-- C18 (amended), at the quick-review request `t1`. -/
theorem processTrigger_acknowledges_once_witness :
    ((processTrigger posixHost "/tmp/review_gate_trigger.json" quickReview (some (.str "t1"))
        .null windowA).run fsGeneric).error = none ∧
    ∃ tool res,
      (JVal.obj [("tool", .str "quick_review"), ("prompt", .str "Is this ok?"),
                 ("trigger_id", .str "t1")]).getProp "tool" = some (.str tool) ∧
      ((processTrigger posixHost "/tmp/review_gate_trigger.json" quickReview (some (.str "t1"))
          .null windowA).run fsGeneric).trace.filter TraceItem.isWrite
        = [.writeFileSync (getTempPath posixHost ("review_gate_ack_" ++ (JVal.str "t1").render
              ++ ".json"))
            (.json (.obj [("acknowledged", .bool true), ("timestamp", .str posixHost.nowIso),
                          ("trigger_id", .str "t1"), ("tool_type", .str tool),
                          ("extension", .str "review-gate-v2"),
                          ("popup_activated", .bool true)]))
            false res] :=
  ⟨by rfl,
   (processTrigger_acknowledges_once posixHost "/tmp/review_gate_trigger.json" quickReview
    (some (.str "t1")) .null windowA fsGeneric _ (.str "t1") rfl rfl (by rfl)).1⟩

theorem Run.andThen_trace_mem {σ : Type} (r : Run σ) (f : σ → Prog σ) (item : TraceItem)
    (hitem : item ∈ r.trace) : item ∈ (r.andThen f).trace := by
  unfold Run.andThen
  cases r.error with
  | some e => exact hitem
  | none => exact List.mem_append_left _ hitem

/-- What a claim leaves in the module's variables when the request has a data
object with a truthy trigger id and the dispatch returns normally: a panel is
open, the MCP mode is on, and the trigger context is the data object with the
hash resolved at the claim and the trigger id. -/
theorem processTrigger_state (h : Host) (filePath : String) (td : JVal) (tid : JsValue)
    (twh : JVal) (w : Window) (fs : FS) (fields : List (String × JVal)) (N : JVal)
    (hdata : td.getProp "data" = some (.obj fields))
    (hid : lookupKey "trigger_id" fields = some N) (hN : truthy (some N) = true)
    (herr : ((processTrigger h filePath td tid twh w).run fs).error = none) :
    (∃ panel, ((processTrigger h filePath td tid twh w).run fs).state.chatPanel = some panel) ∧
    ((processTrigger h filePath td tid twh w).run fs).state.currentMcpIntegration = true ∧
    ((processTrigger h filePath td tid twh w).run fs).state.currentTriggerData
      = some (.obj (setField
          (setField fields "_workspaceHash" (jsOrD (some twh) (ofOptString w.workspaceHash)))
          "trigger_id" N)) ∧
    ((processTrigger h filePath td tid twh w).run fs).state.workspaceHash = w.workspaceHash ∧
    ((processTrigger h filePath td tid twh w).run fs).state.workspacePath = w.workspacePath := by
  have hdn : JVal.obj fields ≠ .null := by simp
  obtain ⟨⟨opts, hopts⟩, tool, htool⟩ :=
    processTrigger_error_none h filePath td tid twh w fs _ hdata hdn herr
  obtain ⟨hto, hmcp, hauto⟩ := popupOptionsFor_fields h _ opts hopts
  have hd1 := setProp_ne_null (.obj fields) "_workspaceHash"
    (jsOrD (some twh) (ofOptString w.workspaceHash)) hdn
  have hgt : ((JVal.obj fields).setProp "_workspaceHash"
      (jsOrD (some twh) (ofOptString w.workspaceHash))).getProp "tool"
        = (JVal.obj fields).getProp "tool" :=
    getProp_setProp_ne _ _ _ _ (by decide)
  have hgi : ((JVal.obj fields).setProp "_workspaceHash"
      (jsOrD (some twh) (ofOptString w.workspaceHash))).getProp "trigger_id" = some N := by
    rw [getProp_setProp_ne _ _ _ _ (by decide)]
    exact hid
  rw [processTrigger_run_eq h filePath td tid twh w fs _ hdata hdn,
    handleReviewGateToolCall_run_eq h _ _ fs opts hd1 hopts]
  simp only [hgt, htool, hgi, Run.andThen, Prog.run]
  cases hp : w.chatPanel with
  | none =>
    simp [openReviewGatePopup, hp, hN, hto, hmcp, hauto, Prog.run, Window.setTimeout,
      JVal.setProp, spreadFields]
  | some panel =>
    by_cases hm : truthy (some (opts.message.getD
        (.str "Welcome to Review Gate V2! Please provide your review or feedback."))) = true
    · simp [openReviewGatePopup, hp, hN, hto, hmcp, hauto, hm, Prog.run, Window.setTimeout,
        JVal.setProp, spreadFields]
    · simp [openReviewGatePopup, hp, hN, hto, hmcp, hauto, hm, Prog.run, Window.setTimeout,
        JVal.setProp, spreadFields]

theorem jsOr_resolved (twh wh : JVal) :
    jsOr (some (jsOrD (some twh) wh)) (some wh) = some (jsOrD (some twh) wh) := by
  by_cases ht : truthy (some twh) = true
  · simp [jsOr, jsOrD, ht]
  · by_cases hw : truthy (some wh) = true
    · simp [jsOr, jsOrD, ht, hw]
    · simp [jsOr, jsOrD, ht, hw]

/-- C17 (as stated, refuted): a focused window claims the request that has no
explicit trigger id (its trigger id is its timestamp) and the user replies
`looks good` in the panel. The reply is logged in MCP mode and handled the
standard way, but no response is written: the trigger id handed to
`logUserInput` is `toolData.trigger_id`, which is undefined. -/
theorem reply_without_explicit_id_not_written :
    extractTriggerId noIdRequest = some (.str "2025-01-01T00:00:00.000Z") ∧
    ((checkTriggerFile posixHost "/tmp/review_gate_trigger.json" none windowA).run fsNoId).error
      = none ∧
    ((onDidReceiveMessage posixHost 0 (.send (some (.str "looks good")) (some (.arr [] [])))
        ((checkTriggerFile posixHost "/tmp/review_gate_trigger.json" none windowA).run
          fsNoId).state).run
      ((checkTriggerFile posixHost "/tmp/review_gate_trigger.json" none windowA).run
        fsNoId).fs).trace
      = [.host (.appendLine "[2025-01-01T00:00:00.000Z] MCP_RESPONSE: looks good"),
         .appendFileSync "/tmp/review_gate_user_inputs.log"
           "[2025-01-01T00:00:00.000Z] MCP_RESPONSE: looks good\n" (.ok ()),
         .host (.appendLine "MCP回复 已提交: looks good")] := by
  exact ⟨rfl, rfl, rfl⟩

/-- C17 (amended): a request whose data object has an explicit, truthy trigger
id `N` is claimed and its dispatch returns normally; the user then submits the
text `T` with the attachment list `A` in the panel, and the append to the
input log succeeds. Then the response, with `user_input = response = message
= T`, `attachments = A` in the same order, `trigger_id = N` and
`workspace_hash` the hash resolved at the claim (the hash the request
declares, `twh`, when that is truthy, otherwise the hash of the claiming
window), is written to every response file. -/
theorem reply_written_with_claimed_ids (h : Host) (filePath : String) (td : JVal)
    (tid : JsValue) (twh : JVal) (w : Window) (fs fs2 : FS) (fields : List (String × JVal))
    (N : JVal) (T : String) (A : List JVal) (now : Int)
    (hdata : td.getProp "data" = some (.obj fields))
    (hid : lookupKey "trigger_id" fields = some N) (hN : truthy (some N) = true)
    (herr : ((processTrigger h filePath td tid twh w).run fs).error = none)
    (happend : fs2.fault .append (userInputsLog h) = none) :
    ∀ p ∈ responsePatterns h (some (jsOrD (some twh) (ofOptString w.workspaceHash))) N,
      ∃ res, TraceItem.writeFileSync p
          (.json (.obj
            [("timestamp", .str h.nowIso), ("trigger_id", N),
             ("workspace_hash", jsOrD (some twh) (ofOptString w.workspaceHash)),
             ("workspace_path", ofOptString w.workspacePath),
             ("user_input", .str T), ("response", .str T), ("message", .str T),
             ("attachments", .arr A []), ("event_type", .str "MCP_RESPONSE"),
             ("source", .str "review_gate_extension")]))
          false res
        ∈ ((onDidReceiveMessage h now (.send (some (.str T)) (some (.arr A [])))
            ((processTrigger h filePath td tid twh w).run fs).state).run fs2).trace := by
  obtain ⟨⟨panel, hpanel⟩, hmcp, hctd, hwh, hwp⟩ :=
    processTrigger_state h filePath td tid twh w fs fields N hdata hid hN herr
  have hhash : responseHashOf ((processTrigger h filePath td tid twh w).run fs).state
      = some (jsOrD (some twh) (ofOptString w.workspaceHash)) := by
    unfold responseHashOf
    rw [hctd, hwh]
    simp only [optMember, JVal.getProp]
    rw [lookupKey_setField_ne _ _ _ _ (by decide), lookupKey_setField_eq]
    exact jsOr_resolved twh (ofOptString w.workspaceHash)
  have hsend : onDidReceiveMessage h now (.send (some (.str T)) (some (.arr A [])))
      ((processTrigger h filePath td tid twh w).run fs).state =
      (logUserInput h (some (.str T)) "MCP_RESPONSE" (some N) (some (.arr A []))
        ((processTrigger h filePath td tid twh w).run fs).state).bind fun w1 =>
      handleReviewMessage h (some (.str T)) (some (.arr A [])) (some N) w1.currentMcpIntegration
        panel.specialHandling w1 := by
    unfold onDidReceiveMessage
    rw [hpanel]
    have hobj : ∀ f : List (String × JVal), truthy (some (.obj f)) = true := fun _ => rfl
    have harr : truthy (some (.arr A [])) = true := rfl
    simp only [hmcp, hctd, if_true]
    simp [jsAnd, jsOr, optMember, JVal.getProp, lookupKey_setField_eq, hN, hobj, harr]
  intro p hp
  obtain ⟨_, _, _, h4, _, _, _⟩ := writeResponses_run h
    (.json (responseData h ((processTrigger h filePath td tid twh w).run fs).state
      (some (.str T)) "MCP_RESPONSE" N
      (responseHashOf ((processTrigger h filePath td tid twh w).run fs).state) (.arr A [])))
    (responsePatterns h
      (responseHashOf ((processTrigger h filePath td tid twh w).run fs).state) N)
    ((processTrigger h filePath td tid twh w).run fs).state
    (fs2.appendFileSync (userInputsLog h)
      (logLine h "MCP_RESPONSE" (some (.str T)) ++ "\n")).2
  rw [hhash] at h4
  obtain ⟨res, hres⟩ := h4 p hp
  refine ⟨res, ?_⟩
  rw [hsend, Prog.run_bind]
  apply Run.andThen_trace_mem
  rw [logUserInput_mcp_run h (some (.str T)) N (.arr A []) _ fs2 hN happend, hhash]
  have hpayload : responseData h ((processTrigger h filePath td tid twh w).run fs).state
      (some (.str T)) "MCP_RESPONSE" N
      (some (jsOrD (some twh) (ofOptString w.workspaceHash))) (.arr A [])
      = .obj
        [("timestamp", .str h.nowIso), ("trigger_id", N),
         ("workspace_hash", jsOrD (some twh) (ofOptString w.workspaceHash)),
         ("workspace_path", ofOptString w.workspacePath),
         ("user_input", .str T), ("response", .str T), ("message", .str T),
         ("attachments", .arr A []), ("event_type", .str "MCP_RESPONSE"),
         ("source", .str "review_gate_extension")] := by
    simp [responseData, mkObj, hwp]
  rw [hpayload] at hres ⊢
  exact List.mem_cons_of_mem _ (List.mem_cons_of_mem _ hres)

/-- C17 (amended), at the scenario of the specification: window `/Foo/Bar`
claims request `t1` and the user replies `looks good`; the bare fallback
receives the response. -/
theorem reply_written_with_claimed_ids_witness :
    ((processTrigger posixHost "/tmp/review_gate_trigger.json" quickReview (some (.str "t1"))
        .null windowA).run fsGeneric).error = none ∧
    ∃ res, TraceItem.writeFileSync "/tmp/review_gate_response.json"
        (.json (.obj
          [("timestamp", .str "2025-01-01T00:00:00.000Z"), ("trigger_id", .str "t1"),
           ("workspace_hash", .str "1df481b1"), ("workspace_path", .str "/Foo/Bar"),
           ("user_input", .str "looks good"), ("response", .str "looks good"),
           ("message", .str "looks good"), ("attachments", .arr [] []),
           ("event_type", .str "MCP_RESPONSE"), ("source", .str "review_gate_extension")]))
        false res
      ∈ ((onDidReceiveMessage posixHost 0 (.send (some (.str "looks good")) (some (.arr [] [])))
          ((processTrigger posixHost "/tmp/review_gate_trigger.json" quickReview
            (some (.str "t1")) .null windowA).run fsGeneric).state).run emptyFS).trace :=
  ⟨by rfl,
   reply_written_with_claimed_ids posixHost "/tmp/review_gate_trigger.json" quickReview
    (some (.str "t1")) .null windowA fsGeneric emptyFS _ (.str "t1") "looks good" [] 0 rfl rfl rfl
    (by rfl) rfl "/tmp/review_gate_response.json" (by decide)⟩

/-! ## Liveness of the MCP server -/

theorem updateChatPanelStatus_run (w : Window) (fs : FS) :
    ((updateChatPanelStatus w).run fs).error = none ∧
    ((updateChatPanelStatus w).run fs).state = w := by
  unfold updateChatPanelStatus postIfPanel
  cases w.chatPanel <;> exact ⟨rfl, rfl⟩

/-- C19: after every run of `checkMcpStatus` the flag `mcpStatus` is true
exactly when the heartbeat file exists, `fs.statSync` on it returns, and its
age (`now` minus its last-modified time) is less than 30000 ms. A failing
`fs.statSync` gives `false`, and no exception leaves `checkMcpStatus`. -/
theorem checkMcpStatus_liveness (h : Host) (now : Int) (w : Window) (fs : FS) :
    ((checkMcpStatus h now w).run fs).error = none ∧
    (((checkMcpStatus h now w).run fs).state.mcpStatus = true ↔
      fs.existsSync (mcpLogPath h) = true ∧
      ∃ stats, fs.statSync (mcpLogPath h) = .ok stats ∧ now - stats.mtimeMs < 30000) ∧
    (∀ e, fs.statSync (mcpLogPath h) = .error e →
      ((checkMcpStatus h now w).run fs).state.mcpStatus = false) := by
  have hmain : ((checkMcpStatus h now w).run fs).error = none ∧
      ((checkMcpStatus h now w).run fs).state.mcpStatus =
        (fs.existsSync (mcpLogPath h) &&
          match fs.statSync (mcpLogPath h) with
          | .ok stats => decide (now - stats.mtimeMs < 30000)
          | .error _ => false) := by
    unfold checkMcpStatus
    cases hm : w.mcpStatus <;> cases hp : w.chatPanel <;>
      cases hex : fs.existsSync (mcpLogPath h) <;>
      cases hst : fs.statSync (mcpLogPath h) <;>
      simp only [Prog.tryCatch, Prog.run, hex, hst, hm, hp, updateChatPanelStatus, postIfPanel,
        Bool.false_eq_true, if_false, if_true, Bool.false_and, Bool.true_and, and_self] <;>
      first
        | trivial
        | (split <;> simp_all [Prog.tryCatch, Prog.run, postIfPanel])
  obtain ⟨herr, hstate⟩ := hmain
  refine ⟨herr, ?_, ?_⟩
  · rw [hstate]
    cases hst : fs.statSync (mcpLogPath h) with
    | error e => simp
    | ok stats => simp
  · intro e he
    rw [hstate, he]
    simp

/-- C19 evaluated: a heartbeat last modified at time 1000 is fresh at time
30999 and stale at time 31000; a heartbeat that cannot be stat'ed, or that is
missing, gives inactive. -/
theorem checkMcpStatus_samples :
    ((checkMcpStatus posixHost 30999 windowA).run fsHeartbeat).state.mcpStatus = true ∧
    ((checkMcpStatus posixHost 31000 windowA).run fsHeartbeat).state.mcpStatus = false ∧
    ((checkMcpStatus posixHost 30999 { windowA with mcpStatus := true }).run
      { fsHeartbeat with fault := fun op _ => if op = .stat then some "EACCES" else none }
      ).state.mcpStatus = false ∧
    ((checkMcpStatus posixHost 30999 { windowA with mcpStatus := true }).run
      emptyFS).state.mcpStatus = false := by
  exact ⟨rfl, rfl, rfl, rfl⟩

/-! ## Voice capture -/

/-- The audio file of a web recording is not the speech trigger file. -/
theorem webaudio_ne_speechTriggerFile (h : Host) (a b : String) :
    getTempPath h ("review_gate_webaudio_" ++ a) ≠ getTempPath h ("review_gate_speech_trigger_" ++ b) := by
  intro hEq
  unfold getTempPath pathJoin at hEq
  have h2 := congrArg String.data hEq
  cases hw : h.win32 <;> simp [hw, String.data_append] at h2

theorem handleSpeechToText_run (h : Host) (audioFile : String) (triggerId : JsValue)
    (w : Window) (fs : FS) :
    ∃ rest, ((handleSpeechToText h audioFile triggerId w).run fs).trace =
      .writeFileSync (speechTriggerFile h triggerId)
        (.json (transcriptionRequest h audioFile triggerId)) false
        (fs.writeFileSync (speechTriggerFile h triggerId)
          (.json (transcriptionRequest h audioFile triggerId)) false).1 :: rest := by
  unfold handleSpeechToText
  exact ⟨_, rfl⟩

/-- C20: an undersized recording never reaches the transcription. Stopping a
recording puts a listener on the process that, when the process has exited,
sets the timer `checkAudioFile`. That callback, on a recorded file of at most
500 bytes, reports `No speech detected` to the panel (when there is one) and
removes the file: it makes no write, so no speech trigger file is written,
and starts no transcription poll. On a larger file it hands the file to
`handleSpeechToText`, whose first call writes the speech trigger file.
`handleWebAudioRecording` on a buffer of fewer than 1000 bytes writes nothing
but the audio file itself, which is not the speech trigger file, and starts
no transcription poll. -/
theorem undersized_recording_not_transcribed (h : Host) (audioFile : String)
    (triggerId : JsValue) (w : Window) (fs : FS) (stats : Stats) (bytes : List Nat) (now : Int)
    (hexists : fs.existsSync audioFile = true) (hstat : fs.statSync audioFile = .ok stats) :
    (∀ recording, w.currentRecording = some recording →
      ∃ stopping,
        ((stopNodeRecording triggerId w).run fs).state.currentRecording = some stopping ∧
        (1000, TimerAction.checkAudioFile recording.audioFile triggerId)
          ∈ (stopping.onExit ((stopNodeRecording triggerId w).run fs).state).timers) ∧
    (stats.size ≤ 500 →
      ((TimerAction.fire h (.checkAudioFile audioFile triggerId) w).run fs).trace
        = [.existsSync audioFile true, .statSync audioFile (.ok stats)] ++
          (match w.chatPanel with
            | some _ =>
              [.host (.postMessage (.speechTranscribed ""
                (some "No speech detected - try speaking louder or closer to microphone")))]
            | none => []) ++
          [.unlinkSync audioFile (fs.unlinkSync audioFile).1] ∧
      ((TimerAction.fire h (.checkAudioFile audioFile triggerId) w).run fs).trace.any
        TraceItem.isWrite = false ∧
      ((TimerAction.fire h (.checkAudioFile audioFile triggerId) w).run fs).state.speechPolls
        = w.speechPolls) ∧
    (500 < stats.size →
      ((TimerAction.fire h (.checkAudioFile audioFile triggerId) w).run fs).trace
        = [.existsSync audioFile true, .statSync audioFile (.ok stats)] ++
          ((handleSpeechToText h audioFile triggerId w).run fs).trace ∧
      ∃ res, TraceItem.writeFileSync (speechTriggerFile h triggerId)
          (.json (transcriptionRequest h audioFile triggerId)) false res
        ∈ ((TimerAction.fire h (.checkAudioFile audioFile triggerId) w).run fs).trace) ∧
    (bytes.length < 1000 →
      (∀ item ∈ ((handleWebAudioRecording h now (.ok bytes) triggerId w).run fs).trace,
        item.isWrite = true →
        item.path = some (getTempPath h
          ("review_gate_webaudio_" ++ renderJs triggerId ++ "_" ++ toString now ++ ".webm")) ∧
        item.path ≠ some (speechTriggerFile h triggerId)) ∧
      ((handleWebAudioRecording h now (.ok bytes) triggerId w).run fs).state.speechPolls
        = w.speechPolls) := by
  refine ⟨?_, ?_, ?_, ?_⟩
  · intro recording hrec
    refine ⟨{ recording with
      exitListeners := recording.exitListeners ++
        [{ audioFile := recording.audioFile, triggerId := triggerId }] }, ?_, ?_⟩
    · simp [stopNodeRecording, hrec, Prog.run, Window.setTimeout]
    · simp [stopNodeRecording, hrec, Prog.run, Window.setTimeout, Recording.onExit]
  · intro hsmall
    have hnot : ¬ 500 < stats.size := by omega
    cases hp : w.chatPanel <;>
      simp [TimerAction.fire, checkAudioFile, Prog.run, hexists, hstat, hnot, postIfPanel, hp,
        TraceItem.isWrite]
  · intro hlarge
    obtain ⟨rest, hrest⟩ := handleSpeechToText_run h audioFile triggerId w fs
    have htrace : ((TimerAction.fire h (.checkAudioFile audioFile triggerId) w).run fs).trace
        = [.existsSync audioFile true, .statSync audioFile (.ok stats)] ++
          ((handleSpeechToText h audioFile triggerId w).run fs).trace := by
      simp only [TimerAction.fire, checkAudioFile]
      generalize handleSpeechToText h audioFile triggerId w = p
      simp only [Prog.run, hexists, hstat, hlarge, if_true, Prog.run_bind]
      unfold Run.andThen
      cases (p.run fs).error <;> simp [Prog.run]
    refine ⟨htrace,
      (fs.writeFileSync (speechTriggerFile h triggerId)
        (.json (transcriptionRequest h audioFile triggerId)) false).1, ?_⟩
    rw [htrace, hrest]
    simp
  · intro hshort
    have hpath : ∀ p : String, p = getTempPath h
        ("review_gate_webaudio_" ++ renderJs triggerId ++ "_" ++ toString now ++ ".webm") →
        some p ≠ some (speechTriggerFile h triggerId) := by
      intro p hp hEq
      rw [hp] at hEq
      have h3 := Option.some.inj hEq
      unfold speechTriggerFile at h3
      simp only [String.append_assoc] at h3
      exact webaudio_ne_speechTriggerFile h _ _ h3
    unfold handleWebAudioRecording
    cases hwr : (fs.writeFileSync (getTempPath h
        ("review_gate_webaudio_" ++ renderJs triggerId ++ "_" ++ toString now ++ ".webm"))
        (.binary bytes) false).1 with
    | error e =>
      cases hp : w.chatPanel <;>
        simp [Prog.tryCatch, Prog.run, hwr, postIfPanel, hp, TraceItem.isWrite, TraceItem.path,
          hpath]
    | ok u =>
      cases hp : w.chatPanel <;>
        simp [Prog.tryCatch, Prog.run, hwr, hshort, postIfPanel, hp, TraceItem.isWrite,
          TraceItem.path, hpath]

/-- C20, at a recording of 44 bytes for request `t1`: the panel is told that no
speech was detected, the file is removed and nothing is written. -/
theorem undersized_recording_not_transcribed_witness :
    fsSmallAudio.existsSync "/tmp/review_gate_audio_t1_0.wav" = true ∧
    fsSmallAudio.statSync "/tmp/review_gate_audio_t1_0.wav" = .ok ⟨0, 44⟩ ∧
    ((TimerAction.fire posixHost
        (.checkAudioFile "/tmp/review_gate_audio_t1_0.wav" (some (.str "t1")))
        windowRecording).run fsSmallAudio).trace.any TraceItem.isWrite = false ∧
    ((TimerAction.fire posixHost
        (.checkAudioFile "/tmp/review_gate_audio_t1_0.wav" (some (.str "t1")))
        windowRecording).run fsSmallAudio).state.speechPolls = [] :=
  ⟨rfl, rfl,
   ((undersized_recording_not_transcribed posixHost "/tmp/review_gate_audio_t1_0.wav"
      (some (.str "t1")) windowRecording fsSmallAudio ⟨0, 44⟩ [] 0 rfl rfl).2.1 (by decide)).2.1,
   ((undersized_recording_not_transcribed posixHost "/tmp/review_gate_audio_t1_0.wav"
      (some (.str "t1")) windowRecording fsSmallAudio ⟨0, 44⟩ [] 0 rfl rfl).2.1 (by decide)).2.2⟩

/-! ## Trigger files that are not claimed -/

/-- C22: a trigger file (scoped or generic) whose content `JSON.parse` rejects
is discarded by `checkTriggerFile`: the run consists of the existence test and
the read, no exception leaves the function, no editor call is made (nothing
is shown, no panel is opened), nothing is written (no lock, no
acknowledgement), and the module state (the trigger context with it) and the
file system (the trigger file with it) are as before. -/
theorem checkTriggerFile_invalid_json (h : Host) (filePath : String)
    (expectedHash : Option String) (w : Window) (fs : FS) (content : Content) (e : JsError)
    (hread : fs.readFileSync filePath = .ok content) (hparse : content.parse = .error e) :
    (checkTriggerFile h filePath expectedHash w).run fs
      = ⟨w, none, fs, [.existsSync filePath true, .readFileSync filePath (.ok content)]⟩ := by
  have hex := existsSync_of_readFileSync fs filePath _ hread
  simp [checkTriggerFile, Prog.run_tryCatch_done, Prog.run, hex, hread, hparse]

/-- C22, at a generic trigger file that holds the text `not json`. -/
theorem checkTriggerFile_invalid_json_witness :
    fsGarbage.readFileSync "/tmp/review_gate_trigger.json" = .ok (.text "not json") ∧
    (checkTriggerFile posixHost "/tmp/review_gate_trigger.json" none windowA).run fsGarbage
      = ⟨windowA, none, fsGarbage,
         [.existsSync "/tmp/review_gate_trigger.json" true,
          .readFileSync "/tmp/review_gate_trigger.json" (.ok (.text "not json"))]⟩ :=
  ⟨rfl, checkTriggerFile_invalid_json posixHost "/tmp/review_gate_trigger.json" none windowA
    fsGarbage (.text "not json") .syntaxError rfl rfl⟩

/-- A window that finds the lock file of the request gives up, whatever the
request is. -/
theorem checkParsedTrigger_locked (h : Host) (filePath : String) (td : JVal) (w : Window)
    (fs : FS) (hlock : fs.existsSync (lockFilePathOf h (extractTriggerId td)) = true) :
    ((checkParsedTrigger h filePath none td w).run fs).state = w ∧
    ((checkParsedTrigger h filePath none td w).run fs).fs = fs ∧
    ((checkParsedTrigger h filePath none td w).run fs).trace.all TraceItem.isRead = true := by
  by_cases hnn : td = .null
  · subst hnn
    exact ⟨rfl, rfl, rfl⟩
  by_cases htag : passesTagCheck td = true
  · cases hf : w.focused with
    | true =>
      rw [checkParsedTrigger_generic_focused h filePath td w hnn htag hf]
      cases hfp : fs.existsSync filePath with
      | false =>
        rw [checkTriggerFileWithLock_no_trigger h filePath td _ _ _ w fs hfp]
        exact ⟨rfl, rfl, rfl⟩
      | true =>
        rw [checkTriggerFileWithLock_locked h filePath td _ _ _ w fs hfp hlock]
        exact ⟨rfl, rfl, rfl⟩
    | false =>
      rw [checkParsedTrigger_generic_unfocused h filePath td w hnn htag hf]
      simp [Prog.run, hlock, TraceItem.isRead]
  · have htag2 : passesTagCheck td = false := by simpa using htag
    simp only [passesTagCheck, Bool.and_eq_false_iff, Bool.not_eq_false'] at htag2
    rcases htag2 with hf | hf
    · cases td <;> simp [checkParsedTrigger, hf, Prog.run] at hnn ⊢
    · by_cases he : declaresOther (td.getProp "editor") "cursor" = true
      · cases td <;> simp [checkParsedTrigger, he, Prog.run] at hnn ⊢
      · cases td <;> simp [checkParsedTrigger, he, hf, Prog.run] at hnn ⊢

/-- C23: a window that arbitrates a generic trigger while the lock file of the
request exists abandons. In `checkTriggerFileWithLock` (any window) and in
`checkTriggerFile` on the generic path (a window that is not focused, and a
focused one as well) the run only looks at the file system: there is no
dispatch (no editor call, no acknowledgement or other write, no removal), no
exception, and the module state and the file system (lock file and trigger
file with it) are as before. -/
theorem lock_exists_abandons (h : Host) (filePath : String) (td : JVal) (tid : JsValue)
    (lock : String) (twh : JVal) (w : Window) (fs : FS) :
    (fs.existsSync lock = true →
      ((checkTriggerFileWithLock h filePath td tid lock twh w).run fs).state = w ∧
      ((checkTriggerFileWithLock h filePath td tid lock twh w).run fs).fs = fs ∧
      ((checkTriggerFileWithLock h filePath td tid lock twh w).run fs).error = none ∧
      ((checkTriggerFileWithLock h filePath td tid lock twh w).run fs).trace.all
        TraceItem.isRead = true) ∧
    (fs.readFileSync filePath = .ok (.json td) →
      fs.existsSync (lockFilePathOf h (extractTriggerId td)) = true →
      ((checkTriggerFile h filePath none w).run fs).state = w ∧
      ((checkTriggerFile h filePath none w).run fs).fs = fs ∧
      ((checkTriggerFile h filePath none w).run fs).error = none ∧
      ((checkTriggerFile h filePath none w).run fs).trace.all TraceItem.isRead = true ∧
      (w.focused = false → passesTagCheck td = true → td ≠ .null →
        ((checkTriggerFile h filePath none w).run fs).trace
          = [.existsSync filePath true, .readFileSync filePath (.ok (.json td)),
             .existsSync (lockFilePathOf h (extractTriggerId td)) true])) := by
  refine ⟨?_, ?_⟩
  · intro hlock
    cases hfp : fs.existsSync filePath with
    | false =>
      rw [checkTriggerFileWithLock_no_trigger h filePath td tid lock twh w fs hfp]
      exact ⟨rfl, rfl, rfl, rfl⟩
    | true =>
      rw [checkTriggerFileWithLock_locked h filePath td tid lock twh w fs hfp hlock]
      exact ⟨rfl, rfl, rfl, rfl⟩
  · intro hread hlock
    obtain ⟨h1, h2, h3⟩ := checkParsedTrigger_locked h filePath td w fs hlock
    rw [checkTriggerFile_run_parsed h filePath none w fs td hread]
    refine ⟨h1, h2, rfl, ?_, ?_⟩
    · simp [TraceItem.isRead, h3]
    · intro hf htag hnn
      rw [checkParsedTrigger_generic_unfocused h filePath td w hnn htag hf]
      simp [Prog.run, hlock]

/-- C23, at a window that is not focused and finds the lock file of request
`t1` next to the generic trigger file. -/
theorem lock_exists_abandons_witness :
    fsScoped.readFileSync "/tmp/review_gate_trigger.json" = .ok (.json quickReview) ∧
    fsScoped.existsSync (lockFilePathOf posixHost (extractTriggerId quickReview)) = true ∧
    (checkTriggerFile posixHost "/tmp/review_gate_trigger.json" none windowAUnfocused).run
      fsScoped =
      ⟨windowAUnfocused, none, fsScoped,
       [.existsSync "/tmp/review_gate_trigger.json" true,
        .readFileSync "/tmp/review_gate_trigger.json" (.ok (.json quickReview)),
        .existsSync "/tmp/review_gate_lock_t1.json" true]⟩ ∧
    ((checkTriggerFile posixHost "/tmp/review_gate_trigger.json" none windowAUnfocused).run
      fsScoped).state = windowAUnfocused :=
  ⟨rfl, rfl, rfl,
   ((lock_exists_abandons posixHost "/tmp/review_gate_trigger.json" quickReview none ""
      .null windowAUnfocused fsScoped).2 rfl rfl).1⟩

/-! ## After the lock file was created -/

/-- No call of `processTrigger` looks at the file system. -/
theorem processTrigger_no_read (h : Host) (filePath : String) (td : JVal) (tid : JsValue)
    (twh : JVal) (w : Window) (fs : FS) :
    ((processTrigger h filePath td tid twh w).run fs).trace.all (fun i => !i.isRead) = true := by
  obtain ⟨c1, c2, ackC, info, w1, e, _, hrun | ⟨w2, hrun⟩ | hrun⟩ :=
    processTrigger_run_shape h filePath td tid twh w fs
  · rw [hrun]
    rfl
  · rw [hrun]
    rfl
  · rw [hrun]
    rfl

/-- C24 (as stated, refuted): window `/Foo/Bar` finds the generic trigger file
and no lock file; then the trigger file is deleted (by whoever wrote it, or by
a competitor). The rest of `checkTriggerFileWithLock` creates the lock file
and dispatches all the same: the panel is opened and the acknowledgement
written without another look at the trigger file, whose removal then fails
with `ENOENT`. -/
theorem checkTriggerFileWithLock_dispatches_deleted_trigger :
    (((checkTriggerFileWithLock posixHost "/tmp/review_gate_trigger.json" quickReview
        (some (.str "t1")) "/tmp/review_gate_lock_t1.json" .null windowA).step1 fsGeneric).map
      fun x => x.1) = some (.existsSync "/tmp/review_gate_trigger.json" true) ∧
    (((Prog.advance
        (checkTriggerFileWithLock posixHost "/tmp/review_gate_trigger.json" quickReview
          (some (.str "t1")) "/tmp/review_gate_lock_t1.json" .null windowA, fsGeneric)).1.step1
        fsGeneric).map fun x => x.1) = some (.existsSync "/tmp/review_gate_lock_t1.json" false) ∧
    ((Prog.advance (Prog.advance
        (checkTriggerFileWithLock posixHost "/tmp/review_gate_trigger.json" quickReview
          (some (.str "t1")) "/tmp/review_gate_lock_t1.json" .null windowA, fsGeneric))).1.run
      (fsGeneric.remove "/tmp/review_gate_trigger.json")).trace
      = [.writeFileSync "/tmp/review_gate_lock_t1.json"
           (.json (.obj [("acquired_by", .str "/Foo/Bar"), ("workspace_hash", .str "1df481b1"),
                         ("timestamp", .str "2025-01-01T00:00:00.000Z"),
                         ("trigger_id", .str "t1")]))
           true (.ok ()),
         .host (.createWebviewPanel "Review Gate"),
         .host (.setHtml "Review Gate" true),
         .writeFileSync "/tmp/review_gate_ack_t1.json"
           (.json (.obj [("acknowledged", .bool true),
                         ("timestamp", .str "2025-01-01T00:00:00.000Z"),
                         ("trigger_id", .str "t1"), ("tool_type", .str "quick_review"),
                         ("extension", .str "review-gate-v2"), ("popup_activated", .bool true)]))
           false (.ok ()),
         .host (.showInformationMessage
           "Cursor Agent 触发了 \"QUICK REVIEW\" - Review Gate 弹窗已打开，等待您的输入！"),
         .unlinkSync "/tmp/review_gate_trigger.json" (.error (.fsError "ENOENT"))] := by
  exact ⟨rfl, rfl, rfl⟩

/-- C24 (amended): `checkTriggerFileWithLock` verifies that the trigger file
exists once, as its first call, before it tests and creates the lock file.
After it has created the lock file it dispatches without verifying again:
whatever the file system `fs2` is when the lock file is created (the trigger
file may be gone), the rest of the body is the creation of the lock file
followed by the calls of `processTrigger`, none of which looks at the file
system. -/
theorem checkTriggerFileWithLock_no_reverify (h : Host) (filePath : String) (td : JVal)
    (tid : JsValue) (lock : String) (twh : JVal) (w : Window) (fs fs2 : FS)
    (hfp : fs.existsSync filePath = true) (hlock : fs.existsSync lock = false)
    (hm : workspaceMatches h td w = .ok true)
    (hwrite : (fs2.writeFileSync lock (.json (lockData h w tid)) true).1 = .ok ()) :
    (((checkTriggerFileWithLock h filePath td tid lock twh w).step1 fs).map fun x => x.1)
      = some (.existsSync filePath true) ∧
    (((Prog.advance (checkTriggerFileWithLock h filePath td tid lock twh w, fs)).1.step1 fs).map
      fun x => x.1) = some (.existsSync lock false) ∧
    ((Prog.advance (Prog.advance
        (checkTriggerFileWithLock h filePath td tid lock twh w, fs))).1.run fs2).trace
      = .writeFileSync lock (.json (lockData h w tid)) true (.ok ()) ::
        ((processTrigger h filePath td tid twh w).run
          (fs2.writeFileSync lock (.json (lockData h w tid)) true).2).trace ∧
    ((processTrigger h filePath td tid twh w).run
      (fs2.writeFileSync lock (.json (lockData h w tid)) true).2).trace.all
        (fun i => !i.isRead) = true := by
  refine ⟨?_, ?_, ?_, processTrigger_no_read h filePath td tid twh w _⟩
  · simp [checkTriggerFileWithLock, Prog.tryCatch, Prog.step1, hfp]
  · simp [checkTriggerFileWithLock, Prog.tryCatch, Prog.step1, Prog.advance, hfp, hlock]
  · simp only [checkTriggerFileWithLock, Prog.tryCatch, Prog.step1, Prog.advance, hfp, hlock,
      hm, Bool.not_true, Bool.false_eq_true, if_false]
    simp only [Prog.run, hwrite, Prog.run_tryCatch_done, Prog.run_bind, Run.andThen]
    cases ((processTrigger h filePath td tid twh w).run
      (fs2.writeFileSync lock (.json (lockData h w tid)) true).2).error <;> simp [Prog.run]

/-- C24 (amended), at the quick-review request when the trigger file is
deleted after the two tests. -/
theorem checkTriggerFileWithLock_no_reverify_witness :
    fsGeneric.existsSync "/tmp/review_gate_trigger.json" = true ∧
    (fsGeneric.remove "/tmp/review_gate_trigger.json").existsSync
      "/tmp/review_gate_trigger.json" = false ∧
    ((Prog.advance (Prog.advance
        (checkTriggerFileWithLock posixHost "/tmp/review_gate_trigger.json" quickReview
          (some (.str "t1")) "/tmp/review_gate_lock_t1.json" .null windowA, fsGeneric))).1.run
      (fsGeneric.remove "/tmp/review_gate_trigger.json")).trace
      = .writeFileSync "/tmp/review_gate_lock_t1.json"
          (.json (lockData posixHost windowA (some (.str "t1")))) true (.ok ()) ::
        ((processTrigger posixHost "/tmp/review_gate_trigger.json" quickReview
          (some (.str "t1")) .null windowA).run
          ((fsGeneric.remove "/tmp/review_gate_trigger.json").writeFileSync
            "/tmp/review_gate_lock_t1.json"
            (.json (lockData posixHost windowA (some (.str "t1")))) true).2).trace :=
  ⟨rfl, rfl,
   (checkTriggerFileWithLock_no_reverify posixHost "/tmp/review_gate_trigger.json" quickReview
      (some (.str "t1")) "/tmp/review_gate_lock_t1.json" .null windowA fsGeneric
      (fsGeneric.remove "/tmp/review_gate_trigger.json") rfl rfl rfl rfl).2.2.1⟩

/-- C25 (as stated, refuted): a focused window creates the lock file for a
request without a tool name, and for a request without a data object. The
dispatch throws (for the first after the panel was opened and the
acknowledgement written, for the second at once), the exception is caught by
`checkTriggerFileWithLock`, and the statement that sets the 2000 ms timer is
never reached: no timer removes the lock file, which stays in the temp
directory next to the trigger file. -/
theorem checkTriggerFileWithLock_failed_dispatch_keeps_lock :
    ((checkTriggerFile posixHost "/tmp/review_gate_trigger.json" none windowA).run
      fsNoTool).state.timers = [(200, .postMessage .focus)] ∧
    (["/tmp/review_gate_lock_t5.json", "/tmp/review_gate_trigger.json"].map fun p =>
      (((checkTriggerFile posixHost "/tmp/review_gate_trigger.json" none windowA).run
        fsNoTool).fs.files p).isSome) = [true, true] ∧
    ((checkTriggerFile posixHost "/tmp/review_gate_trigger.json" none windowA).run
      fsNoData).state.timers = [] ∧
    (["/tmp/review_gate_lock_2025-01-01T00:00:00.000Z.json",
      "/tmp/review_gate_trigger.json"].map fun p =>
      (((checkTriggerFile posixHost "/tmp/review_gate_trigger.json" none windowA).run
        fsNoData).fs.files p).isSome) = [true, true] := by
  exact ⟨rfl, rfl, rfl, rfl⟩

/-- C25 (amended): when `checkTriggerFileWithLock` has created the lock file
and the dispatch returns normally, it sets one more timer: the removal of that
lock file after 2000 ms, which never throws. When the dispatch throws, the
exception is caught and the window is left as the dispatch left it: no timer
is set for the lock file. -/
theorem checkTriggerFileWithLock_schedules_unlock (h : Host) (filePath : String) (td : JVal)
    (tid : JsValue) (lock : String) (twh : JVal) (w : Window) (fs : FS)
    (hfp : fs.existsSync filePath = true) (hlock : fs.existsSync lock = false)
    (hm : workspaceMatches h td w = .ok true)
    (hwrite : (fs.writeFileSync lock (.json (lockData h w tid)) true).1 = .ok ()) :
    (((processTrigger h filePath td tid twh w).run
        (fs.writeFileSync lock (.json (lockData h w tid)) true).2).error = none →
      ((checkTriggerFileWithLock h filePath td tid lock twh w).run fs).state.timers
        = ((processTrigger h filePath td tid twh w).run
            (fs.writeFileSync lock (.json (lockData h w tid)) true).2).state.timers
          ++ [(2000, .unlinkLock lock)]) ∧
    (((processTrigger h filePath td tid twh w).run
        (fs.writeFileSync lock (.json (lockData h w tid)) true).2).error ≠ none →
      ((checkTriggerFileWithLock h filePath td tid lock twh w).run fs).state
        = ((processTrigger h filePath td tid twh w).run
            (fs.writeFileSync lock (.json (lockData h w tid)) true).2).state) ∧
    ((checkTriggerFileWithLock h filePath td tid lock twh w).run fs).error = none ∧
    (∀ (w2 : Window) (fs2 : FS),
      ((TimerAction.fire h (.unlinkLock lock) w2).run fs2).error = none ∧
      ((TimerAction.fire h (.unlinkLock lock) w2).run fs2).trace
        = [.unlinkSync lock (fs2.unlinkSync lock).1]) := by
  rw [checkTriggerFileWithLock_acquired h filePath td tid lock twh w fs hfp hlock hm hwrite]
  refine ⟨?_, ?_, rfl, fun w2 fs2 => ⟨rfl, rfl⟩⟩
  · intro herr
    simp [herr, Window.setTimeout]
  · intro herr
    cases herr2 : ((processTrigger h filePath td tid twh w).run
        (fs.writeFileSync lock (.json (lockData h w tid)) true).2).error with
    | none => exact absurd herr2 herr
    | some e => simp

/-- C25 (amended), at the quick-review request: the timer is set. -/
theorem checkTriggerFileWithLock_schedules_unlock_witness :
    ((processTrigger posixHost "/tmp/review_gate_trigger.json" quickReview (some (.str "t1"))
        .null windowA).run
      (fsGeneric.writeFileSync "/tmp/review_gate_lock_t1.json"
        (.json (lockData posixHost windowA (some (.str "t1")))) true).2).error = none ∧
    ((checkTriggerFileWithLock posixHost "/tmp/review_gate_trigger.json" quickReview
        (some (.str "t1")) "/tmp/review_gate_lock_t1.json" .null windowA).run
      fsGeneric).state.timers
      = [(200, .postMessage .focus), (2000, .unlinkLock "/tmp/review_gate_lock_t1.json")] :=
  ⟨by rfl,
   (checkTriggerFileWithLock_schedules_unlock posixHost "/tmp/review_gate_trigger.json"
      quickReview (some (.str "t1")) "/tmp/review_gate_lock_t1.json" .null windowA fsGeneric
      rfl rfl rfl rfl).1 (by rfl)⟩

/-! ## Replies that produce no response -/

theorem FS.appendFileSync_error_fs (fs : FS) (p s : String) (e : JsError)
    (he : (fs.appendFileSync p s).1 = .error e) : (fs.appendFileSync p s).2 = fs := by
  unfold FS.appendFileSync at he ⊢
  cases hf : fs.fault .append p with
  | some code => rfl
  | none =>
    rw [hf] at he
    cases hfile : fs.files p with
    | none => simp [hfile] at he
    | some content => cases content <;> simp [hfile] at he

/-- C26: in `logUserInput` the response files are written only after the append
to the input log has succeeded. If the append fails, the failure is caught and
logged and the function returns: no write is made and the file system is as
before, for every event and trigger id (an MCP response with a trigger id
included). So a run that makes a write is one whose append succeeded. -/
theorem logUserInput_append_gates_responses (h : Host) (inputText : JsValue)
    (eventType : String) (triggerId attachments : JsValue) (w : Window) (fs : FS) (e : JsError)
    (happend : (fs.appendFileSync (userInputsLog h)
      (logLine h eventType inputText ++ "\n")).1 = .error e) :
    (logUserInput h inputText eventType triggerId attachments w).run fs
      = ⟨w, none, fs,
         [.host (.appendLine (logLine h eventType inputText)),
          .appendFileSync (userInputsLog h) (logLine h eventType inputText ++ "\n") (.error e),
          .host (.appendLine
            ("[" ++ h.nowIso ++ "] " ++ ("Could not write to Review Gate log file: "
              ++ e.message)))]⟩ ∧
    ((logUserInput h inputText eventType triggerId attachments w).run fs).trace.any
      TraceItem.isWrite = false := by
  have hfs := FS.appendFileSync_error_fs _ _ _ _ happend
  have hrun : (logUserInput h inputText eventType triggerId attachments w).run fs
      = ⟨w, none, fs,
         [.host (.appendLine (logLine h eventType inputText)),
          .appendFileSync (userInputsLog h) (logLine h eventType inputText ++ "\n") (.error e),
          .host (.appendLine
            ("[" ++ h.nowIso ++ "] " ++ ("Could not write to Review Gate log file: "
              ++ e.message)))]⟩ := by
    simp [logUserInput, Prog.run, Prog.tryCatch, happend, hfs, logMessage]
  rw [hrun]
  exact ⟨rfl, rfl⟩

/-- C26, at the reply `ship it` to request `t9` in MCP mode when the input log
cannot be appended to. -/
theorem logUserInput_append_gates_responses_witness :
    truthy (some (.str "t9")) = true ∧
    (fsLogDenied.appendFileSync (userInputsLog posixHost)
      (logLine posixHost "MCP_RESPONSE" (some (.str "ship it")) ++ "\n")).1
      = .error (.fsError "EACCES") ∧
    ((logUserInput posixHost (some (.str "ship it")) "MCP_RESPONSE" (some (.str "t9"))
        (some (.arr [] [])) windowA).run fsLogDenied).trace.any TraceItem.isWrite = false :=
  ⟨rfl, rfl,
   (logUserInput_append_gates_responses posixHost (some (.str "ship it")) "MCP_RESPONSE"
      (some (.str "t9")) (some (.arr [] [])) windowA fsLogDenied (.fsError "EACCES") rfl).2⟩

/-- Only an MCP response with a trigger id makes `logUserInput` write. -/
theorem logUserInput_no_write (h : Host) (inputText : JsValue) (eventType : String)
    (triggerId attachments : JsValue) (w : Window) (fs : FS)
    (hne : (truthy (some (triggerId.getD .null)) && eventType == "MCP_RESPONSE") = false) :
    ((logUserInput h inputText eventType triggerId attachments w).run fs).trace.any
      TraceItem.isWrite = false := by
  unfold logUserInput
  simp only [Prog.run, Prog.tryCatch]
  cases hr : (fs.appendFileSync (userInputsLog h) (logLine h eventType inputText ++ "\n")).1 with
  | error e => simp [Prog.tryCatch, logMessage, Prog.run, TraceItem.isWrite]
  | ok u => simp [hne, Prog.tryCatch, Prog.run, TraceItem.isWrite]

/-- `handleReviewMessage` writes no file: the events it logs are not MCP
responses. -/
theorem handleReviewMessage_no_write (h : Host) (text attachments triggerId : JsValue)
    (mcpIntegration : Bool) (specialHandling : JVal) (w : Window) (fs : FS) :
    ((handleReviewMessage h text attachments triggerId mcpIntegration specialHandling w).run
      fs).trace.any TraceItem.isWrite = false := by
  have hbind : ∀ (t : JsValue) (ev : String) (f : Window → Window),
      (ev == "MCP_RESPONSE") = false →
      (((logUserInput h t ev triggerId none w).bind fun w1 => Prog.done (f w1)).run
        fs).trace.any TraceItem.isWrite = false := by
    intro t ev f hev
    rw [Prog.run_bind]
    have hno := logUserInput_no_write h t ev triggerId none w fs (by simp [hev])
    generalize (logUserInput h t ev triggerId none w).run fs = r at hno ⊢
    unfold Run.andThen
    cases hre : r.error with
    | some e => simpa [hre] using hno
    | none =>
      simp only [hre, Prog.run, List.append_nil]
      exact hno
  unfold handleReviewMessage
  split
  · split
    · split
      · exact hbind _ _ _ (by decide)
      · exact hbind _ _ _ (by decide)
    · rfl
  · split
    · exact hbind _ _ _ (by decide)
    · rfl

/-! ## The panel between requests -/

/-- The state a popup call leaves when a panel is already open: the MCP flag is
the one of the call, the trigger context changes only for a truthy trigger id,
and the panel keeps what it captured when it was created. -/
theorem openReviewGatePopup_reuse (opts : PopupOptions) (w : Window) (fs : FS) (panel : Panel)
    (hpanel : w.chatPanel = some panel) :
    ((openReviewGatePopup opts w).run fs).state.currentMcpIntegration = opts.mcpIntegration ∧
    ((openReviewGatePopup opts w).run fs).state.chatPanel
      = some { panel with title := "Review Gate" } ∧
    (truthy (some (opts.triggerId.getD .null)) = false →
      ((openReviewGatePopup opts w).run fs).state.currentTriggerData = w.currentTriggerData) := by
  unfold openReviewGatePopup
  simp only [hpanel, Prog.run]
  refine ⟨?_, ?_, ?_⟩
  · cases opts.mcpIntegration <;> cases opts.autoFocus <;>
      cases truthy (some (opts.triggerId.getD .null)) <;>
      cases truthy (some (opts.message.getD
        (.str "Welcome to Review Gate V2! Please provide your review or feedback."))) <;>
      simp [Window.setTimeout]
  · cases opts.mcpIntegration <;> cases opts.autoFocus <;>
      cases truthy (some (opts.triggerId.getD .null)) <;>
      cases truthy (some (opts.message.getD
        (.str "Welcome to Review Gate V2! Please provide your review or feedback."))) <;>
      simp [Window.setTimeout]
  · intro hid
    cases opts.mcpIntegration <;> cases opts.autoFocus <;>
      cases truthy (some (opts.message.getD
        (.str "Welcome to Review Gate V2! Please provide your review or feedback."))) <;>
      simp [Window.setTimeout, hid]

/-- The first call of `logUserInput` is the line it puts on the output
channel. -/
theorem logUserInput_trace_head (h : Host) (inputText : JsValue) (eventType : String)
    (triggerId attachments : JsValue) (w : Window) (fs : FS) :
    ((logUserInput h inputText eventType triggerId attachments w).run fs).trace.head?
      = some (.host (.appendLine (logLine h eventType inputText))) := by
  simp [logUserInput, Prog.run]

theorem Run.andThen_trace_head {σ : Type} (r : Run σ) (f : σ → Prog σ) (item : TraceItem)
    (hitem : r.trace.head? = some item) : (r.andThen f).trace.head? = some item := by
  unfold Run.andThen
  cases r.error with
  | some e => exact hitem
  | none =>
    cases hr : r.trace with
    | nil => simp [hr] at hitem
    | cons x xs =>
      rw [hr] at hitem
      simpa using hitem

theorem Run.andThen_no_write {σ : Type} (r : Run σ) (f : σ → Prog σ)
    (hr : r.trace.any TraceItem.isWrite = false)
    (hf : ∀ s fs, ((f s).run fs).trace.any TraceItem.isWrite = false) :
    (r.andThen f).trace.any TraceItem.isWrite = false := by
  unfold Run.andThen
  cases r.error with
  | some e => exact hr
  | none =>
    simp only [List.any_append, hr, Bool.false_or]
    exact hf _ _

/-- C27: when the command `reviewGate.openChat` runs while a panel is open, the
MCP flag of the module is reset to false, the trigger context and the panel are
kept, and the next reply is logged as `REVIEW_SUBMITTED` and writes no file,
whatever the pending trigger id. -/
theorem openChat_resets_mcp_integration (h : Host) (now : Int) (w : Window) (panel : Panel)
    (text attachments : JsValue) (fs fs2 : FS) (hpanel : w.chatPanel = some panel) :
    ((openChatCommand w).run fs).state.currentMcpIntegration = false ∧
    ((openChatCommand w).run fs).state.currentTriggerData = w.currentTriggerData ∧
    ((openChatCommand w).run fs).state.chatPanel = some { panel with title := "Review Gate" } ∧
    ((openChatCommand w).run fs).error = none ∧
    ((onDidReceiveMessage h now (.send text attachments)
        ((openChatCommand w).run fs).state).run fs2).trace.head?
      = some (.host (.appendLine (logLine h "REVIEW_SUBMITTED" text))) ∧
    ((onDidReceiveMessage h now (.send text attachments)
        ((openChatCommand w).run fs).state).run fs2).trace.any TraceItem.isWrite = false := by
  obtain ⟨hmcp, hp, htd⟩ := openReviewGatePopup_reuse
    { message := some (.str "Welcome to Review Gate V2! Please provide your review or feedback."),
      title := some (.str "Review Gate") } w fs panel hpanel
  have herr := (openReviewGatePopup_run_eq
    { message := some (.str "Welcome to Review Gate V2! Please provide your review or feedback."),
      title := some (.str "Review Gate") } w fs).1
  have htd2 := htd (by simp [truthy])
  change ((openChatCommand w).run fs).state.currentMcpIntegration = false at hmcp
  change ((openChatCommand w).run fs).state.chatPanel = _ at hp
  change ((openChatCommand w).run fs).state.currentTriggerData = _ at htd2
  change ((openChatCommand w).run fs).error = none at herr
  refine ⟨hmcp, htd2, hp, herr, ?_, ?_⟩
  · generalize ((openChatCommand w).run fs).state = st at hmcp hp
    unfold onDidReceiveMessage
    simp only [hp, hmcp, Prog.run_bind]
    exact Run.andThen_trace_head _ _ _ (logUserInput_trace_head _ _ _ _ _ _ _)
  · generalize ((openChatCommand w).run fs).state = st at hmcp hp
    unfold onDidReceiveMessage
    simp only [hp, hmcp, Prog.run_bind]
    refine Run.andThen_no_write _ _ (logUserInput_no_write _ _ _ _ _ _ _ (by simp)) ?_
    intro s fs3
    exact handleReviewMessage_no_write _ _ _ _ _ _ _ _

/-- C27, in the window that claimed the quick-review request `t1`: before the
command the window is in MCP mode with the context of `t1`; after it the reply
`looks good` is logged as `REVIEW_SUBMITTED` and nothing is written. -/
theorem openChat_resets_mcp_integration_witness :
    windowClaimed.currentMcpIntegration = true ∧
    optMember windowClaimed.currentTriggerData "trigger_id" = some (.str "t1") ∧
    ((openChatCommand windowClaimed).run emptyFS).state.currentMcpIntegration = false ∧
    optMember ((openChatCommand windowClaimed).run emptyFS).state.currentTriggerData "trigger_id"
      = some (.str "t1") ∧
    ((onDidReceiveMessage posixHost 0 (.send (some (.str "looks good")) none)
        ((openChatCommand windowClaimed).run emptyFS).state).run emptyFS).trace.head?
      = some (.host (.appendLine "[2025-01-01T00:00:00.000Z] REVIEW_SUBMITTED: looks good")) ∧
    ((onDidReceiveMessage posixHost 0 (.send (some (.str "looks good")) none)
        ((openChatCommand windowClaimed).run emptyFS).state).run emptyFS).trace.any
      TraceItem.isWrite = false :=
  have hp : windowClaimed.chatPanel = some
      { title := "Review Gate", htmlTitle := "Review Gate", htmlMcpIntegration := true,
        message := .str "Is this ok?",
        toolData := windowClaimed.currentTriggerData.getD .null,
        mcpIntegration := true, triggerId := .str "t1", specialHandling := .str "quick_review" } :=
    rfl
  have hthm := openChat_resets_mcp_integration posixHost 0 windowClaimed _
    (some (.str "looks good")) none emptyFS emptyFS hp
  ⟨rfl, rfl, hthm.1, rfl, hthm.2.2.2.2.1, hthm.2.2.2.2.2⟩

/-- A dispatch into a window whose panel is open leaves the panel with the
trigger id and the tag it captured when it was created. -/
theorem handleReviewGateToolCall_reuse (h : Host) (toolData : JsValue) (w : Window) (fs : FS)
    (panel : Panel) (hpanel : w.chatPanel = some panel) :
    ∃ panel2, ((handleReviewGateToolCall h toolData w).run fs).state.chatPanel = some panel2 ∧
      panel2.specialHandling = panel.specialHandling ∧ panel2.triggerId = panel.triggerId := by
  cases toolData with
  | none => exact ⟨panel, by simp [handleReviewGateToolCall, Prog.run, hpanel], rfl, rfl⟩
  | some td =>
    by_cases hnn : td = .null
    · subst hnn
      exact ⟨panel, by simp [handleReviewGateToolCall, Prog.run, hpanel], rfl, rfl⟩
    · cases hopts : popupOptionsFor h td with
      | error e =>
        obtain ⟨e2, hrun⟩ := handleReviewGateToolCall_run_error h td w fs e hopts
        exact ⟨panel, by rw [hrun]; exact hpanel, rfl, rfl⟩
      | ok opts =>
        rw [handleReviewGateToolCall_run_eq h td w fs opts hnn hopts]
        exact ⟨{ panel with title := "Review Gate" },
          (openReviewGatePopup_reuse _ w fs panel hpanel).2.1, rfl, rfl⟩

/-- C28: the tag that interprets a reply is the one the panel captured when it
was created. A request dispatched into a window whose panel is open reuses the
panel, whatever its tool, and the reply handler passes the tag of the panel,
not one of the request, to `handleReviewMessage`. -/
theorem reply_uses_tag_of_panel_creation (h : Host) (now : Int) (toolData : JsValue)
    (w : Window) (fs : FS) (panel : Panel) (text attachments : JsValue)
    (hpanel : w.chatPanel = some panel) :
    ∃ panel2, ((handleReviewGateToolCall h toolData w).run fs).state.chatPanel = some panel2 ∧
      panel2.specialHandling = panel.specialHandling ∧
      onDidReceiveMessage h now (.send text attachments)
          ((handleReviewGateToolCall h toolData w).run fs).state
        = (logUserInput h text
            (if ((handleReviewGateToolCall h toolData w).run fs).state.currentMcpIntegration
              then "MCP_RESPONSE" else "REVIEW_SUBMITTED")
            (jsOr
              (jsAnd ((handleReviewGateToolCall h toolData w).run fs).state.currentTriggerData
                (optMember ((handleReviewGateToolCall h toolData w).run fs).state.currentTriggerData
                  "trigger_id"))
              (some panel.triggerId))
            (jsOr attachments (some (.arr [] [])))
            ((handleReviewGateToolCall h toolData w).run fs).state).bind fun w1 =>
          handleReviewMessage h text attachments
            (jsOr
              (jsAnd ((handleReviewGateToolCall h toolData w).run fs).state.currentTriggerData
                (optMember ((handleReviewGateToolCall h toolData w).run fs).state.currentTriggerData
                  "trigger_id"))
              (some panel.triggerId))
            w1.currentMcpIntegration panel.specialHandling w1 := by
  obtain ⟨panel2, hp2, hsh, htid⟩ := handleReviewGateToolCall_reuse h toolData w fs panel hpanel
  refine ⟨panel2, hp2, hsh, ?_⟩
  generalize ((handleReviewGateToolCall h toolData w).run fs).state = st at hp2
  unfold onDidReceiveMessage
  simp only [hp2, hsh, htid]

/-- C28, for a shutdown request that arrives in the panel created for a chat
request: the panel keeps the tag `null` of the chat request, so the reply
`CONFIRM` is handled as an ordinary MCP reply and not as the confirmation of
the shutdown, which is what `handleReviewMessage` makes of it under the tag
`shutdown_mcp`. -/
theorem reply_uses_tag_of_panel_creation_witness :
    (windowChat.chatPanel.map fun p => p.specialHandling) = some .null ∧
    (popupOptionsFor posixHost shutdownRequest).toOption.map (fun o => o.specialHandling)
      = some (some (.str "shutdown_mcp")) ∧
    (∃ panel2,
      ((handleReviewGateToolCall posixHost (some shutdownRequest) windowChat).run
        emptyFS).state.chatPanel = some panel2 ∧
      panel2.specialHandling = .null) ∧
    ((onDidReceiveMessage posixHost 0 (.send (some (.str "CONFIRM")) none)
        ((handleReviewGateToolCall posixHost (some shutdownRequest) windowChat).run
          emptyFS).state).run emptyFS).trace.filterMap TraceItem.logged
      = ["[2025-01-01T00:00:00.000Z] MCP_RESPONSE: CONFIRM",
         "[2025-01-01T00:00:00.000Z] MCP response written: /tmp/review_gate_response_1df481b1_t7.json",
         "[2025-01-01T00:00:00.000Z] MCP response written: /tmp/review_gate_response_t7.json",
         "[2025-01-01T00:00:00.000Z] MCP response written: /tmp/review_gate_response.json",
         "[2025-01-01T00:00:00.000Z] MCP response written: /tmp/mcp_response_t7.json",
         "[2025-01-01T00:00:00.000Z] MCP response written: /tmp/mcp_response.json",
         "MCP回复 已提交: CONFIRM"] ∧
    ((handleReviewMessage posixHost (some (.str "CONFIRM")) none (some (.str "t7")) true
        (.str "shutdown_mcp") windowChat).run emptyFS).trace.filterMap TraceItem.logged
      = ["[2025-01-01T00:00:00.000Z] SHUTDOWN_CONFIRMED: SHUTDOWN CONFIRMED: CONFIRM"] :=
  have hp : windowChat.chatPanel = some
      { title := "Review Gate", htmlTitle := "Review Gate", htmlMcpIntegration := true,
        message := .str "Anything to add?", toolData := chatRequest,
        mcpIntegration := true, triggerId := .str "t6", specialHandling := .null } := rfl
  have hthm := reply_uses_tag_of_panel_creation posixHost 0 (some shutdownRequest) windowChat
    emptyFS _ (some (.str "CONFIRM")) none hp
  ⟨rfl, rfl, hthm.imp fun _ hx => ⟨hx.1, hx.2.1⟩, rfl, rfl⟩

/-! ## The force-kill timer -/

/-- C29: the force-kill timer that `stopNodeRecording` sets carries no
recording: when it fires it looks at the recording that is current then. So
the stop of a recording sets the 3000 ms timer, and in whatever state the
timer fires, if a recording with a process id is current (the one started
after the stopped process exited included), that recording is sent `SIGKILL`
and the recording handle is cleared. -/
theorem forceKill_acts_on_current_recording (h : Host) (now : Int) (triggerId newId : JsValue)
    (w0 w : Window) (fs0 fs1 fs : FS) (stopped : Recording) (pid : Nat)
    (hstopped : w0.currentRecording = some stopped)
    (hnone : w.currentRecording = none) (hpid : pid ≠ 0) :
    ((stopNodeRecording triggerId w0).run fs0).state.timers
      = w0.timers ++ [(3000, .forceKill)] ∧
    ((startNodeRecording h now (.ok ()) (some pid) newId w).run fs1).state.currentRecording
      = some { pid := some pid,
               audioFile := getTempPath h
                 ("review_gate_audio_" ++ renderJs newId ++ "_" ++ toString now ++ ".wav"),
               triggerId := newId, exitListeners := [] } ∧
    (TimerAction.fire h .forceKill
        ((startNodeRecording h now (.ok ()) (some pid) newId w).run fs1).state).run fs
      = ⟨{ ((startNodeRecording h now (.ok ()) (some pid) newId w).run fs1).state with
            currentRecording := none },
         none, fs, [.host (.kill (some pid) "SIGKILL")]⟩ := by
  have hstart :
      ((startNodeRecording h now (.ok ()) (some pid) newId w).run fs1).state.currentRecording
        = some { pid := some pid,
                 audioFile := getTempPath h
                   ("review_gate_audio_" ++ renderJs newId ++ "_" ++ toString now ++ ".wav"),
                 triggerId := newId, exitListeners := [] } := by
    unfold startNodeRecording
    simp only [hnone]
    cases hp : w.chatPanel <;> simp [postIfPanel, hp, Prog.run]
  refine ⟨?_, hstart, ?_⟩
  · simp [stopNodeRecording, hstopped, Prog.run, Window.setTimeout]
  · generalize ((startNodeRecording h now (.ok ()) (some pid) newId w).run fs1).state = st
      at hstart
    simp [TimerAction.fire, hstart, hpid, Prog.run]

/-- C29, in the window that stopped the recording of process 4242 and started
the recording of process 4343 before the timer of the stop expired: the timer
is pending, and firing it kills process 4343 and leaves no recording. -/
theorem forceKill_acts_on_current_recording_witness :
    (windowRecording.currentRecording.map fun r => r.pid) = some (some 4242) ∧
    windowStopped.currentRecording = none ∧
    windowRestarted.timers
      = windowA.timers ++
        [(3000, .forceKill),
         (1000, .checkAudioFile "/tmp/review_gate_audio_t1_0.wav" (some (.str "t1")))] ∧
    (windowRestarted.currentRecording.map fun r => r.pid) = some (some 4343) ∧
    ((TimerAction.fire posixHost .forceKill windowRestarted).run emptyFS).trace
      = [.host (.kill (some 4343) "SIGKILL")] ∧
    ((TimerAction.fire posixHost .forceKill windowRestarted).run emptyFS).state.currentRecording
      = none :=
  have hrec : windowRecording.currentRecording = some
      { pid := some 4242, audioFile := "/tmp/review_gate_audio_t1_0.wav",
        triggerId := some (.str "t1"), exitListeners := [] } := rfl
  have hnone : windowStopped.currentRecording = none := rfl
  have hthm := forceKill_acts_on_current_recording posixHost 5 (some (.str "t1"))
    (some (.str "t2")) windowRecording windowStopped fsSmallAudio emptyFS emptyFS _ 4343
    hrec hnone (by decide)
  ⟨rfl, hnone, rfl, rfl, congrArg Run.trace hthm.2.2,
   congrArg (fun r => r.state.currentRecording) hthm.2.2⟩

/-! ## The transcription poll -/

theorem List.getElem?_append_length_self {α : Type} (l : List α) (a : α) :
    (l ++ [a])[l.length]? = some a := by
  induction l with
  | nil => rfl
  | cons x xs ih => simp

theorem List.eraseIdx_append_length_self {α : Type} (l : List α) (a : α) :
    (l ++ [a]).eraseIdx l.length = l := by
  induction l with
  | nil => rfl
  | cons x xs ih => simp [List.eraseIdx, ih]

theorem List.set_of_getElem? {α : Type} (l : List α) (k : Nat) (a : α)
    (hk : l[k]? = some a) : l.set k a = l := by
  induction l generalizing k with
  | nil => rfl
  | cons x xs ih =>
    cases k with
    | zero =>
      simp at hk
      simp [hk]
    | succ n =>
      simp at hk
      simp [ih n hk]

theorem List.getElem?_set_of_getElem? {α : Type} (l : List α) (k : Nat) (a b : α)
    (hk : l[k]? = some a) : (l.set k b)[k]? = some b := by
  induction l generalizing k with
  | nil => simp at hk
  | cons x xs ih =>
    cases k with
    | zero => simp
    | succ n =>
      simp at hk
      simpa using ih n hk

theorem List.eraseIdx_set_self {α : Type} (l : List α) (k : Nat) (b : α) :
    (l.set k b).eraseIdx k = l.eraseIdx k := by
  induction l generalizing k with
  | nil => rfl
  | cons x xs ih =>
    cases k with
    | zero => simp [List.eraseIdx]
    | succ n => simp [List.eraseIdx, ih n]

/-- A poll that does not find the response file before the deadline only
advances its wait time. -/
theorem speechPollTick_absent_early (h : Host) (k : Nat) (w : Window) (fs : FS)
    (poll : SpeechPoll) (hpoll : w.speechPolls[k]? = some poll)
    (habsent : fs.existsSync (speechResultFile h poll.triggerId) = false)
    (hearly : poll.waitTime + 500 < 30000) :
    (speechPollTick h k w).run fs
      = ⟨{ w with speechPolls :=
            w.speechPolls.set k { poll with waitTime := poll.waitTime + 500 } },
         none, fs, [.existsSync (speechResultFile h poll.triggerId) false]⟩ := by
  have hnot : ¬ (poll.waitTime + 500 ≥ 30000) := by omega
  simp [speechPollTick, hpoll, Prog.run, habsent, Prog.bind, hnot]

/-- A poll that does not find the response file at the deadline posts the
empty transcription to the open panel, stops and removes the speech trigger
file. -/
theorem speechPollTick_absent_last (h : Host) (k : Nat) (w : Window) (fs : FS)
    (poll : SpeechPoll) (hpoll : w.speechPolls[k]? = some poll)
    (habsent : fs.existsSync (speechResultFile h poll.triggerId) = false)
    (hlast : 30000 ≤ poll.waitTime + 500) :
    (speechPollTick h k w).run fs
      = ⟨{ w with speechPolls := w.speechPolls.eraseIdx k }, none,
         (fs.unlinkSync poll.triggerFile).2,
         .existsSync (speechResultFile h poll.triggerId) false ::
           ((if w.chatPanel.isSome then [.host (.postMessage (.speechTranscribed "" none))]
             else []) ++
            [.unlinkSync poll.triggerFile (fs.unlinkSync poll.triggerFile).1])⟩ := by
  have hge : poll.waitTime + 500 ≥ 30000 := hlast
  cases hp : w.chatPanel <;>
    simp [speechPollTick, hpoll, Prog.run, habsent, Prog.bind, hge, postIfPanel, hp]

theorem speechPollTicks_append (h : Host) (k : Nat) (xs ys : List FS) (w : Window) :
    speechPollTicks h k (xs ++ ys) w
      = ((speechPollTicks h k ys (speechPollTicks h k xs w).1).1,
         (speechPollTicks h k xs w).2 ++ (speechPollTicks h k ys (speechPollTicks h k xs w).1).2) := by
  induction xs generalizing w with
  | nil => simp [speechPollTicks]
  | cons x xs ih => simp [speechPollTicks, ih]

/-- Polls that do not find the response file and stay before the deadline make
one existence test each and leave the poll registered, with its wait time
advanced by 500 ms per poll. -/
theorem speechPollTicks_absent (h : Host) (k : Nat) (fss : List FS) (w : Window)
    (poll : SpeechPoll) (hpoll : w.speechPolls[k]? = some poll)
    (habsent : ∀ fs ∈ fss, fs.existsSync (speechResultFile h poll.triggerId) = false)
    (hearly : poll.waitTime + 500 * fss.length < 30000) :
    speechPollTicks h k fss w
      = ({ w with speechPolls :=
            w.speechPolls.set k { poll with waitTime := poll.waitTime + 500 * fss.length } },
         List.replicate fss.length (.existsSync (speechResultFile h poll.triggerId) false)) := by
  induction fss generalizing w poll with
  | nil =>
    simp only [speechPollTicks, List.length_nil, Nat.mul_zero, Nat.add_zero, List.replicate]
    rw [List.set_of_getElem? _ _ _ hpoll]
  | cons fs rest ih =>
    have hfs := habsent fs (List.mem_cons_self _ _)
    have hrest : ∀ x ∈ rest, x.existsSync (speechResultFile h poll.triggerId) = false :=
      fun x hx => habsent x (List.mem_cons_of_mem _ hx)
    simp only [List.length_cons] at hearly ⊢
    have htick := speechPollTick_absent_early h k w fs poll hpoll hfs (by omega)
    simp only [speechPollTicks, htick]
    have hnext := ih
      { w with speechPolls := w.speechPolls.set k { poll with waitTime := poll.waitTime + 500 } }
      { poll with waitTime := poll.waitTime + 500 }
      (List.getElem?_set_of_getElem? _ _ _ _ hpoll) hrest (by simp only []; omega)
    rw [hnext]
    simp only [List.set_set, List.replicate, List.cons_append, List.nil_append]
    have hw : poll.waitTime + 500 + 500 * rest.length = poll.waitTime + 500 * (rest.length + 1) := by
      omega
    rw [hw]

/-- A transcription request whose trigger file could be written registers a
poll with wait time 0. -/
theorem handleSpeechToText_state (h : Host) (audioFile : String) (triggerId : JsValue)
    (w : Window) (fs : FS)
    (hwrite : (fs.writeFileSync (speechTriggerFile h triggerId)
      (.json (transcriptionRequest h audioFile triggerId)) false).1 = .ok ()) :
    ((handleSpeechToText h audioFile triggerId w).run fs).state
      = { w with speechPolls := w.speechPolls ++
            [{ triggerId := triggerId, triggerFile := speechTriggerFile h triggerId,
               waitTime := 0 }] } := by
  simp [handleSpeechToText, Prog.run, hwrite]

theorem speechPollTicks_single (h : Host) (k : Nat) (fs : FS) (w : Window) :
    speechPollTicks h k [fs] w
      = (((speechPollTick h k w).run fs).state, ((speechPollTick h k w).run fs).trace) := by
  simp [speechPollTicks]

/-- Sixty polls that do not find the response file: 59 existence tests, then
the poll of the deadline. -/
theorem speechPollTicks_timeout (h : Host) (k : Nat) (w : Window) (poll : SpeechPoll)
    (fss : List FS) (fsLast : FS) (hpoll : w.speechPolls[k]? = some poll)
    (hzero : poll.waitTime = 0) (hlen : fss.length = 59)
    (habsent : ∀ fs ∈ fss ++ [fsLast],
      fs.existsSync (speechResultFile h poll.triggerId) = false) :
    speechPollTicks h k fss w
      = ({ w with speechPolls := w.speechPolls.set k { poll with waitTime := 29500 } },
         List.replicate 59 (.existsSync (speechResultFile h poll.triggerId) false)) ∧
    speechPollTicks h k (fss ++ [fsLast]) w
      = ({ w with speechPolls := w.speechPolls.eraseIdx k },
         List.replicate 59 (.existsSync (speechResultFile h poll.triggerId) false) ++
           (.existsSync (speechResultFile h poll.triggerId) false ::
             ((if w.chatPanel.isSome then [.host (.postMessage (.speechTranscribed "" none))]
               else []) ++
              [.unlinkSync poll.triggerFile (fsLast.unlinkSync poll.triggerFile).1]))) := by
  have h59 := speechPollTicks_absent h k fss w poll hpoll
    (fun fs hfs => habsent fs (List.mem_append_left _ hfs)) (by rw [hzero, hlen]; decide)
  rw [hzero, hlen] at h59
  have hpoll59 := List.getElem?_set_of_getElem? w.speechPolls k poll
    { poll with waitTime := 29500 } hpoll
  have hlast := speechPollTick_absent_last h k
    { w with speechPolls := w.speechPolls.set k { poll with waitTime := 29500 } } fsLast
    { poll with waitTime := 29500 } hpoll59 (habsent fsLast (by simp)) (Nat.le_refl 30000)
  refine ⟨h59, ?_⟩
  rw [speechPollTicks_append, speechPollTicks_single, h59]
  simp only [hlast, List.eraseIdx_set_self]

theorem filterMap_posted_replicate (p : String) (b : Bool) (n : Nat) :
    (List.replicate n (TraceItem.existsSync p b)).filterMap TraceItem.posted = [] := by
  induction n with
  | zero => rfl
  | succ m ih => simp [List.replicate, TraceItem.posted]

theorem filterMap_unlinked_replicate (p : String) (b : Bool) (n : Nat) :
    (List.replicate n (TraceItem.existsSync p b)).filterMap TraceItem.unlinked = [] := by
  induction n with
  | zero => rfl
  | succ m ih => simp [List.replicate, TraceItem.unlinked]

/-- C21: after `handleSpeechToText` wrote the speech trigger file, if the
response file is absent at each of the 60 polls, then the first 59 polls post
nothing and leave the poll running (at 29500 ms), and over the 60 polls the
open panel is posted the empty transcription exactly once, the only file
removed is the speech trigger file, removed once, the poll is no longer
registered, and the audio file is not deleted. -/
theorem speech_poll_times_out (h : Host) (audioFile : String) (triggerId : JsValue)
    (w : Window) (fs0 : FS) (fss : List FS) (fsLast : FS)
    (hwrite : (fs0.writeFileSync (speechTriggerFile h triggerId)
      (.json (transcriptionRequest h audioFile triggerId)) false).1 = .ok ())
    (hlen : fss.length = 59)
    (habsent : ∀ fs ∈ fss ++ [fsLast], fs.existsSync (speechResultFile h triggerId) = false)
    (haudio : audioFile ≠ speechTriggerFile h triggerId) :
    ((speechPollTicks h w.speechPolls.length fss
        ((handleSpeechToText h audioFile triggerId w).run fs0).state).1.speechPolls.map
      fun p => p.waitTime)[w.speechPolls.length]? = some 29500 ∧
    (speechPollTicks h w.speechPolls.length fss
        ((handleSpeechToText h audioFile triggerId w).run fs0).state).2.filterMap
      TraceItem.posted = [] ∧
    (speechPollTicks h w.speechPolls.length (fss ++ [fsLast])
        ((handleSpeechToText h audioFile triggerId w).run fs0).state).2.filterMap
      TraceItem.posted
      = (if w.chatPanel.isSome then [.speechTranscribed "" none] else []) ∧
    (speechPollTicks h w.speechPolls.length (fss ++ [fsLast])
        ((handleSpeechToText h audioFile triggerId w).run fs0).state).2.filterMap
      TraceItem.unlinked = [speechTriggerFile h triggerId] ∧
    (speechPollTicks h w.speechPolls.length (fss ++ [fsLast])
        ((handleSpeechToText h audioFile triggerId w).run fs0).state).1 = w ∧
    (speechPollTicks h w.speechPolls.length (fss ++ [fsLast])
        ((handleSpeechToText h audioFile triggerId w).run fs0).state).2.any
      (TraceItem.isUnlinkOf audioFile) = false := by
  rw [handleSpeechToText_state h audioFile triggerId w fs0 hwrite]
  have hpoll := List.getElem?_append_length_self w.speechPolls
    ({ triggerId := triggerId, triggerFile := speechTriggerFile h triggerId,
       waitTime := 0 } : SpeechPoll)
  obtain ⟨h59, h60⟩ := speechPollTicks_timeout h w.speechPolls.length
    ({ w with speechPolls := w.speechPolls ++
        [{ triggerId := triggerId, triggerFile := speechTriggerFile h triggerId,
           waitTime := 0 }] } : Window)
    ({ triggerId := triggerId, triggerFile := speechTriggerFile h triggerId,
       waitTime := 0 } : SpeechPoll)
    fss fsLast hpoll rfl hlen habsent
  have hne : (speechTriggerFile h triggerId == audioFile) = false := by
    simpa using fun heq : speechTriggerFile h triggerId = audioFile => haudio heq.symm
  rw [h59, h60]
  refine ⟨?_, filterMap_posted_replicate _ _ _, ?_, ?_, ?_, ?_⟩
  · simp only [List.getElem?_map, List.getElem?_set_of_getElem? _ _ _ _ hpoll, Option.map]
  · simp only [List.filterMap_append, filterMap_posted_replicate, List.nil_append]
    cases w.chatPanel <;> simp [TraceItem.posted]
  · simp only [List.filterMap_append, filterMap_unlinked_replicate, List.nil_append]
    cases w.chatPanel <;> simp [TraceItem.unlinked]
  · simp only [List.eraseIdx_append_length_self]
  · simp only [List.any_append, List.any_cons, List.any_nil]
    cases w.chatPanel <;>
      simp [TraceItem.isUnlinkOf, hne, List.any_replicate]

/-- C21, for the recording of request `t6` in the window with the chat panel,
on a temp directory that never holds the response: the panel is posted the
empty transcription once, the speech trigger file is the only file removed,
and the audio file is not removed. -/
theorem speech_poll_times_out_witness :
    windowChat.chatPanel.isSome = true ∧
    (speechPollTicks posixHost windowChat.speechPolls.length
        (List.replicate 59 emptyFS ++ [emptyFS])
        ((handleSpeechToText posixHost "/tmp/review_gate_audio_t6_0.wav" (some (.str "t6"))
          windowChat).run emptyFS).state).2.filterMap TraceItem.posted
      = [.speechTranscribed "" none] ∧
    (speechPollTicks posixHost windowChat.speechPolls.length
        (List.replicate 59 emptyFS ++ [emptyFS])
        ((handleSpeechToText posixHost "/tmp/review_gate_audio_t6_0.wav" (some (.str "t6"))
          windowChat).run emptyFS).state).2.filterMap TraceItem.unlinked
      = ["/tmp/review_gate_speech_trigger_t6.json"] ∧
    (speechPollTicks posixHost windowChat.speechPolls.length
        (List.replicate 59 emptyFS ++ [emptyFS])
        ((handleSpeechToText posixHost "/tmp/review_gate_audio_t6_0.wav" (some (.str "t6"))
          windowChat).run emptyFS).state).2.any
      (TraceItem.isUnlinkOf "/tmp/review_gate_audio_t6_0.wav") = false :=
  have hthm := speech_poll_times_out posixHost "/tmp/review_gate_audio_t6_0.wav"
    (some (.str "t6")) windowChat emptyFS (List.replicate 59 emptyFS) emptyFS rfl rfl
    (by
      intro fs hfs
      have hfs2 : fs = emptyFS := by
        rcases List.mem_append.mp hfs with hmem | hmem
        · exact List.eq_of_mem_replicate hmem
        · simpa using hmem
      rw [hfs2]
      rfl)
    (by decide)
  ⟨rfl, hthm.2.2.1, hthm.2.2.2.1, hthm.2.2.2.2.2⟩

/-- Apart from an MCP response, `logUserInput` posts nothing to the panel and
removes no file. -/
theorem logUserInput_no_post (h : Host) (inputText : JsValue) (eventType : String)
    (triggerId attachments : JsValue) (w : Window) (fs : FS)
    (hne : (truthy (some (triggerId.getD .null)) && eventType == "MCP_RESPONSE") = false) :
    ((logUserInput h inputText eventType triggerId attachments w).run fs).trace.filterMap
      TraceItem.posted = [] ∧
    ((logUserInput h inputText eventType triggerId attachments w).run fs).trace.filterMap
      TraceItem.unlinked = [] := by
  unfold logUserInput
  simp only [Prog.run, Prog.tryCatch]
  cases hr : (fs.appendFileSync (userInputsLog h) (logLine h eventType inputText ++ "\n")).1 with
  | error e =>
    simp [Prog.tryCatch, logMessage, Prog.run, TraceItem.posted, TraceItem.unlinked]
  | ok u => simp [hne, Prog.tryCatch, Prog.run, TraceItem.posted, TraceItem.unlinked]

/-- The cleanup of `readTranscription` after a part `p` that does not throw:
both removals are attempted, and their failures are ignored. -/
theorem cleanup_run (p : Prog Window) (a b : String) (f : JsError → Window → Prog Window)
    (fs : FS) (hp : (p.run fs).error = none) :
    ((p.bind fun w1 => .unlinkSync a fun _ => .unlinkSync b fun _ => .done w1).tryCatch f).run fs
      = ⟨(p.run fs).state, none, (((p.run fs).fs.unlinkSync a).2.unlinkSync b).2,
         (p.run fs).trace ++
           [.unlinkSync a ((p.run fs).fs.unlinkSync a).1,
            .unlinkSync b (((p.run fs).fs.unlinkSync a).2.unlinkSync b).1]⟩ := by
  have hrun : (p.bind fun w1 => .unlinkSync a fun _ => .unlinkSync b fun _ => .done w1).run fs
      = ⟨(p.run fs).state, none, (((p.run fs).fs.unlinkSync a).2.unlinkSync b).2,
         (p.run fs).trace ++
           [.unlinkSync a ((p.run fs).fs.unlinkSync a).1,
            .unlinkSync b (((p.run fs).fs.unlinkSync a).2.unlinkSync b).1]⟩ := by
    rw [Prog.run_bind]
    generalize p.run fs = r at hp
    simp [Run.andThen, hp, Prog.run]
  rw [Prog.run_tryCatch_of_error_none _ _ _ (by rw [hrun])]
  exact hrun

/-- What a poll does with a response file that holds a transcription: it posts
the transcription to the open panel, logs it, and attempts to remove the
response file and the speech trigger file. -/
theorem readTranscription_run_ok (h : Host) (poll : SpeechPoll) (w : Window) (fs : FS)
    (content : Content) (result t : JVal)
    (hread : fs.readFileSync (speechResultFile h poll.triggerId) = .ok content)
    (hparse : content.parse = .ok result) (hnn : result ≠ .null)
    (ht : result.getProp "transcription" = some t) (htruthy : truthy (some t) = true) :
    ((readTranscription h poll w).run fs).state = w ∧
    ((readTranscription h poll w).run fs).error = none ∧
    ((readTranscription h poll w).run fs).trace.filterMap TraceItem.posted
      = (if w.chatPanel.isSome then [.speechResult t] else []) ∧
    ((readTranscription h poll w).run fs).trace.filterMap TraceItem.unlinked
      = [speechResultFile h poll.triggerId, poll.triggerFile] := by
  have hlog := logUserInput_no_post h (some (.str ("Speech transcribed: " ++ renderJs (some t))))
    "SPEECH_TRANSCRIBED" poll.triggerId none w fs (by simp)
  have herr := logUserInput_error_none h (some (.str ("Speech transcribed: " ++ renderJs (some t))))
    "SPEECH_TRANSCRIBED" poll.triggerId none w fs
  have hst := logUserInput_state h (some (.str ("Speech transcribed: " ++ renderJs (some t))))
    "SPEECH_TRANSCRIBED" poll.triggerId none w fs
  have hA : ∀ A : Prog Window, (A.run fs).error = none → (A.run fs).state = w →
      (A.run fs).trace.filterMap TraceItem.posted
        = (if w.chatPanel.isSome then [.speechResult t] else []) →
      (A.run fs).trace.filterMap TraceItem.unlinked = [] →
      ((Prog.readFileSync (speechResultFile h poll.triggerId) fun r =>
          ((A.bind fun w1 =>
            .unlinkSync (speechResultFile h poll.triggerId) fun _ =>
            .unlinkSync poll.triggerFile fun _ => .done w1).tryCatch
            fun _ w1 => .done w1)).run fs).state = w ∧
      ((Prog.readFileSync (speechResultFile h poll.triggerId) fun r =>
          ((A.bind fun w1 =>
            .unlinkSync (speechResultFile h poll.triggerId) fun _ =>
            .unlinkSync poll.triggerFile fun _ => .done w1).tryCatch
            fun _ w1 => .done w1)).run fs).error = none ∧
      ((Prog.readFileSync (speechResultFile h poll.triggerId) fun r =>
          ((A.bind fun w1 =>
            .unlinkSync (speechResultFile h poll.triggerId) fun _ =>
            .unlinkSync poll.triggerFile fun _ => .done w1).tryCatch
            fun _ w1 => .done w1)).run fs).trace.filterMap TraceItem.posted
        = (if w.chatPanel.isSome then [.speechResult t] else []) ∧
      ((Prog.readFileSync (speechResultFile h poll.triggerId) fun r =>
          ((A.bind fun w1 =>
            .unlinkSync (speechResultFile h poll.triggerId) fun _ =>
            .unlinkSync poll.triggerFile fun _ => .done w1).tryCatch
            fun _ w1 => .done w1)).run fs).trace.filterMap TraceItem.unlinked
        = [speechResultFile h poll.triggerId, poll.triggerFile] := by
    intro A hAe hAs hAp hAu
    simp only [Prog.run, cleanup_run A _ _ _ fs hAe, hAs, List.filterMap_cons,
      List.filterMap_append, hAp, hAu, TraceItem.posted, TraceItem.unlinked,
      List.filterMap_nil, List.append_nil, List.nil_append, and_self, true_and]
  have hpost : ((postIfPanel (.speechResult t) w
        (logUserInput h (some (.str ("Speech transcribed: " ++ renderJs (some t))))
          "SPEECH_TRANSCRIBED" poll.triggerId none w)).run fs).trace.filterMap TraceItem.posted
        = (if w.chatPanel.isSome then [.speechResult t] else []) ∧
      ((postIfPanel (.speechResult t) w
        (logUserInput h (some (.str ("Speech transcribed: " ++ renderJs (some t))))
          "SPEECH_TRANSCRIBED" poll.triggerId none w)).run fs).trace.filterMap TraceItem.unlinked
        = [] ∧
      ((postIfPanel (.speechResult t) w
        (logUserInput h (some (.str ("Speech transcribed: " ++ renderJs (some t))))
          "SPEECH_TRANSCRIBED" poll.triggerId none w)).run fs).error = none ∧
      ((postIfPanel (.speechResult t) w
        (logUserInput h (some (.str ("Speech transcribed: " ++ renderJs (some t))))
          "SPEECH_TRANSCRIBED" poll.triggerId none w)).run fs).state = w := by
    generalize logUserInput h (some (.str ("Speech transcribed: " ++ renderJs (some t))))
      "SPEECH_TRANSCRIBED" poll.triggerId none w = q at hlog herr hst
    cases hp : w.chatPanel <;>
      simp [postIfPanel, hp, Prog.run, hlog.1, hlog.2, herr, hst, TraceItem.posted,
        TraceItem.unlinked]
  have hres := hA _ hpost.2.2.1 hpost.2.2.2 hpost.1 hpost.2.1
  unfold readTranscription
  cases result with
  | null => exact absurd rfl hnn
  | _ =>
    simp only [Prog.tryCatch, Prog.run, hread, hparse, ht, htruthy, if_true, Option.getD]
    simp only [Prog.run, hread] at hres
    exact hres

/-- Whatever the response file holds, reading it returns normally, leaves the
module state as it was and posts at most one message. -/
theorem readTranscription_run_any (h : Host) (poll : SpeechPoll) (w : Window) (fs : FS) :
    ((readTranscription h poll w).run fs).state = w ∧
    ((readTranscription h poll w).run fs).error = none ∧
    (((readTranscription h poll w).run fs).trace.filterMap TraceItem.posted).length ≤ 1 := by
  have hB : ∀ tr : JsValue,
      (((if truthy tr then
            postIfPanel (.speechResult (tr.getD .null)) w
              (logUserInput h (some (.str ("Speech transcribed: " ++ renderJs tr)))
                "SPEECH_TRANSCRIBED" poll.triggerId none w)
          else .done w).run fs).error = none) ∧
      (((if truthy tr then
            postIfPanel (.speechResult (tr.getD .null)) w
              (logUserInput h (some (.str ("Speech transcribed: " ++ renderJs tr)))
                "SPEECH_TRANSCRIBED" poll.triggerId none w)
          else .done w).run fs).state = w) ∧
      ((((if truthy tr then
            postIfPanel (.speechResult (tr.getD .null)) w
              (logUserInput h (some (.str ("Speech transcribed: " ++ renderJs tr)))
                "SPEECH_TRANSCRIBED" poll.triggerId none w)
          else .done w).run fs).trace.filterMap TraceItem.posted).length ≤ 1) := by
    intro tr
    have hlog := logUserInput_no_post h (some (.str ("Speech transcribed: " ++ renderJs tr)))
      "SPEECH_TRANSCRIBED" poll.triggerId none w fs (by simp)
    have herr := logUserInput_error_none h (some (.str ("Speech transcribed: " ++ renderJs tr)))
      "SPEECH_TRANSCRIBED" poll.triggerId none w fs
    have hst := logUserInput_state h (some (.str ("Speech transcribed: " ++ renderJs tr)))
      "SPEECH_TRANSCRIBED" poll.triggerId none w fs
    generalize logUserInput h (some (.str ("Speech transcribed: " ++ renderJs tr)))
      "SPEECH_TRANSCRIBED" poll.triggerId none w = q at hlog herr hst
    cases truthy tr <;> cases hp : w.chatPanel <;>
      simp [postIfPanel, hp, Prog.run, hlog.1, herr, hst, TraceItem.posted]
  have hA : ∀ (A : Prog Window) (r : Except JsError Content), (A.run fs).error = none →
      (A.run fs).state = w → ((A.run fs).trace.filterMap TraceItem.posted).length ≤ 1 →
      (((A.bind fun w1 =>
            .unlinkSync (speechResultFile h poll.triggerId) fun _ =>
            .unlinkSync poll.triggerFile fun _ => .done w1).tryCatch
            fun _ w1 => .done w1).run fs).state = w ∧
      (((A.bind fun w1 =>
            .unlinkSync (speechResultFile h poll.triggerId) fun _ =>
            .unlinkSync poll.triggerFile fun _ => .done w1).tryCatch
            fun _ w1 => .done w1).run fs).error = none ∧
      ((((A.bind fun w1 =>
            .unlinkSync (speechResultFile h poll.triggerId) fun _ =>
            .unlinkSync poll.triggerFile fun _ => .done w1).tryCatch
            fun _ w1 => .done w1).run fs).trace.filterMap TraceItem.posted).length ≤ 1 := by
    intro A r hAe hAs hAp
    simp only [cleanup_run A _ _ _ fs hAe, hAs, List.filterMap_append, List.filterMap_cons,
      TraceItem.posted, List.filterMap_nil, List.append_nil, true_and]
    exact hAp
  unfold readTranscription
  simp only [Prog.tryCatch, Prog.run]
  cases hread : fs.readFileSync (speechResultFile h poll.triggerId) with
  | error e => simp [Prog.tryCatch, Prog.run, TraceItem.posted]
  | ok data =>
    cases hparse : data.parse with
    | error e => simp [hparse, Prog.tryCatch, Prog.run, TraceItem.posted]
    | ok result =>
      cases result with
      | null => simp [hparse, Prog.tryCatch, Prog.run, TraceItem.posted]
      | _ =>
        simp only [hparse, List.filterMap_cons, TraceItem.posted]
        exact hA _ (.ok data) (hB _).1 (hB _).2.1 (hB _).2.2

/-- A poll that finds the response file reads it, stops, and still makes the
deadline test: at the deadline it also posts the empty transcription and
attempts to remove the speech trigger file. -/
theorem speechPollTick_found (h : Host) (k : Nat) (w : Window) (fs : FS) (poll : SpeechPoll)
    (hpoll : w.speechPolls[k]? = some poll)
    (hfound : fs.existsSync (speechResultFile h poll.triggerId) = true) :
    ((speechPollTick h k w).run fs).state
      = { w with speechPolls := w.speechPolls.eraseIdx k } ∧
    ((speechPollTick h k w).run fs).trace
      = .existsSync (speechResultFile h poll.triggerId) true ::
          (((readTranscription h poll w).run fs).trace ++
            (if 30000 ≤ poll.waitTime + 500 then
              (if w.chatPanel.isSome then [.host (.postMessage (.speechTranscribed "" none))]
               else []) ++
              [.unlinkSync poll.triggerFile
                (((readTranscription h poll w).run fs).fs.unlinkSync poll.triggerFile).1]
             else [])) := by
  obtain ⟨hst, herr, _⟩ := readTranscription_run_any h poll w fs
  unfold speechPollTick
  simp only [hpoll]
  generalize readTranscription h poll w = p at hst herr
  simp only [Prog.run, hfound, if_true, Prog.run_bind]
  generalize p.run fs = r at hst herr
  by_cases hd : 30000 ≤ poll.waitTime + 500
  · have hge : poll.waitTime + 500 ≥ 30000 := hd
    cases hp : w.chatPanel <;>
      simp [Run.andThen, herr, hst, hge, hd, postIfPanel, hp, Prog.run]
  · have hge : ¬ (poll.waitTime + 500 ≥ 30000) := hd
    simp [Run.andThen, herr, hst, hge, hd, Prog.run]

/-- The poll as it stands after polls that did not find the response file. -/
theorem speechPollTicks_absent_state (h : Host) (k : Nat) (fss : List FS) (w : Window)
    (poll : SpeechPoll) (hpoll : w.speechPolls[k]? = some poll) (hzero : poll.waitTime = 0)
    (habsent : ∀ fs ∈ fss, fs.existsSync (speechResultFile h poll.triggerId) = false)
    (hlen : fss.length ≤ 59) :
    ∃ poll2, (speechPollTicks h k fss w).1.speechPolls[k]? = some poll2 ∧
      poll2.triggerId = poll.triggerId ∧ poll2.triggerFile = poll.triggerFile ∧
      poll2.waitTime = 500 * fss.length ∧
      (speechPollTicks h k fss w).1.chatPanel = w.chatPanel ∧
      (speechPollTicks h k fss w).1.speechPolls.eraseIdx k = w.speechPolls.eraseIdx k := by
  have habs := speechPollTicks_absent h k fss w poll hpoll habsent (by omega)
  rw [habs]
  refine ⟨{ poll with waitTime := poll.waitTime + 500 * fss.length },
    List.getElem?_set_of_getElem? _ _ _ _ hpoll, rfl, rfl, ?_, rfl, ?_⟩
  · simp only [hzero, Nat.zero_add]
  · simp only [List.eraseIdx_set_self]

/-- C30: a poll that finds the response file still makes the deadline test.
After polls that did not find the response file, when the 60th poll is the
first to find it (with a transcription, a panel being open), that one poll
posts the transcription and then the empty transcription of the timeout, and
attempts the removal of the speech trigger file twice; when an earlier poll
finds it, that poll posts at most one message (the transcription, when the
file holds one) and attempts the removal once. Either way the poll is no
longer registered afterwards. -/
theorem speech_poll_found_at_deadline (h : Host) (k : Nat) (w : Window) (poll : SpeechPoll)
    (fss : List FS) (fsLast : FS) (content : Content) (result t : JVal)
    (hpoll : w.speechPolls[k]? = some poll) (hzero : poll.waitTime = 0)
    (habsent : ∀ fs ∈ fss, fs.existsSync (speechResultFile h poll.triggerId) = false)
    (hfound : fsLast.existsSync (speechResultFile h poll.triggerId) = true)
    (hread : fsLast.readFileSync (speechResultFile h poll.triggerId) = .ok content)
    (hparse : content.parse = .ok result) (hnn : result ≠ .null)
    (ht : result.getProp "transcription" = some t) (htruthy : truthy (some t) = true)
    (hpanel : w.chatPanel.isSome = true) :
    (fss.length = 59 →
      ((speechPollTick h k (speechPollTicks h k fss w).1).run fsLast).trace.filterMap
          TraceItem.posted
        = [.speechResult t, .speechTranscribed "" none] ∧
      ((speechPollTick h k (speechPollTicks h k fss w).1).run fsLast).trace.filterMap
          TraceItem.unlinked
        = [speechResultFile h poll.triggerId, poll.triggerFile, poll.triggerFile] ∧
      ((speechPollTick h k (speechPollTicks h k fss w).1).run fsLast).state.speechPolls
        = w.speechPolls.eraseIdx k) ∧
    (fss.length < 59 →
      ((speechPollTick h k (speechPollTicks h k fss w).1).run fsLast).trace.filterMap
          TraceItem.posted
        = [.speechResult t] ∧
      ((speechPollTick h k (speechPollTicks h k fss w).1).run fsLast).trace.filterMap
          TraceItem.unlinked
        = [speechResultFile h poll.triggerId, poll.triggerFile] ∧
      ((speechPollTick h k (speechPollTicks h k fss w).1).run fsLast).state.speechPolls
        = w.speechPolls.eraseIdx k) ∧
    (fss.length < 59 → ∀ fsAny : FS,
      fsAny.existsSync (speechResultFile h poll.triggerId) = true →
      (((speechPollTick h k (speechPollTicks h k fss w).1).run fsAny).trace.filterMap
          TraceItem.posted).length ≤ 1 ∧
      ((speechPollTick h k (speechPollTicks h k fss w).1).run fsAny).state.speechPolls
        = w.speechPolls.eraseIdx k) := by
  have hmain : fss.length ≤ 59 → ∀ fsAny : FS,
      fsAny.existsSync (speechResultFile h poll.triggerId) = true →
      ∃ poll2, poll2.triggerId = poll.triggerId ∧ poll2.triggerFile = poll.triggerFile ∧
        poll2.waitTime = 500 * fss.length ∧
        (speechPollTicks h k fss w).1.chatPanel = w.chatPanel ∧
        ((speechPollTick h k (speechPollTicks h k fss w).1).run fsAny).state.speechPolls
          = w.speechPolls.eraseIdx k ∧
        ((speechPollTick h k (speechPollTicks h k fss w).1).run fsAny).trace
          = .existsSync (speechResultFile h poll2.triggerId) true ::
            (((readTranscription h poll2 (speechPollTicks h k fss w).1).run fsAny).trace ++
              (if 30000 ≤ poll2.waitTime + 500 then
                (if (speechPollTicks h k fss w).1.chatPanel.isSome then
                  [.host (.postMessage (.speechTranscribed "" none))]
                 else []) ++
                [.unlinkSync poll2.triggerFile
                  (((readTranscription h poll2 (speechPollTicks h k fss w).1).run
                    fsAny).fs.unlinkSync poll2.triggerFile).1]
               else [])) := by
    intro hlen fsAny hany
    obtain ⟨poll2, hp2, hid, hfile, hwait, hcp, herase⟩ :=
      speechPollTicks_absent_state h k fss w poll hpoll hzero habsent hlen
    obtain ⟨hst, htr⟩ := speechPollTick_found h k (speechPollTicks h k fss w).1 fsAny poll2 hp2
      (by rw [hid]; exact hany)
    refine ⟨poll2, hid, hfile, hwait, hcp, ?_, htr⟩
    rw [hst]
    exact herase
  refine ⟨?_, ?_, ?_⟩
  · intro hlen
    obtain ⟨poll2, hid, hfile, hwait, hcp, hstate, htr⟩ := hmain (by omega) fsLast hfound
    obtain ⟨_, _, hposted, hunlinked⟩ := readTranscription_run_ok h poll2
      (speechPollTicks h k fss w).1 fsLast content result t (by rw [hid]; exact hread) hparse hnn
      ht htruthy
    have hd : 30000 ≤ poll2.waitTime + 500 := by omega
    refine ⟨?_, ?_, hstate⟩
    · rw [htr]
      simp only [List.filterMap_cons, List.filterMap_append, hposted, hcp, hpanel, hd, if_true,
        TraceItem.posted, List.filterMap_nil, List.append_nil, List.nil_append,
        List.cons_append]
    · rw [htr]
      simp only [List.filterMap_cons, List.filterMap_append, hunlinked, hcp, hpanel, hd, if_true,
        TraceItem.unlinked, TraceItem.posted, List.filterMap_nil, List.append_nil,
        List.nil_append, List.cons_append, hid, hfile]
  · intro hlen
    obtain ⟨poll2, hid, hfile, hwait, hcp, hstate, htr⟩ := hmain (by omega) fsLast hfound
    obtain ⟨_, _, hposted, hunlinked⟩ := readTranscription_run_ok h poll2
      (speechPollTicks h k fss w).1 fsLast content result t (by rw [hid]; exact hread) hparse hnn
      ht htruthy
    have hd : ¬ (30000 ≤ poll2.waitTime + 500) := by omega
    refine ⟨?_, ?_, hstate⟩
    · rw [htr]
      simp only [List.filterMap_cons, List.filterMap_append, hposted, hcp, hpanel, hd, if_true,
        if_false, TraceItem.posted, List.filterMap_nil, List.append_nil, List.nil_append,
        List.cons_append]
    · rw [htr]
      simp only [List.filterMap_cons, List.filterMap_append, hunlinked, hcp, hpanel, hd, if_true,
        if_false, TraceItem.unlinked, List.filterMap_nil, List.append_nil, List.nil_append,
        List.cons_append, hid, hfile]
  · intro hlen fsAny hany
    obtain ⟨poll2, hid, hfile, hwait, hcp, hstate, htr⟩ := hmain (by omega) fsAny hany
    obtain ⟨_, _, hle⟩ := readTranscription_run_any h poll2 (speechPollTicks h k fss w).1 fsAny
    have hd : ¬ (30000 ≤ poll2.waitTime + 500) := by omega
    refine ⟨?_, hstate⟩
    rw [htr]
    simp only [List.filterMap_cons, List.filterMap_append, hd, if_false, TraceItem.posted,
      List.filterMap_nil, List.append_nil]
    exact hle

/-- C30, for the poll of request `t6` in the window with the chat panel, when
the response `hello world` appears between the 59th and the 60th poll: the
60th poll posts the transcription and the empty transcription, and attempts
the removal of the speech trigger file twice. -/
theorem speech_poll_found_at_deadline_witness :
    ((speechPollTick posixHost 0
        (speechPollTicks posixHost 0 (List.replicate 59 emptyFS) windowPolling).1).run
      fsTranscribed).trace.filterMap TraceItem.posted
      = [.speechResult (.str "hello world"), .speechTranscribed "" none] ∧
    ((speechPollTick posixHost 0
        (speechPollTicks posixHost 0 (List.replicate 59 emptyFS) windowPolling).1).run
      fsTranscribed).trace.filterMap TraceItem.unlinked
      = ["/tmp/review_gate_speech_response_t6.json", "/tmp/review_gate_speech_trigger_t6.json",
         "/tmp/review_gate_speech_trigger_t6.json"] :=
  have hpoll : windowPolling.speechPolls[0]? = some
      { triggerId := some (.str "t6"), triggerFile := "/tmp/review_gate_speech_trigger_t6.json",
        waitTime := 0 } := rfl
  have hthm := speech_poll_found_at_deadline posixHost 0 windowPolling _
    (List.replicate 59 emptyFS) fsTranscribed (.json speechResponse) speechResponse
    (.str "hello world") hpoll rfl
    (by
      intro fs hfs
      rw [List.eq_of_mem_replicate hfs]
      rfl)
    rfl rfl rfl (by simp [speechResponse]) rfl rfl rfl
  ⟨(hthm.1 rfl).1, (hthm.1 rfl).2.1⟩

end ReviewGate
